import Mathlib

/-!
# Revert workflow of Huggle (`src/huggle_core/revertquery.cpp`)

A shallow embedding of `RevertQuery`: the object's fields become the record
`RevertQuery`, every method becomes a function passing that record, and every
call to a collaborator (syslog, hooks, remote queries, the failure
notification) is appended to the record's `trace` in program order.
Collaborators whose code is not part of `revertquery.cpp` (string sanitising,
localisation, Qt's number parsing, the yes/no hook) are fields of `Env`.
-/

namespace Huggle

/-! ## Data model -/

/-- Values of `Query::status` that `revertquery.cpp` reads or writes. -/
inductive QueryStatus where
  | StatusNull
  | StatusDone
  | StatusKilled
  | StatusProcessing
  | StatusInError
  | StatusIsSuspended
  deriving DecidableEq, Repr

/-- Modelled from the spec: a node of the structured result tree of a remote
query (`ApiQueryResultNode`, declared in `apiqueryresult.hpp`): a name, a table
of attributes and the node's text. -/
structure ApiQueryResultNode where
  Name : String
  Attributes : List (String × String)
  Value : String
  deriving DecidableEq, Repr

/-- Modelled from the spec: `node->Attributes.contains(key)`, the result tree
is queryable by attribute name. -/
def ApiQueryResultNode.contains (n : ApiQueryResultNode) (key : String) : Bool :=
  n.Attributes.any (fun kv => kv.1 == key)

/-- Modelled from the spec: `node->GetAttribute(key)`, the value stored under
an attribute name (the empty string when there is none). -/
def ApiQueryResultNode.GetAttribute (n : ApiQueryResultNode) (key : String) : String :=
  match n.Attributes.find? (fun kv => kv.1 == key) with
  | some kv => kv.2
  | none => ""

/-- Modelled from the spec: `ApiQueryResult::GetNode(name)`, the first node of
the result tree with that name, if any. -/
def GetNode (nodes : List ApiQueryResultNode) (name : String) : Option ApiQueryResultNode :=
  nodes.find? (fun n => n.Name == name)

/-- Modelled from the spec: `ApiQueryResult::GetNodes(name)`, all nodes of the
result tree with that name, in server order. -/
def GetNodes (nodes : List ApiQueryResultNode) (name : String) : List ApiQueryResultNode :=
  nodes.filter (fun n => n.Name == name)

/-- Modelled from the spec: the outcome object `QueryResult` (declared in
`queryresult.hpp`): raw payload, error text and failure flag. -/
structure QueryResult where
  Data : String
  ErrorMessage : String
  Failed : Bool
  deriving DecidableEq, Repr

/-- Modelled from the spec: `new QueryResult()`, a result that is not failed. -/
def QueryResult.new : QueryResult := ⟨"", "", false⟩

/-- Modelled from the spec: `new QueryResult(failed)`. -/
def QueryResult.newFailed (failed : Bool) : QueryResult := ⟨"", "", failed⟩

/-- Modelled from the spec: `Result->SetError()` without a text. -/
def QueryResult.SetError (r : QueryResult) : QueryResult := { r with Failed := true }

/-- Modelled from the spec: `Result->SetError(text)`. -/
def QueryResult.SetErrorMsg (r : QueryResult) (msg : String) : QueryResult :=
  { r with ErrorMessage := msg, Failed := true }

/-- Action kinds of the remote queries the workflow issues. -/
inductive Action where
  | ActionQuery
  | ActionRollback
  deriving DecidableEq, Repr

/-- Modelled from the spec: a remote query (`ApiQuery`): what the workflow
wrote into it (`action`, `Parameters`, `Target`, `UsingPOST`) and what the
collaborator reports back (`Processed` for `IsProcessed()`, `Failed` for
`IsFailed()`, `FailureReason`, the result tree `Nodes` and the raw `Data`). -/
structure ApiQuery where
  action : Action
  Parameters : String
  Target : String
  UsingPOST : Bool
  Processed : Bool
  Failed : Bool
  FailureReason : String
  Nodes : List ApiQueryResultNode
  Data : String
  deriving DecidableEq, Repr

/-- Modelled from the spec: `new ApiQuery(action, site)`, a query that has not
reported anything yet. -/
def ApiQuery.new (a : Action) : ApiQuery :=
  ⟨a, "", "", false, false, false, "", [], ""⟩

/-- Modelled from the spec: the edit-submit query returned by
`WikiUtil::EditPage(page, text, summary, minor)`. -/
structure EditQuery where
  Page : String
  Text : String
  Summary : String
  Minor : Bool
  Processed : Bool
  Failed : Bool
  FailureReason : String
  deriving DecidableEq, Repr

/-- Modelled from the spec: author identity with its badness score (`WikiUser`). -/
structure WikiUser where
  Username : String
  BadnessScore : Int
  deriving DecidableEq, Repr

/-- Modelled from the spec: page identity (`WikiPage`). -/
structure WikiPage where
  PageName : String
  deriving DecidableEq, Repr

/-- Modelled from the spec: an edit known to the process (`WikiEdit`): page,
author, revision id, timestamp and the post-processed flag; `addr` is the
object's identity, which `preflightCheck` compares as a pointer. -/
structure WikiEdit where
  addr : Nat
  Page : WikiPage
  User : WikiUser
  RevID : Int
  Time : Int
  PostProcessed : Bool
  deriving DecidableEq, Repr

/-- Kinds of history record. -/
inductive HistoryType where
  | HistoryRollback
  | HistoryEdit
  deriving DecidableEq, Repr

/-- Modelled from the spec: the history record handed to the history hook;
`Kind` is the field `Type` of `HistoryItem`. -/
structure HistoryItem where
  Target : String
  Kind : HistoryType
  Result : String
  deriving DecidableEq, Repr

/-- Names of the query slots a `RevertQuery` owns. -/
inductive Slot where
  | qPreflight
  | qRevert
  | qHistoryInfo
  | qRetrieve
  deriving DecidableEq, Repr

/-- Calls the workflow makes to its collaborators, in program order. -/
inductive Effect where
  | Log (msg : String)
  | ErrorLog (msg : String)
  | DebugLog (msg : String)
  | ShowYesNoQuestion (title text : String)
  | processFailure
  | OnNewHistoryItem (item : HistoryItem)
  | Logout
  | QueryProcess (slot : Slot) (q : ApiQuery)
  | QueryKill (slot : Slot)
  | QueryPoolAppend
  | EditPage (page content summary : String) (minor : Bool)
  | UpdateUser (user : WikiUser)
  | RegisterConsumerTmr
  | UnregisterConsumerTmr
  | UnregisterConsumerRevert
  | SoftException (msg : String)
  | HUGGLE_DEBUG (msg : String) (verbosity : Nat)
  | QuerySetError (slot : Slot) (msg : String)
  | NullPointer (slot : Slot)
  deriving DecidableEq, Repr

/-- Configuration, site data, the edit registry and the collaborators that
`revertquery.cpp` calls but does not define. -/
structure Env where
  AutomaticallyResolveConflicts : Bool
  RevertNewBySame : Bool
  RevertOnMultipleEdits : Bool
  ConfirmMultipleEdits : Bool
  Verbosity : Int
  Token_Rollback : String
  Rights : List String
  SoftwareRevertDefaultSummary : String
  RollbackSummaryUnknownTarget : String
  Tag : String
  TagsSupported : Bool
  Watchlist : String
  WIKI_UNKNOWN_REVID : Int
  EditList : List WikiEdit
  SanitizeUser : String → String
  toInt : String → Int
  l : String → List String → String
  toPercentEncoding : String → String
  GenerateSuffix : String → String
  PageEqualTo : WikiPage → WikiPage → Bool
  UserEqualTo : WikiUser → WikiUser → Bool
  ShowYesNoQuestion : String → String → Bool → Bool

/-- Fields of a `RevertQuery` object, the session flag of its site
(`IsLoggedIn`, which `Configuration::Logout` clears) and the trace of
collaborator calls made so far. -/
structure RevertQuery where
  ID : Nat
  status : QueryStatus
  CustomStatus : String
  Result : Option QueryResult
  editToBeReverted : WikiEdit
  Summary : String
  MinorEdit : Bool
  oneEditOnly : Bool
  usingSR : Bool
  IgnorePreflightCheck : Bool
  preflightFinished : Bool
  rollingBack : Bool
  SR_RevID : Int
  SR_Depth : Nat
  SR_Target : String
  qPreflight : Option ApiQuery
  qRevert : Option ApiQuery
  qHistoryInfo : Option ApiQuery
  qRetrieve : Option ApiQuery
  eqSoftwareRollback : Option EditQuery
  HI : Option HistoryItem
  timer : Bool
  IsLoggedIn : Bool
  trace : List Effect
  deriving DecidableEq, Repr

/-- Modelled from the spec: a freshly constructed workflow. The constructor
`RevertQuery(edit, site)` (lines 37-43) sets the edit and the unknown
`SR_RevID`; the initial values of the other fields are those of the class
declaration in `revertquery.hpp`: flags off, slots empty, texts empty. -/
def RevertQuery.new (env : Env) (edit : WikiEdit) (loggedIn : Bool) : RevertQuery :=
  { ID := 0, status := .StatusNull, CustomStatus := "", Result := none,
    editToBeReverted := edit, Summary := "", MinorEdit := false,
    oneEditOnly := false, usingSR := false, IgnorePreflightCheck := false,
    preflightFinished := false, rollingBack := false,
    SR_RevID := env.WIKI_UNKNOWN_REVID, SR_Depth := 0, SR_Target := "",
    qPreflight := none, qRevert := none, qHistoryInfo := none, qRetrieve := none,
    eqSoftwareRollback := none, HI := none, timer := false,
    IsLoggedIn := loggedIn, trace := [] }

/-! ## Collaborator calls -/

/-- Record one collaborator call. -/
def emit (e : Effect) (s : RevertQuery) : RevertQuery :=
  { s with trace := s.trace ++ [e] }

/-- Modelled from the spec: `Query::Suspend()`, the workflow enters the
explicit state Suspended. -/
def Suspend (s : RevertQuery) : RevertQuery :=
  { s with status := .StatusIsSuspended }

/-- Modelled from the spec: `Configuration::Logout(site)`, credential
invalidation: the session of the site is no longer valid. -/
def Logout (s : RevertQuery) : RevertQuery :=
  emit .Logout { s with IsLoggedIn := false }

/-- Number of times the yes/no hook was invoked in a trace. -/
def hookCalls (t : List Effect) : Nat :=
  t.countP (fun e => match e with | .ShowYesNoQuestion _ _ => true | _ => false)

/-- Number of failure notifications (`processFailure`) in a trace. -/
def failureCalls (t : List Effect) : Nat :=
  t.countP (fun e => e == .processFailure)

/-- Number of remote queries started (`Process()` on an `ApiQuery`) in a trace. -/
def queryCalls (t : List Effect) : Nat :=
  t.countP (fun e => match e with | .QueryProcess _ _ => true | _ => false)

/-- Number of content-replacement edits submitted in a trace. -/
def editCalls (t : List Effect) : Nat :=
  t.countP (fun e => match e with | .EditPage _ _ _ _ => true | _ => false)

/-! ## Qt string operations -/

/-- Worker of `QString_replace`: `skip` counts the characters of a matched
occurrence that are still to be dropped. -/
def replaceGo (before after : List Char) : Nat → List Char → List Char
  | _, [] => []
  | skip + 1, _ :: cs => replaceGo before after skip cs
  | 0, c :: cs =>
    if before.isPrefixOf (c :: cs) then after ++ replaceGo before after (before.length - 1) cs
    else c :: replaceGo before after 0 cs

/-- `QString::replace(before, after)` for a non-empty `before`: every
occurrence, left to right, without rescanning inserted text. -/
def QString_replace (s before after : String) : String :=
  String.mk (replaceGo before.data after.data 0 s.data)

/-- Worker of `QString_contains`. -/
def containsGo (pat : List Char) : List Char → Bool
  | [] => pat.isEmpty
  | c :: cs => pat.isPrefixOf (c :: cs) || containsGo pat cs

/-- `QString::contains(str)`. -/
def QString_contains (s pat : String) : Bool := containsGo pat.data s.data

/-- `QString::endsWith(str)`. -/
def QString_endsWith (s pat : String) : Bool := pat.data.isSuffixOf s.data

/-! ## Methods of `RevertQuery` -/

/-- `RevertQuery::freeResources` (lines 749-763). -/
def freeResources (s : RevertQuery) : RevertQuery :=
  let s := if s.timer then { s with timer := false } else s
  let s := { s with eqSoftwareRollback := none }
  let s := emit .UnregisterConsumerTmr s
  { s with qHistoryInfo := none, qRevert := none, qPreflight := none, qRetrieve := none }

/-- `RevertQuery::Kill` (lines 130-160). -/
def Kill (s : RevertQuery) : RevertQuery :=
  let s := if s.qRevert.isSome then emit (.QueryKill .qRevert) s else s
  let s := if s.qPreflight.isSome
    then { emit (.QueryKill .qPreflight) s with qPreflight := none } else s
  let s := if s.qHistoryInfo.isSome
    then { emit (.QueryKill .qHistoryInfo) s with qHistoryInfo := none } else s
  let s := { s with status := .StatusKilled }
  let s := if s.qRetrieve.isSome
    then { emit (.QueryKill .qRetrieve) s with qRetrieve := none } else s
  let s := { s with qRevert := none }
  let s := freeResources s
  { s with CustomStatus := "", preflightFinished := false, rollingBack := false }

/-- `RevertQuery::displayError` (lines 52-62); a call without `reason` passes
the empty string, and `reason` is not read after being defaulted. -/
def displayError (s : RevertQuery) (error : String) (reason : String) : RevertQuery :=
  let _reason := if reason = "" then error else reason
  let s := emit (.ErrorLog error) s
  let s := Kill s
  let s := { s with status := .StatusDone }
  let s := { s with Result := some QueryResult.new }
  let s := { s with Result := s.Result.map QueryResult.SetError }
  emit .processFailure s

/-- `RevertQuery::cancelRevert` (lines 481-490). -/
def cancelRevert (s : RevertQuery) : RevertQuery :=
  let s := freeResources s
  let s := { s with CustomStatus := "Stopped" }
  let s := { s with Result := some (QueryResult.newFailed true) }
  let s := { s with Result := s.Result.map (fun r => QueryResult.SetErrorMsg r "User requested to abort this") }
  let s := { s with status := .StatusDone }
  let s := { s with preflightFinished := true }
  emit .processFailure s

/-- `RevertQuery::getCustomRevertStatus` (lines 64-89); `q` is the query held
in `qRevert`, the result is the status text, the out-parameter `failed` and
the object afterwards. -/
def getCustomRevertStatus (env : Env) (q : ApiQuery) (s : RevertQuery) :
    String × Bool × RevertQuery :=
  match GetNode q.Nodes "error" with
  | some ms =>
    if ms.contains "code" then
      let Error := ms.GetAttribute "code"
      if Error = "alreadyrolled" then
        ("Edit was reverted by someone else - skipping", true, s)
      else if Error = "onlyauthor" then
        ("ERROR: Cannot rollback - page only has one author", true, s)
      else if Error = "badtoken" then
        let msg := "ERROR: Cannot rollback, token " ++ env.Token_Rollback ++
          " is not valid for some reason (mediawiki bug), trying once more"
        let s := Suspend s
        let s := Logout s
        (msg, true, s)
      else
        ("In error (" ++ Error ++ ")", true, s)
    else
      ("Reverted", false, s)
  | none => ("Reverted", false, s)

/-- Loop body of the conflict re-check in `evaluateRevert` (lines 591-620);
the accumulator is `(passed, new_edits_resv, object)`. -/
def conflictStep (env : Env) (acc : Bool × Bool × RevertQuery) (e : ApiQueryResultNode) :
    Bool × Bool × RevertQuery :=
  let (passed, new_edits_resv, s) := acc
  if e.contains "revid" then
    if s.editToBeReverted.RevID = env.toInt (e.GetAttribute "revid") then
      (passed, new_edits_resv, s)
    else if s.editToBeReverted.RevID ≠ env.WIKI_UNKNOWN_REVID ∧
        env.toInt (e.GetAttribute "revid") > s.editToBeReverted.RevID then
      let s := emit (.HUGGLE_DEBUG ("RevID " ++ toString (env.toInt (e.GetAttribute "revid")) ++
        " > " ++ toString s.editToBeReverted.RevID) 2) s
      if env.AutomaticallyResolveConflicts && env.RevertNewBySame && e.contains "user" &&
          env.SanitizeUser (e.GetAttribute "user") == s.editToBeReverted.User.Username then
        if !new_edits_resv then
          (passed, true, emit (.Log (env.l "cr-newer-edits" [s.editToBeReverted.Page.PageName])) s)
        else
          (passed, new_edits_resv, s)
      else
        (false, new_edits_resv, emit (.HUGGLE_DEBUG
          "Newer edits found but no auto conflict resolution rule could be used" 1) s)
    else
      (passed, new_edits_resv, s)
  else
    (passed, new_edits_resv, s)

/-- Target search of `evaluateRevert` (lines 628-652), a loop with `break`
and `return`; the flag is true when the loop returned from the function
(a node without `revid` or `user`). Line 634 reads `qHistoryInfo` after
`displayError` has run `Kill`, which empties that slot; the read of the empty
slot is recorded as `NullPointer`. -/
def findTarget (env : Env) : List ApiQueryResultNode → RevertQuery → Bool × RevertQuery
  | [], s => (false, s)
  | node :: rest, s =>
    if !node.contains "revid" || !node.contains "user" then
      let s := displayError s ("Unable to revert the page " ++ s.editToBeReverted.Page.PageName ++
        " because mediawiki returned some non-sense") ""
      match s.qHistoryInfo with
      | some q => (true, emit (.DebugLog ("Nonsense: " ++ q.Data)) s)
      | none => (true, emit (.NullPointer .qHistoryInfo) s)
    else
      let sanitized := env.SanitizeUser (node.GetAttribute "user")
      if (decide (s.SR_Depth ≥ 1) && s.oneEditOnly) ||
          sanitized != s.editToBeReverted.User.Username then
        let s := if decide (env.Verbosity > 1) && sanitized != s.editToBeReverted.User.Username
          then emit (.DebugLog ("found match for revert (depth " ++ toString s.SR_Depth ++
            ") user " ++ sanitized ++ " != " ++ s.editToBeReverted.User.Username)) s
          else s
        (false, { s with SR_RevID := env.toInt (node.GetAttribute "revid"), SR_Target := sanitized })
      else
        findTarget env rest { s with SR_Depth := s.SR_Depth + 1 }

/-- Content-fetch stage of `evaluateRevert` (lines 516-569), entered when
`qRetrieve` holds the query `qr`. -/
def evaluateRevert_retrieve (env : Env) (qr : ApiQuery) (s : RevertQuery) : Bool × RevertQuery :=
  if !qr.Processed then
    (false, s)
  else if qr.Failed then
    (true, displayError s
      "Unable to rollback the edit because previous content couldn't be retrieved" "")
  else
    let summary := s.Summary
    match GetNode qr.Nodes "rev" with
    | none =>
      (true, displayError s
        "Unable to rollback the edit because previous content couldn't be retrieved" "")
    | some info =>
      if !info.contains "revid" then
        (true, displayError s ("Unable to rollback the edit because query used to retrieve " ++
          "the content of previous version retrieved no RevID") "")
      else
        let rv := info.GetAttribute "revid"
        if env.toInt rv ≠ s.SR_RevID then
          (true, displayError s ("Unable to rollback the edit because query used to retrieve " ++
            "the content of previous version returned invalid RevID") "")
        else
          let content := info.Value
          let summary := if summary = "" then env.SoftwareRevertDefaultSummary else summary
          let summary := QString_replace summary "$1" s.editToBeReverted.User.Username
          let summary := QString_replace summary "$2" s.SR_Target
          let summary := QString_replace summary "$3" (toString s.SR_Depth)
          let summary := QString_replace summary "$4" (toString s.SR_RevID)
          let summary := env.GenerateSuffix summary
          if content = "" then
            (true, displayError s ("Cowardly refusing to blank \"" ++
              s.editToBeReverted.Page.PageName ++
              "\" software rollback was cancelled to prevent damage")
              "content was resolved to blank edit")
          else
            let s := emit (.EditPage s.editToBeReverted.Page.PageName content summary s.MinorEdit) s
            let eq : EditQuery :=
              ⟨s.editToBeReverted.Page.PageName, content, summary, s.MinorEdit, false, false, ""⟩
            let s := { s with eqSoftwareRollback := some eq }
            (false, { s with CustomStatus := env.l "editing-page" [] })

/-- History stage of `evaluateRevert` (lines 570-673), entered when
`qHistoryInfo` holds the query `qh` and no later stage has started. -/
def evaluateRevert_history (env : Env) (qh : ApiQuery) (s : RevertQuery) : Bool × RevertQuery :=
  if !qh.Processed then
    (false, s)
  else if qh.Failed then
    (true, displayError s
      ("Failed to retrieve a list of edits made to this page: " ++ qh.FailureReason) "")
  else
    let revs := GetNodes qh.Nodes "rev"
    if revs.length = 0 then
      (true, displayError s
        "Failed to retrieve a list of edits made to this page, query returned no data" "")
    else
      let s := { s with SR_Depth := 0 }
      let (passed, _, s) := revs.foldl (conflictStep env) (true, false, s)
      if !passed then
        (true, displayError s (env.l "revert-cannotundo" [s.editToBeReverted.Page.PageName]) "")
      else
        let (returned, s) := findTarget env revs s
        if returned then
          (true, s)
        else if s.SR_Depth = 0 then
          let s := displayError s (env.l "revert-fail"
            [s.editToBeReverted.Page.PageName, "because it was edited meanwhile"]) ""
          (true, emit (.DebugLog "revert failed because of 0 depth") s)
        else if s.SR_RevID = env.WIKI_UNKNOWN_REVID then
          (true, displayError s (env.l "revert-fail" [s.editToBeReverted.Page.PageName,
            "because no previous version could be retrieved"]) "")
        else
          let s := { s with CustomStatus := "Retrieving content of previous version" }
          let q := { ApiQuery.new .ActionQuery with
            Parameters := ("prop=revisions&revids=" ++ toString s.SR_RevID ++ "&rvprop=" ++
              env.toPercentEncoding "ids|content") }
          let s := { s with qRetrieve := some q }
          (false, emit (.QueryProcess .qRetrieve q) s)

/-- `RevertQuery::evaluateRevert` (lines 492-673). -/
def evaluateRevert (env : Env) (s : RevertQuery) : Bool × RevertQuery :=
  match s.eqSoftwareRollback with
  | some eq =>
    if !eq.Processed then
      (false, s)
    else
      let s := { s with Result := some QueryResult.new }
      if eq.Failed then
        let s := emit (.ErrorLog (env.l "revert-fail"
          [s.editToBeReverted.Page.PageName, "edit failed"])) s
        let s := { s with Result := s.Result.map (fun r => QueryResult.SetErrorMsg r eq.FailureReason) }
        let s := Kill s
        let s := emit .processFailure s
        (true, { s with status := .StatusInError })
      else
        (true, emit (.DebugLog ("Sucessful SR of page " ++ s.editToBeReverted.Page.PageName)) s)
  | none =>
    match s.qRetrieve with
    | some qr => evaluateRevert_retrieve env qr s
    | none =>
      match s.qHistoryInfo with
      | none => (false, s)
      | some qh => evaluateRevert_history env qh s

/-- `RevertQuery::evaluateRevertQueryResults` (lines 438-479). -/
def evaluateRevertQueryResults (env : Env) (s : RevertQuery) : Bool × RevertQuery :=
  if s.usingSR then
    evaluateRevert env s
  else if s.status = .StatusIsSuspended then
    (false, s)
  else
    match s.qRevert with
    | none => (false, s)
    | some q =>
      if !q.Processed then
        (false, s)
      else
        let (text, failed, s) := getCustomRevertStatus env q s
        let s := { s with CustomStatus := text }
        if s.status = .StatusIsSuspended then
          (false, s)
        else
          let (failed, s) :=
            if !failed && q.Failed then (true, { s with CustomStatus := q.FailureReason })
            else (failed, s)
          let s :=
            if failed then
              let s := { s with status := .StatusInError }
              let s := emit (.Log (env.l "revert-fail" [q.Target, s.CustomStatus])) s
              let s := emit (.QuerySetError .qRevert s.CustomStatus) s
              let s := { s with Result := some (QueryResult.newFailed true) }
              let s := { s with
                Result := s.Result.map (fun r => QueryResult.SetErrorMsg r s.CustomStatus) }
              emit .processFailure s
            else
              let s := { s with status := .StatusDone }
              let s := { s with Result := some QueryResult.new }
              let s := { s with Result := s.Result.map (fun (r : QueryResult) => { r with Data := q.Data }) }
              let item : HistoryItem := ⟨q.Target, .HistoryRollback, env.l "successful" []⟩
              let s := { s with HI := some item }
              emit (.OnNewHistoryItem item) s
          let s := emit .UnregisterConsumerRevert s
          (true, { s with qRevert := none })

/-- Loop body of the registry scan in `preflightCheck` (lines 258-274); the
accumulator is `(failed, made_by_same_user)`. -/
def registryStep (env : Env) (edit : WikiEdit) (acc : Bool × Bool) (w : WikiEdit) : Bool × Bool :=
  let (failed, made_by_same_user) := acc
  if !w.PostProcessed then
    (failed, made_by_same_user)
  else if w.addr ≠ edit.addr then
    if !env.PageEqualTo w.Page edit.Page then
      (failed, made_by_same_user)
    else if w.Time > edit.Time then
      let made_by_same_user := if !env.UserEqualTo w.User edit.User then false else made_by_same_user
      (true, made_by_same_user)
    else
      (failed, made_by_same_user)
  else
    (failed, made_by_same_user)

/-- Conflict detection of `preflightCheck` (lines 251-276): the pair
`(failed, made_by_same_user)` after the registry scan. -/
def preflightCheck_detect (env : Env) (s : RevertQuery) : Bool × Bool :=
  if !s.oneEditOnly then
    env.EditList.foldl (registryStep env s.editToBeReverted) (false, true)
  else
    (false, true)

/-- Tail of `preflightCheck` (lines 316-320): the preflight query is created
and started. -/
def preflightCheck_query (env : Env) (s : RevertQuery) : RevertQuery :=
  let q := { ApiQuery.new .ActionQuery with
    Parameters := ("prop=revisions&rvprop=" ++
      env.toPercentEncoding "ids|flags|timestamp|user|userid|size|sha1|comment" ++
      "&rvlimit=20&titles=" ++ env.toPercentEncoding s.editToBeReverted.Page.PageName) }
  let s := { s with qPreflight := some q }
  emit (.QueryProcess .qPreflight q) s

/-- `RevertQuery::preflightCheck` (lines 248-321). -/
def preflightCheck (env : Env) (s : RevertQuery) : RevertQuery :=
  let (failed, made_by_same_user) := preflightCheck_detect env s
  if failed then
    if env.AutomaticallyResolveConflicts then
      if made_by_same_user && env.RevertNewBySame then
        let s := { s with IgnorePreflightCheck := true }
        let s := emit (.Log (env.l "cr-newer-edits" [s.editToBeReverted.Page.PageName])) s
        preflightCheck_query env s
      else
        let s := emit (.Log (env.l "cr-stop-new-edit" [s.editToBeReverted.Page.PageName])) s
        cancelRevert s
    else
      let text :=
        if made_by_same_user then env.l "cr-message-new" [s.editToBeReverted.Page.PageName]
        else env.l "cr-message-not-same" [s.editToBeReverted.Page.PageName]
      let s := emit (.ShowYesNoQuestion (env.l "revert-preflightcheck" []) text) s
      if !env.ShowYesNoQuestion (env.l "revert-preflightcheck" []) text false then
        cancelRevert s
      else
        let s := { s with IgnorePreflightCheck := true }
        preflightCheck_query env s
  else
    preflightCheck_query env s

/-- Loop body of the scan of the server history in `evaluatePreflightCheck`
(lines 347-377); the accumulator is
`(multiple_edits, previous_edits_made_by_same_user, passed)`. -/
def preflightStep (env : Env) (edit : WikiEdit) (acc : Bool × Bool × Bool)
    (result : ApiQueryResultNode) : Bool × Bool × Bool :=
  let (multiple_edits, previous_edits_made_by_same_user, passed) := acc
  if result.contains "revid" then
    let revision_ID := env.toInt (result.GetAttribute "revid")
    if edit.RevID = revision_ID then
      (multiple_edits, previous_edits_made_by_same_user, passed)
    else
      let (multiple_edits, previous_edits_made_by_same_user) :=
        if result.contains "user" then
          let user := env.SanitizeUser (result.GetAttribute "user")
          if previous_edits_made_by_same_user && decide (edit.RevID ≠ env.WIKI_UNKNOWN_REVID) &&
              decide (revision_ID > edit.RevID) then
            let previous_edits_made_by_same_user :=
              if user != edit.User.Username then false else previous_edits_made_by_same_user
            (previous_edits_made_by_same_user, previous_edits_made_by_same_user)
          else
            (multiple_edits, previous_edits_made_by_same_user)
        else
          (multiple_edits, previous_edits_made_by_same_user)
      let passed :=
        if edit.RevID ≠ env.WIKI_UNKNOWN_REVID ∧ revision_ID > edit.RevID then false else passed
      (multiple_edits, previous_edits_made_by_same_user, passed)
  else
    (multiple_edits, previous_edits_made_by_same_user, passed)

/-- Flags `(multiple_edits, previous_edits_made_by_same_user, passed)` of
`evaluatePreflightCheck` after the loop over the `rev` nodes (lines 342-377). -/
def evaluatePreflightCheck_scan (env : Env) (edit : WikiEdit) (revs : List ApiQueryResultNode) :
    Bool × Bool × Bool :=
  revs.foldl (preflightStep env edit) (false, true, true)

/-- `RevertQuery::evaluatePreflightCheck` (lines 323-436). -/
def evaluatePreflightCheck (env : Env) (s : RevertQuery) : RevertQuery :=
  if s.oneEditOnly || s.IgnorePreflightCheck then
    { s with preflightFinished := true }
  else
    match s.qPreflight with
    | none => s
    | some q =>
      if !q.Processed then
        s
      else if q.Failed then
        let s := emit (.Log (env.l "revert-fail-pre-flight" [q.FailureReason])) s
        let s := Kill s
        let s := { s with Result := some QueryResult.new }
        let s := { s with status := .StatusDone }
        let s := { s with Result := s.Result.map QueryResult.SetError }
        emit .processFailure s
      else
        let revs := GetNodes q.Nodes "rev"
        let made_by_same_user := true
        let (multiple_edits, previous_edits_made_by_same_user, passed) :=
          evaluatePreflightCheck_scan env s.editToBeReverted revs
        let passed := if multiple_edits && env.ConfirmMultipleEdits then false else passed
        if !passed then
          let text :=
            if multiple_edits then env.l "cr-message-same" [s.editToBeReverted.Page.PageName]
            else if made_by_same_user then env.l "cr-message-new" [s.editToBeReverted.Page.PageName]
            else env.l "cr-message-not-same" [s.editToBeReverted.Page.PageName]
          let (returned, s) :=
            if env.AutomaticallyResolveConflicts then
              if multiple_edits && !env.RevertOnMultipleEdits then
                let s := emit (.Log (env.l "cr-stop-multiple-same"
                  [s.editToBeReverted.Page.PageName])) s
                (true, cancelRevert s)
              else if multiple_edits && env.RevertOnMultipleEdits then
                (false, emit (.Log (env.l "cr-revert-same-user"
                  [s.editToBeReverted.Page.PageName])) s)
              else if previous_edits_made_by_same_user && env.RevertNewBySame then
                (false, emit (.Log (env.l "cr-resolved-same-user"
                  [s.editToBeReverted.Page.PageName])) s)
              else
                let s := emit (.Log (env.l "cr-stop-new-edit"
                  [s.editToBeReverted.Page.PageName])) s
                (true, cancelRevert s)
            else
              (false, s)
          if returned then
            s
          else
            let s := emit (.ShowYesNoQuestion (env.l "revert-preflightcheck" []) text) s
            if !env.ShowYesNoQuestion (env.l "revert-preflightcheck" []) text false then
              let s := freeResources s
              let s := { s with CustomStatus := "Stopped" }
              let s := { s with Result := some QueryResult.new }
              let s := { s with
                Result := s.Result.map (fun r => QueryResult.SetErrorMsg r "User requested to abort this") }
              let s := { s with status := .StatusDone }
              let s := { s with preflightFinished := true }
              emit .processFailure s
            else
              { s with preflightFinished := true }
        else
          { s with preflightFinished := true }

/-- `RevertQuery::executeRevert` (lines 740-747). -/
def executeRevert (env : Env) (s : RevertQuery) : RevertQuery :=
  let q := { ApiQuery.new .ActionQuery with
    Parameters := ("prop=revisions&rvprop=" ++
      env.toPercentEncoding "ids|flags|timestamp|user|userid|content|size|sha1|comment" ++
      "&rvlimit=20&titles=" ++ env.toPercentEncoding s.editToBeReverted.Page.PageName) }
  let s := { s with qHistoryInfo := some q }
  emit (.QueryProcess .qHistoryInfo q) s

/-- `RevertQuery::executeRollback` (lines 675-733). -/
def executeRollback (env : Env) (s : RevertQuery) : RevertQuery :=
  if s.rollingBack then
    emit (.SoftException "Multiple request to rollback same query") s
  else
    let s := { s with rollingBack := true }
    let s := if s.Summary = "" then { s with Summary := env.RollbackSummaryUnknownTarget } else s
    let s := if QString_contains s.Summary "$1"
      then { s with Summary := QString_replace s.Summary "$1" s.editToBeReverted.User.Username }
      else s
    let s := { s with Summary := env.GenerateSuffix s.Summary }
    let user := { s.editToBeReverted.User with
      BadnessScore := s.editToBeReverted.User.BadnessScore + 200 }
    let s := { s with editToBeReverted := { s.editToBeReverted with User := user } }
    let s := emit (.UpdateUser s.editToBeReverted.User) s
    if s.usingSR then
      executeRevert env s
    else if !env.Rights.contains "rollback" then
      let s := emit (.Log (env.l "software-rollback" [])) s
      let s := { s with usingSR := true }
      executeRevert env s
    else if env.Token_Rollback = "" then
      let s := emit (.ErrorLog (env.l "revert-fail"
        [s.editToBeReverted.Page.PageName, "rollback token was empty"])) s
      let s := { s with Result := some QueryResult.new }
      let s := { s with
        Result := s.Result.map (fun r => QueryResult.SetErrorMsg r (env.l "revert-fail"
          [s.editToBeReverted.Page.PageName, "rollback token was empty"])) }
      let s := { s with status := .StatusDone }
      let s := freeResources s
      emit .processFailure s
    else
      let tag := if env.TagsSupported && env.Tag ≠ "" then "&tags=" ++ env.toPercentEncoding env.Tag
        else ""
      let token := env.Token_Rollback
      let token := if QString_endsWith token "+\\" then env.toPercentEncoding token else token
      let q := { ApiQuery.new .ActionRollback with
        Parameters := ("title=" ++ env.toPercentEncoding s.editToBeReverted.Page.PageName ++
          "&token=" ++ token ++ tag ++ "&watchlist=" ++ env.Watchlist ++
          "&user=" ++ env.toPercentEncoding s.editToBeReverted.User.Username ++
          "&summary=" ++ env.toPercentEncoding s.Summary),
        Target := s.editToBeReverted.Page.PageName,
        UsingPOST := true }
      let s := { s with qRevert := some q }
      let s := if env.Verbosity > 0 then emit .QueryPoolAppend s else s
      let s := { s with CustomStatus := env.l "rollback" [s.editToBeReverted.Page.PageName] }
      let s := emit (.DebugLog ("Rolling back " ++ s.editToBeReverted.Page.PageName)) s
      emit (.QueryProcess .qRevert q) s

/-- `RevertQuery::IsProcessed` (lines 167-176). -/
def IsProcessed (env : Env) (s : RevertQuery) : Bool × RevertQuery :=
  if s.status = .StatusIsSuspended then
    (false, s)
  else if s.status = .StatusDone ∨ s.status = .StatusInError ∨ s.status = .StatusKilled then
    (true, s)
  else if !s.preflightFinished then
    (false, s)
  else
    evaluateRevertQueryResults env s

/-- End of `RevertQuery::OnTick` (lines 208-217): the timer is stopped once
`IsProcessed()` holds. -/
def OnTick_finish (env : Env) (s : RevertQuery) : RevertQuery :=
  let (processed, s) := IsProcessed env s
  if processed then
    let s := if s.timer then { s with timer := false } else s
    emit .UnregisterConsumerTmr s
  else
    s

/-- `RevertQuery::OnTick` (lines 191-218). -/
def OnTick (env : Env) (s : RevertQuery) : RevertQuery :=
  if s.status = .StatusIsSuspended then
    s
  else if s.status ≠ .StatusDone then
    if !s.preflightFinished then
      evaluatePreflightCheck env s
    else if !s.rollingBack then
      executeRollback env s
    else
      OnTick_finish env s
  else
    OnTick_finish env s

/-- `RevertQuery::Process` (lines 91-116). -/
def Process (env : Env) (s : RevertQuery) : RevertQuery :=
  if !s.IsLoggedIn then
    let s := emit (.HUGGLE_DEBUG ("Postponing query " ++ toString s.ID ++
      " because the session is not valid") 1) s
    Suspend s
  else if s.status = .StatusProcessing then
    emit (.DebugLog "Cowardly refusing to double process the query") s
  else
    let s := { s with status := .StatusProcessing }
    let s := { s with timer := true }
    let s := emit .RegisterConsumerTmr s
    let s := { s with CustomStatus := env.l "revert-preflightcheck" [] }
    preflightCheck env s

/-- Modelled from the spec: `Query::Restart()` of the base class, a fresh
start of the workflow with the same request. -/
def Query_Restart (env : Env) (s : RevertQuery) : RevertQuery :=
  Process env { s with status := .StatusNull }

/-- `RevertQuery::Restart` (lines 118-122). -/
def Restart (env : Env) (s : RevertQuery) : RevertQuery :=
  Query_Restart env (Kill s)

/-- `RevertQuery::SetLast` (lines 124-128). -/
def SetLast (s : RevertQuery) : RevertQuery :=
  let s := { s with oneEditOnly := true }
  { s with usingSR := true }

/-- `RevertQuery::SetUsingSR` (lines 178-184). -/
def SetUsingSR (s : RevertQuery) (software_rollback : Bool) : RevertQuery :=
  if s.oneEditOnly then s else { s with usingSR := software_rollback }

/-- `RevertQuery::IsUsingSR` (lines 186-189). -/
def IsUsingSR (s : RevertQuery) : Bool := s.usingSR

/-! ## Concrete inputs -/

/-- Reads a run of decimal digits, most significant first. -/
def readDigits : List Char → Nat → Option Nat
  | [], acc => some acc
  | c :: cs, acc => if c.isDigit then readDigits cs (acc * 10 + (c.toNat - 48)) else none

/-- Decimal reading of a revision id for the concrete inputs below: an
optional minus sign followed by digits, and 0 for any other text, as
`QString::toInt` gives 0 when the conversion fails. -/
def readInt (s : String) : Int :=
  match s.data with
  | [] => 0
  | '-' :: c :: cs => match readDigits (c :: cs) 0 with
    | some n => - (n : Int)
    | none => 0
  | cs => match readDigits cs 0 with
    | some n => (n : Int)
    | none => 0

/-- A configuration for the concrete inputs: auto-resolve off, rollback right
present, user names sanitised by writing `_` for a blank, messages rendered as
their key followed by their arguments, and a user who answers no. -/
def demoEnv : Env :=
  { AutomaticallyResolveConflicts := false, RevertNewBySame := false,
    RevertOnMultipleEdits := false, ConfirmMultipleEdits := false, Verbosity := 0,
    Token_Rollback := "tok", Rights := ["rollback"],
    SoftwareRevertDefaultSummary := "Reverted edits by $1 to $2", 
    RollbackSummaryUnknownTarget := "Reverted edits by $1",
    Tag := "", TagsSupported := false, Watchlist := "nochange",
    WIKI_UNKNOWN_REVID := -1, EditList := [],
    SanitizeUser := fun u => QString_replace u " " "_",
    toInt := readInt,
    l := fun key args => args.foldl (fun acc a => acc ++ " " ++ a) key,
    toPercentEncoding := fun x => x,
    GenerateSuffix := fun x => x ++ " (HG)",
    PageEqualTo := fun a b => a.PageName == b.PageName,
    UserEqualTo := fun a b => a.Username == b.Username,
    ShowYesNoQuestion := fun _ _ d => d }

/-- The edit under revert of the concrete inputs: revision 5 of page `P` by `A`. -/
def demoEdit : WikiEdit :=
  { addr := 1, Page := ⟨"P"⟩, User := ⟨"A", 0⟩, RevID := 5, Time := 100, PostProcessed := true }

/-- A `rev` node with a `revid` and a `user` attribute. -/
def revNode (revid user : String) : ApiQueryResultNode :=
  ⟨"rev", [("revid", revid), ("user", user)], ""⟩

/-- An `error` node with a `code` attribute. -/
def errorNode (code : String) : ApiQueryResultNode :=
  ⟨"error", [("code", code)], ""⟩

/-- A workflow on the rollback path whose rollback query has completed with
the given result tree. -/
def rollbackDone (nodes : List ApiQueryResultNode) : RevertQuery :=
  { RevertQuery.new demoEnv demoEdit true with
    status := .StatusProcessing, preflightFinished := true, rollingBack := true, timer := true,
    qRevert := some { ApiQuery.new .ActionRollback with
      Target := "P", UsingPOST := true, Processed := true, Nodes := nodes } }

/-- Target condition of the manual-revert search, in the spec's words: the
node's sanitized author differs from the reverted edit's author, or
last-edit-only is set and the node's index is at least 1. -/
def isTarget (env : Env) (author : String) (oneEditOnly : Bool) (i : Nat)
    (node : ApiQueryResultNode) : Bool :=
  env.SanitizeUser (node.GetAttribute "user") != author || (oneEditOnly && decide (i ≥ 1))

/-- A workflow on the manual-revert path whose history query has completed
with the given result tree. -/
def historyDone (env : Env) (edit : WikiEdit) (nodes : List ApiQueryResultNode) : RevertQuery :=
  { RevertQuery.new env edit true with
    status := .StatusProcessing, preflightFinished := true, rollingBack := true, timer := true,
    usingSR := true,
    qHistoryInfo := some { ApiQuery.new .ActionQuery with Processed := true, Nodes := nodes } }

/-- The revision list of the spec's example: id 5 by A (the reverted edit),
id 4 by A, id 3 by B, id 2 by A. -/
def demoHistory : List ApiQueryResultNode :=
  [revNode "5" "A", revNode "4" "A", revNode "3" "B", revNode "2" "A"]

/-- Collaborator calls of `Kill` for the slots that hold a query. -/
def killTrace (s : RevertQuery) : List Effect :=
  (if s.qRevert.isSome then [Effect.QueryKill .qRevert] else []) ++
  (if s.qPreflight.isSome then [Effect.QueryKill .qPreflight] else []) ++
  (if s.qHistoryInfo.isSome then [Effect.QueryKill .qHistoryInfo] else []) ++
  (if s.qRetrieve.isSome then [Effect.QueryKill .qRetrieve] else []) ++
  [Effect.UnregisterConsumerTmr]

/-- Condition under which the content-fetch stage may submit the edit, in the
spec's words: the query did not fail, a `rev` node exists, it has a `revid`
attribute equal to `SR_RevID`, and its content is not empty. -/
def contentUsable (env : Env) (s : RevertQuery) (qr : ApiQuery) : Bool :=
  !qr.Failed &&
    match GetNode qr.Nodes "rev" with
    | some info =>
      info.contains "revid" && decide (env.toInt (info.GetAttribute "revid") = s.SR_RevID) &&
        decide (info.Value ≠ "")
    | none => false

/-- The error outcome of `displayError`: the workflow is over (`StatusDone`),
its result is marked as error and no query slot holds a query. -/
def errorOutcome (s : RevertQuery) : Prop :=
  s.status = .StatusDone ∧ s.Result = some ⟨"", "", true⟩ ∧
  s.qPreflight = none ∧ s.qRevert = none ∧ s.qHistoryInfo = none ∧ s.qRetrieve = none ∧
  s.eqSoftwareRollback = none

/-- A run of ticks, each with the configuration in force at that tick. -/
def ticks (envs : List Env) (s : RevertQuery) : RevertQuery :=
  envs.foldl (fun st env => OnTick env st) s

/-- A workflow on the manual-revert path that selected revision `revid` at
depth 2 and whose content query has completed with the given result tree. -/
def retrieveDone (revid : Int) (nodes : List ApiQueryResultNode) : RevertQuery :=
  { RevertQuery.new demoEnv demoEdit true with
    status := .StatusProcessing, preflightFinished := true, rollingBack := true, timer := true,
    usingSR := true, SR_RevID := revid, SR_Depth := 2, SR_Target := "B",
    qHistoryInfo := some { ApiQuery.new .ActionQuery with Processed := true, Nodes := demoHistory },
    qRetrieve := some { ApiQuery.new .ActionQuery with Processed := true, Nodes := nodes } }

/-- Two traces with the same number of hook calls, queries, edits and
failure notifications. -/
def sameCounts (t t' : List Effect) : Prop :=
  hookCalls t' = hookCalls t ∧ queryCalls t' = queryCalls t ∧ editCalls t' = editCalls t ∧
  failureCalls t' = failureCalls t

/-- The content query that the history stage issues for revision `revid`
(lines 668-670). -/
def retrieveQuery (env : Env) (revid : Int) : ApiQuery :=
  { ApiQuery.new .ActionQuery with
    Parameters := ("prop=revisions&revids=" ++ toString revid ++ "&rvprop=" ++
      env.toPercentEncoding "ids|content") }

/-- The configuration `demoEnv` with auto-resolve on and
revert-new-edits-by-same-author on. -/
def autoEnv : Env :=
  { demoEnv with AutomaticallyResolveConflicts := true, RevertNewBySame := true }

/-- Last-edit-only revert of revision 5 by A, when the server history also
shows the newer revision 7 by A in front of it. -/
def lastEditNewerSame : RevertQuery :=
  { historyDone autoEnv demoEdit [revNode "7" "A", revNode "5" "A", revNode "4" "B"] with
    oneEditOnly := true }

/-- Revert of an edit whose revision id is the unknown sentinel, with the
server history `[id=10 user=A, id=9 user=B]`. -/
def unknownRevID : RevertQuery :=
  historyDone demoEnv { demoEdit with RevID := -1 } [revNode "10" "A", revNode "9" "B"]

/-- The collaborator reports completion of the preflight query with the
given result tree. -/
def reportPreflight (nodes : List ApiQueryResultNode) (s : RevertQuery) : RevertQuery :=
  { s with qPreflight := s.qPreflight.map (fun q => { q with Processed := true, Nodes := nodes }) }

/-- The collaborator reports completion of the rollback query with the given
result tree. -/
def reportRevert (nodes : List ApiQueryResultNode) (s : RevertQuery) : RevertQuery :=
  { s with qRevert := s.qRevert.map (fun q => { q with Processed := true, Nodes := nodes }) }

/-- The session of the site is valid again after re-authentication. -/
def relogin (s : RevertQuery) : RevertQuery := { s with IsLoggedIn := true }

/-- One rollback attempt that the server answers with `badtoken`, from a
workflow whose preflight query is outstanding: the preflight query reports the
reverted edit as the newest revision, two ticks finish preflight and issue the
rollback, the rollback reports `badtoken`, and a third tick evaluates it. -/
def badtokenAttempt (env : Env) (s : RevertQuery) : RevertQuery :=
  OnTick env (reportRevert [errorNode "badtoken"]
    (OnTick env (OnTick env (reportPreflight [revNode "5" "A"] s))))

/-- The workflow after its first rollback attempt was answered with `badtoken`. -/
def firstBadtoken : RevertQuery :=
  badtokenAttempt demoEnv (Process demoEnv (RevertQuery.new demoEnv demoEdit true))

/-- The workflow after re-authentication, the retry (`Restart`) and a second
`badtoken` answer. -/
def secondBadtoken : RevertQuery :=
  badtokenAttempt demoEnv (Restart demoEnv (relogin firstBadtoken))

/-- Number of rollback queries started in a trace. -/
def rollbackCalls (t : List Effect) : Nat :=
  t.countP (fun e => match e with | .QueryProcess .qRevert _ => true | _ => false)

/-- A workflow whose preflight query has completed with the given result
tree. -/
def preflightDone (edit : WikiEdit) (nodes : List ApiQueryResultNode) : RevertQuery :=
  { RevertQuery.new demoEnv edit true with
    status := .StatusProcessing, timer := true,
    qPreflight := some { ApiQuery.new .ActionQuery with Processed := true, Nodes := nodes } }

/-- The configuration `demoEnv` with auto-resolve on and
revert-on-multiple-edits on. -/
def multiEnv : Env :=
  { demoEnv with AutomaticallyResolveConflicts := true, RevertOnMultipleEdits := true }

/-- A server history with two revisions newer than the reverted revision 5,
both by its author A. -/
def twoNewerBySame : List ApiQueryResultNode :=
  [revNode "7" "A", revNode "6" "A", revNode "5" "A"]

/-- A node counts as a newer revision in `evaluatePreflightCheck`: it has a
`revid`, the reverted edit's id is known and the node's id is greater. -/
def isNewer (env : Env) (edit : WikiEdit) (n : ApiQueryResultNode) : Bool :=
  n.contains "revid" && decide (edit.RevID ≠ env.WIKI_UNKNOWN_REVID) &&
    decide (env.toInt (n.GetAttribute "revid") > edit.RevID)

/-- A newer revision that names its author. -/
def isNewerWithUser (env : Env) (edit : WikiEdit) (n : ApiQueryResultNode) : Bool :=
  isNewer env edit n && n.contains "user"

/-- The node's sanitized author is the reverted edit's author. -/
def bySameAuthor (env : Env) (edit : WikiEdit) (n : ApiQueryResultNode) : Bool :=
  env.SanitizeUser (n.GetAttribute "user") == edit.User.Username

/-- The policy-abort outcome of `cancelRevert`: the workflow is over with the
status text "Stopped", the abort text in its result, preflight marked as
finished and no query slot holding a query. -/
def abortOutcome (s : RevertQuery) : Prop :=
  s.status = .StatusDone ∧ s.CustomStatus = "Stopped" ∧
  s.Result = some ⟨"", "User requested to abort this", true⟩ ∧ s.preflightFinished = true ∧
  s.qPreflight = none ∧ s.qRevert = none ∧ s.qHistoryInfo = none ∧ s.qRetrieve = none ∧
  s.eqSoftwareRollback = none

/-- A registry entry qualifies as a newer edit, in the spec's words: it is
post-processed, it is not the edit under revert itself, it is on the same page
and its timestamp is strictly later than that of the edit under revert. -/
def qualifiesNewer (env : Env) (edit w : WikiEdit) : Bool :=
  w.PostProcessed && decide (w.addr ≠ edit.addr) && env.PageEqualTo w.Page edit.Page &&
    decide (w.Time > edit.Time)

/-- Reference definition of `hasNewerEdits`: last-edit-only is not set and
some registry entry qualifies. -/
def hasNewerEdits (env : Env) (s : RevertQuery) : Bool :=
  !s.oneEditOnly && env.EditList.any (qualifiesNewer env s.editToBeReverted)

/-- Reference definition of `allNewerBySameAuthor`: every qualifying registry
entry has the same author as the edit under revert. -/
def allNewerBySameAuthor (env : Env) (s : RevertQuery) : Bool :=
  env.EditList.all (fun w => !qualifiesNewer env s.editToBeReverted w ||
    env.UserEqualTo w.User s.editToBeReverted.User)

/-- A registry holding the edit under revert and a later edit to the same page
by another author. -/
def conflictEnv : Env :=
  { demoEnv with EditList := [demoEdit,
      { addr := 2, Page := ⟨"P"⟩, User := ⟨"B", 0⟩, RevID := 6, Time := 200,
        PostProcessed := true }] }

/-- A workflow that has just been started (`Process` up to the call of
`preflightCheck`). -/
def started : RevertQuery :=
  { RevertQuery.new demoEnv demoEdit true with status := .StatusProcessing, timer := true }

/-- The error code a result tree carries: the `code` attribute of its first
`error` node, if there is such a node with that attribute. -/
def errorCode (q : ApiQuery) : Option String :=
  match GetNode q.Nodes "error" with
  | some ms => if ms.contains "code" then some (ms.GetAttribute "code") else none
  | none => none

/-- History records handed to the history hook in a trace, in order. -/
def historyItems (t : List Effect) : List HistoryItem :=
  t.filterMap (fun e => match e with | .OnNewHistoryItem item => some item | _ => none)

/-- Number of history queries started in a trace. -/
def historyCalls (t : List Effect) : Nat :=
  t.countP (fun e => match e with | .QueryProcess .qHistoryInfo _ => true | _ => false)

/-- Status text of a rollback that did not succeed and was not suspended:
the text chosen for the error code, or the query's failure reason when the
result carries no code. -/
def rollbackFailureText (q : ApiQuery) : String :=
  match errorCode q with
  | some c =>
    if c = "alreadyrolled" then "Edit was reverted by someone else - skipping"
    else if c = "onlyauthor" then "ERROR: Cannot rollback - page only has one author"
    else "In error (" ++ c ++ ")"
  | none => q.FailureReason

/-- A rollback answered with the given result tree by a query that reports
the given failure flag and reason. -/
def rollbackReported (nodes : List ApiQueryResultNode) (failed : Bool) (reason : String) :
    RevertQuery :=
  { RevertQuery.new demoEnv demoEdit true with
    status := .StatusProcessing, preflightFinished := true, rollingBack := true, timer := true,
    qRevert := some { ApiQuery.new .ActionRollback with
      Target := "P", UsingPOST := true, Processed := true, Nodes := nodes, Failed := failed,
      FailureReason := reason, Data := "<rollback/>" } }

/-- The history query that `executeRevert` issues for a page (lines 743-745). -/
def historyQuery (env : Env) (page : String) : ApiQuery :=
  { ApiQuery.new .ActionQuery with
    Parameters := ("prop=revisions&rvprop=" ++
      env.toPercentEncoding "ids|flags|timestamp|user|userid|content|size|sha1|comment" ++
      "&rvlimit=20&titles=" ++ env.toPercentEncoding page) }

/-- The workflow commits to software revert, in the spec's words: the request
forces software revert or the site's rights do not contain `rollback`. -/
def commitsToSoftwareRevert (env : Env) (s : RevertQuery) : Bool :=
  s.usingSR || !env.Rights.contains "rollback"

/-- A workflow whose preflight has finished and that has not yet committed to
a strategy. -/
def preflightPassed : RevertQuery :=
  { RevertQuery.new demoEnv demoEdit true with
    status := .StatusProcessing, preflightFinished := true, timer := true,
    qPreflight := some { ApiQuery.new .ActionQuery with
      Processed := true, Nodes := [revNode "5" "A"] } }

/-- The summary that `executeRollback` stores at commit (lines 683-688). -/
def commitSummary (env : Env) (s : RevertQuery) : String :=
  let a := if s.Summary = "" then env.RollbackSummaryUnknownTarget else s.Summary
  let b := if QString_contains a "$1" then QString_replace a "$1" s.editToBeReverted.User.Username
    else a
  env.GenerateSuffix b

/-- The reverted edit after the penalty of line 689. -/
def penalised (e : WikiEdit) : WikiEdit :=
  { e with User := { e.User with BadnessScore := e.User.BadnessScore + 200 } }

/-- The object after the commit part of `executeRollback` (lines 682-690),
before a strategy is chosen. -/
def committed (env : Env) (s : RevertQuery) : RevertQuery :=
  { s with
    rollingBack := true, Summary := commitSummary env s,
    editToBeReverted := penalised s.editToBeReverted,
    trace := s.trace ++ [Effect.UpdateUser (penalised s.editToBeReverted).User] }

/-- The rollback query that `executeRollback` issues (lines 713-727). -/
def rollbackQuery (env : Env) (s : RevertQuery) : ApiQuery :=
  { ApiQuery.new .ActionRollback with
    Parameters := ("title=" ++ env.toPercentEncoding s.editToBeReverted.Page.PageName ++
      "&token=" ++ (if QString_endsWith env.Token_Rollback "+\\"
        then env.toPercentEncoding env.Token_Rollback else env.Token_Rollback) ++
      (if env.TagsSupported && env.Tag ≠ "" then "&tags=" ++ env.toPercentEncoding env.Tag
        else "") ++ "&watchlist=" ++ env.Watchlist ++
      "&user=" ++ env.toPercentEncoding s.editToBeReverted.User.Username ++
      "&summary=" ++ env.toPercentEncoding s.Summary),
    Target := s.editToBeReverted.Page.PageName,
    UsingPOST := true }

/-- A workflow on the manual-revert path whose edit-submit query has
completed with the given failure flag and reason. -/
def editReported (failed : Bool) (reason : String) : RevertQuery :=
  { RevertQuery.new demoEnv demoEdit true with
    status := .StatusProcessing, preflightFinished := true, rollingBack := true, timer := true,
    usingSR := true, SR_RevID := 3, SR_Depth := 2, SR_Target := "B",
    qHistoryInfo := some { ApiQuery.new .ActionQuery with Processed := true, Nodes := demoHistory },
    qRetrieve := some { ApiQuery.new .ActionQuery with
      Processed := true, Nodes := [⟨"rev", [("revid", "3")], "old text"⟩] },
    eqSoftwareRollback := some
      ⟨"P", "old text", "Reverted edits by A to B (HG)", false, true, failed, reason⟩ }

/-- A workflow on the manual-revert path whose history query has completed
and reports failure with the given reason. -/
def historyFailed (reason : String) : RevertQuery :=
  { RevertQuery.new demoEnv demoEdit true with
    status := .StatusProcessing, preflightFinished := true, rollingBack := true, timer := true,
    usingSR := true,
    qHistoryInfo := some { ApiQuery.new .ActionQuery with
      Processed := true, Failed := true, FailureReason := reason } }

/-- The terminal failed outcome of a tick: the status is terminal, the result
is marked as error, and the timer that drives the ticks is stopped. -/
def failedOutcome (status : QueryStatus) (s : RevertQuery) : Prop :=
  s.status = status ∧ s.Result.map (fun r => r.Failed) = some true ∧ s.timer = false

/-- The configuration `conflictEnv` (auto-resolve off, a later edit by another
author in the registry) with a user who answers yes. -/
def conflictYesEnv : Env :=
  { conflictEnv with ShowYesNoQuestion := fun _ _ _ => true }

/-- A workflow started under `conflictYesEnv`: the registry-based pass asks
the user, who confirms. -/
def confirmedInRegistryPass : RevertQuery :=
  Process conflictYesEnv (RevertQuery.new conflictYesEnv demoEdit true)

/-- The same workflow after the preflight query has reported the newer
revision 6 by B and the next tick has run the authoritative pass. -/
def afterAuthoritativePass : RevertQuery :=
  OnTick conflictYesEnv
    (reportPreflight [revNode "6" "B", revNode "5" "A"] confirmedInRegistryPass)

/-- A last-edit-only workflow that was started and then killed. -/
def killedLastEdit : RevertQuery :=
  Kill (Process demoEnv (SetLast (RevertQuery.new demoEnv demoEdit true)))

/-- The part of a workflow that decides what a step may do next: the request,
the two progress flags and the five slots for owned queries. -/
structure Control where
  editToBeReverted : WikiEdit
  oneEditOnly : Bool
  IgnorePreflightCheck : Bool
  usingSR : Bool
  preflightFinished : Bool
  rollingBack : Bool
  qPreflight : Option ApiQuery
  qRevert : Option ApiQuery
  qHistoryInfo : Option ApiQuery
  qRetrieve : Option ApiQuery
  eqSoftwareRollback : Option EditQuery

/-- The control part of a workflow. -/
def control (s : RevertQuery) : Control :=
  { editToBeReverted := s.editToBeReverted, oneEditOnly := s.oneEditOnly,
    IgnorePreflightCheck := s.IgnorePreflightCheck, usingSR := s.usingSR,
    preflightFinished := s.preflightFinished, rollingBack := s.rollingBack,
    qPreflight := s.qPreflight, qRevert := s.qRevert, qHistoryInfo := s.qHistoryInfo,
    qRetrieve := s.qRetrieve, eqSoftwareRollback := s.eqSoftwareRollback }

/-- The control part after `Kill`: both progress flags cleared, all slots
empty. -/
def Control.killed (c : Control) : Control :=
  { c with
    preflightFinished := false, rollingBack := false, qPreflight := none, qRevert := none,
    qHistoryInfo := none, qRetrieve := none, eqSoftwareRollback := none }

/-- The control part after a policy abort or a failure that frees the
resources without `Kill`: all slots empty. -/
def Control.freed (c : Control) : Control :=
  { c with
    qPreflight := none, qRevert := none, qHistoryInfo := none, qRetrieve := none,
    eqSoftwareRollback := none }

/-- Control step "the edit is submitted": possible only when no edit query
exists yet and the content query has completed; a fresh edit query is put
into its slot. -/
def submitsEdit (c c' : Control) : Prop :=
  c.eqSoftwareRollback = none ∧ (∃ qr, c.qRetrieve = some qr ∧ qr.Processed = true) ∧
  ∃ e : EditQuery, e.Processed = false ∧ c' = { c with eqSoftwareRollback := some e }

/-- Control step "the content query is issued": possible only when neither an
edit query nor a content query exists yet and the history query has completed. -/
def fetchesContent (c c' : Control) : Prop :=
  c.eqSoftwareRollback = none ∧ c.qRetrieve = none ∧
  (∃ qh, c.qHistoryInfo = some qh ∧ qh.Processed = true) ∧
  ∃ q : ApiQuery, q.Processed = false ∧ c' = { c with qRetrieve := some q }

/-- Control steps of the evaluation of the strategy queries
(`evaluateRevertQueryResults`): nothing, the teardown of `Kill`, the release
of the rollback query, the submission of the edit, the issue of the content
query. -/
def evaluates (c c' : Control) : Prop :=
  c' = c ∨ c' = c.killed ∨ c' = { c with qRevert := none } ∨ submitsEdit c c' ∨
  fetchesContent c c'

/-- Control steps of `evaluatePreflightCheck`: nothing, the teardown of
`Kill`, an abort that frees the slots and marks preflight as finished, or
marking preflight as finished, which needs last-edit-only,
`IgnorePreflightCheck` or a completed preflight query. -/
def finishesPreflight (c c' : Control) : Prop :=
  c' = c ∨ c' = c.killed ∨ c' = { c.freed with preflightFinished := true } ∨
  ((c.oneEditOnly = true ∨ c.IgnorePreflightCheck = true ∨
      ∃ q, c.qPreflight = some q ∧ q.Processed = true) ∧
    c' = { c with preflightFinished := true })

/-- Control steps of the first call of `executeRollback`: the penalty is
applied and `rollingBack` set, and then the history query is issued (with
`usingSR` set), or the slots are freed (empty token), or the rollback query
is issued. -/
def commits (c c' : Control) : Prop :=
  (∃ q : ApiQuery, q.Processed = false ∧ c' = { c with
      rollingBack := true, editToBeReverted := penalised c.editToBeReverted, usingSR := true,
      qHistoryInfo := some q }) ∨
  c' = { c.freed with rollingBack := true, editToBeReverted := penalised c.editToBeReverted } ∨
  (∃ q : ApiQuery, q.Processed = false ∧ c' = { c with
      rollingBack := true, editToBeReverted := penalised c.editToBeReverted,
      qRevert := some q })

/-- Control steps of `preflightCheck`: a policy abort, or the issue of the
preflight query, possibly with `IgnorePreflightCheck` newly set. -/
def startsPreflight (c c' : Control) : Prop :=
  c' = { c.freed with preflightFinished := true } ∨
  ∃ (b : Bool) (q : ApiQuery), q.Processed = false ∧ (b = true ∨ b = c.IgnorePreflightCheck) ∧
    c' = { c with IgnorePreflightCheck := b, qPreflight := some q }

/-- Control steps of one `OnTick`: nothing; with preflight unfinished those
of `evaluatePreflightCheck`; with preflight finished and no commit yet those
of `executeRollback`; otherwise those of the evaluation of the strategy
queries. -/
def ticksTo (c c' : Control) : Prop :=
  c' = c ∨ (c.preflightFinished = false ∧ finishesPreflight c c') ∨
  (c.preflightFinished = true ∧ c.rollingBack = false ∧ commits c c') ∨ evaluates c c'

/-- The preflight query that `preflightCheck` issues (lines 316-319). -/
def preflightQuery (env : Env) (page : String) : ApiQuery :=
  { ApiQuery.new .ActionQuery with
    Parameters := ("prop=revisions&rvprop=" ++
      env.toPercentEncoding "ids|flags|timestamp|user|userid|size|sha1|comment" ++
      "&rvlimit=20&titles=" ++ env.toPercentEncoding page) }

/-- The configuration `demoEnv` with an empty rollback token. -/
def emptyTokenEnv : Env := { demoEnv with Token_Rollback := "" }

/-- A complete run under `emptyTokenEnv`: the workflow is started, the
preflight query reports the reverted edit as the newest revision, a first tick
finishes preflight and a second one commits to a strategy. -/
def emptyTokenRun : RevertQuery :=
  ticks [emptyTokenEnv, emptyTokenEnv]
    (reportPreflight [revNode "5" "A"]
      (Process emptyTokenEnv (RevertQuery.new emptyTokenEnv demoEdit true)))

/-- The condition under which `OnTick` calls `executeRollback` (lines 193-204):
the workflow is neither suspended nor done, preflight has finished and no
strategy has been committed to yet. -/
def commitsNow (s : RevertQuery) : Prop :=
  s.status ≠ .StatusIsSuspended ∧ s.status ≠ .StatusDone ∧ s.preflightFinished = true ∧
  s.rollingBack = false

instance (s : RevertQuery) : Decidable (commitsNow s) := by
  unfold commitsNow
  infer_instance

/-- An issued query that has not reported completion: the slot holds a query
whose `IsProcessed()` is still false. -/
def pending (q : Option ApiQuery) : Bool :=
  match q with
  | some q => !q.Processed
  | none => false

/-- An issued edit-submit query that has not reported completion. -/
def pendingEdit (e : Option EditQuery) : Bool :=
  match e with
  | some e => !e.Processed
  | none => false

/-- Number of outstanding strategy queries (rollback, history, content-fetch,
edit-submit) of a control part. -/
def Control.strategyOutstanding (c : Control) : Nat :=
  (if pending c.qRevert then 1 else 0) + (if pending c.qHistoryInfo then 1 else 0) +
  (if pending c.qRetrieve then 1 else 0) + (if pendingEdit c.eqSoftwareRollback then 1 else 0)

/-- Number of outstanding strategy queries of a workflow. -/
def strategyOutstanding (s : RevertQuery) : Nat := (control s).strategyOutstanding

/-- Number of outstanding owned queries of a workflow (preflight, rollback,
history, content-fetch, edit-submit). -/
def outstanding (s : RevertQuery) : Nat :=
  (if pending s.qPreflight then 1 else 0) + strategyOutstanding s

/-- Invariant of the strategy slots: they are empty before the commit, a
commit happens only after preflight, the rollback query excludes the queries
of manual revert, and each query of manual revert is issued only when the one
before it has completed. -/
def sequential (c : Control) : Prop :=
  (c.rollingBack = false →
    c.qRevert = none ∧ c.qHistoryInfo = none ∧ c.qRetrieve = none ∧ c.eqSoftwareRollback = none) ∧
  (c.rollingBack = true → c.preflightFinished = true) ∧
  (c.qRevert ≠ none → c.qHistoryInfo = none ∧ c.qRetrieve = none ∧ c.eqSoftwareRollback = none) ∧
  (c.qRetrieve ≠ none → pending c.qHistoryInfo = false) ∧
  (c.eqSoftwareRollback ≠ none → pending c.qRetrieve = false ∧ pending c.qHistoryInfo = false)

/-- Invariant of the preflight slot: once preflight has finished the
preflight query is not outstanding. -/
def preflightSettled (c : Control) : Prop :=
  c.preflightFinished = true → pending c.qPreflight = false

/-- A workflow before its first `Process`: nothing finished, nothing committed,
all slots empty. -/
def fresh (s : RevertQuery) : Prop :=
  s.preflightFinished = false ∧ s.rollingBack = false ∧ s.qPreflight = none ∧ s.qRevert = none ∧
  s.qHistoryInfo = none ∧ s.qRetrieve = none ∧ s.eqSoftwareRollback = none

/-- The states one workflow instance can be in: it is started with `Process`
from a fresh object; afterwards the timer ticks, the workflow is killed or
restarted, the session becomes valid or invalid, and the collaborator reports
the completion of an issued query (with any outcome). -/
inductive Reachable : RevertQuery → Prop where
  | start (env : Env) (s : RevertQuery) : fresh s → Reachable (Process env s)
  | tick (env : Env) (s : RevertQuery) : Reachable s → Reachable (OnTick env s)
  | kill (s : RevertQuery) : Reachable s → Reachable (Kill s)
  | restart (env : Env) (s : RevertQuery) : Reachable s → Reachable (Restart env s)
  | session (b : Bool) (s : RevertQuery) : Reachable s → Reachable { s with IsLoggedIn := b }
  | preflightReport (q r : ApiQuery) (s : RevertQuery) : Reachable s → s.qPreflight = some q →
      r.Processed = true → Reachable { s with qPreflight := some r }
  | rollbackReport (q r : ApiQuery) (s : RevertQuery) : Reachable s → s.qRevert = some q →
      r.Processed = true → Reachable { s with qRevert := some r }
  | historyReport (q r : ApiQuery) (s : RevertQuery) : Reachable s → s.qHistoryInfo = some q →
      r.Processed = true → Reachable { s with qHistoryInfo := some r }
  | retrieveReport (q r : ApiQuery) (s : RevertQuery) : Reachable s → s.qRetrieve = some q →
      r.Processed = true → Reachable { s with qRetrieve := some r }
  | editReport (q r : EditQuery) (s : RevertQuery) : Reachable s → s.eqSoftwareRollback = some q →
      r.Processed = true → Reachable { s with eqSoftwareRollback := some r }

/-- A last-edit-only workflow after `Process` and two ticks, during which no
query has reported anything. -/
def lastEditTwoTicks : RevertQuery :=
  ticks [demoEnv, demoEnv] (Process demoEnv (SetLast (RevertQuery.new demoEnv demoEdit true)))

/-- A workflow without last-edit-only after `Process` and two ticks, during
which no query has reported anything. -/
def plainTwoTicks : RevertQuery :=
  ticks [demoEnv, demoEnv] (Process demoEnv (RevertQuery.new demoEnv demoEdit true))

/-- Invariant of the reachable states: the strategy slots are sequential, and
unless last-edit-only or `IgnorePreflightCheck` is set the preflight slot is
settled. -/
def orderly (c : Control) : Prop :=
  sequential c ∧ (c.oneEditOnly = false → c.IgnorePreflightCheck = false → preflightSettled c)

/-- The preflight query as the collaborator reports it in the run `plainRun`. -/
def reportedPreflight : ApiQuery :=
  { preflightQuery demoEnv "P" with Processed := true, Nodes := [revNode "5" "A"] }

/-- A workflow without last-edit-only: it is started, the preflight query
reports the reverted edit as the newest revision, and two ticks follow. -/
def plainRun : RevertQuery :=
  ticks [demoEnv, demoEnv]
    { Process demoEnv (RevertQuery.new demoEnv demoEdit true) with
      qPreflight := some reportedPreflight }

/-- The static `RevertQuery::GetCustomRevertStatus` (lines 220-246);
`result_data` is the result tree, the result is the status text, the
out-parameters `failed` and `suspend`, and the collaborator calls made
(`Configuration::Logout(site)`), there being no object to record them in. -/
def GetCustomRevertStatus (env : Env) (result_data : List ApiQueryResultNode) :
    String × Bool × Bool × List Effect :=
  match GetNode result_data "error" with
  | some ms =>
    if ms.contains "code" then
      let Error := ms.GetAttribute "code"
      if Error = "alreadyrolled" then
        ("Edit was reverted by someone else - skipping", true, false, [])
      else if Error = "onlyauthor" then
        ("ERROR: Cannot rollback - page only has one author", true, false, [])
      else if Error = "badtoken" then
        let msg := "ERROR: Cannot rollback, token " ++ env.Token_Rollback ++
          " is not valid for some reason (mediawiki bug), please try it once more"
        (msg, true, true, [Effect.Logout])
      else
        ("In error (" ++ Error ++ ")", true, false, [])
    else
      ("Reverted", false, false, [])
  | none => ("Reverted", false, false, [])

/-- A completed rollback query whose result tree is the given one. -/
def rollbackAnswer (nodes : List ApiQueryResultNode) : ApiQuery :=
  { ApiQuery.new .ActionRollback with Processed := true, Nodes := nodes }

/-- The link between the two request flags: a last-edit-only request uses
software revert. -/
def lastImpliesSR (s : RevertQuery) : Prop :=
  s.oneEditOnly = true → s.usingSR = true

/-- A control step that leaves last-edit-only as it is and does not clear the
software-revert flag. -/
def keepsStrategy (c c' : Control) : Prop :=
  c'.oneEditOnly = c.oneEditOnly ∧ (c.usingSR = true → c'.usingSR = true)

/-- The configuration `demoEnv` for a site without the rollback right. -/
def noRightsEnv : Env := { demoEnv with Rights := [] }

/-- The collaborator reports completion of the history query with the given
result tree. -/
def reportHistory (nodes : List ApiQueryResultNode) (s : RevertQuery) : RevertQuery :=
  { s with qHistoryInfo := s.qHistoryInfo.map (fun q => { q with Processed := true, Nodes := nodes }) }

/-- The collaborator reports completion of the content query with the given
result tree. -/
def reportRetrieve (nodes : List ApiQueryResultNode) (s : RevertQuery) : RevertQuery :=
  { s with qRetrieve := s.qRetrieve.map (fun q => { q with Processed := true, Nodes := nodes }) }

/-- The collaborator reports completion of the edit-submit query with the
given failure flag and reason. -/
def reportEdit (failed : Bool) (reason : String) (s : RevertQuery) : RevertQuery :=
  { s with eqSoftwareRollback := (s.eqSoftwareRollback.map
      (fun q => { q with Processed := true, Failed := failed, FailureReason := reason })) }

/-- A run of the manual-revert path from a request up to the selection of the
target: the workflow is started, the preflight query reports the reverted
edit as the newest revision, two ticks finish preflight and issue the history
query, the history query reports `nodes`, and a third tick evaluates it. -/
def manualRevertTo (env : Env) (request : RevertQuery) (nodes : List ApiQueryResultNode) :
    RevertQuery :=
  OnTick env (reportHistory nodes
    (ticks [env, env] (reportPreflight [revNode "5" "A"] (Process env request))))

/-- A request for software revert of `demoEdit`. -/
def softwareRequest : RevertQuery :=
  SetUsingSR (RevertQuery.new demoEnv demoEdit true) true

/-- The run `manualRevertTo` on the spec's example history: revision 3 by B
has been selected at depth 2 and the content query is outstanding. -/
def targetSelected : RevertQuery :=
  manualRevertTo demoEnv softwareRequest demoHistory

/-- The workflow `targetSelected` restarted, with a second history in which
every revision is by the author of the reverted edit. -/
def restartedSameAuthor : RevertQuery :=
  OnTick demoEnv (reportHistory [revNode "5" "A", revNode "4" "A"]
    (ticks [demoEnv, demoEnv]
      (reportPreflight [revNode "5" "A"] (Restart demoEnv targetSelected))))

/-- The template of the manual-revert summary (lines 529 and 551-552): the
summary the workflow holds, or the site's software-revert default summary when
that is empty. -/
def summaryTemplate (env : Env) (s : RevertQuery) : String :=
  if s.Summary = "" then env.SoftwareRevertDefaultSummary else s.Summary

/-- The chain of replacements of lines 553-556: four whole-text replacements,
one after the other. -/
def replacedInTurn (template author target depth revid : String) : String :=
  QString_replace (QString_replace (QString_replace (QString_replace template "$1" author)
    "$2" target) "$3" depth) "$4" revid

/-- The summary of the edit that the content-fetch stage submits (lines
551-558). -/
def manualRevertSummary (env : Env) (s : RevertQuery) : String :=
  env.GenerateSuffix (replacedInTurn (summaryTemplate env s) s.editToBeReverted.User.Username
    s.SR_Target (toString s.SR_Depth) (toString s.SR_RevID))

/-- Substitution in the spec's words: each occurrence of `$1`, `$2`, `$3`,
`$4` in the template is replaced by its text, and inserted text is not looked
at again. -/
def substituteGo (a1 a2 a3 a4 : List Char) : List Char → List Char
  | [] => []
  | [c] => [c]
  | c :: d :: rest =>
    if c = '$' ∧ d = '1' then a1 ++ substituteGo a1 a2 a3 a4 rest
    else if c = '$' ∧ d = '2' then a2 ++ substituteGo a1 a2 a3 a4 rest
    else if c = '$' ∧ d = '3' then a3 ++ substituteGo a1 a2 a3 a4 rest
    else if c = '$' ∧ d = '4' then a4 ++ substituteGo a1 a2 a3 a4 rest
    else c :: substituteGo a1 a2 a3 a4 (d :: rest)

/-- The summary that the spec describes: the substituted template followed by
the attribution suffix. -/
def specSummary (env : Env) (template author target depth revid : String) : String :=
  env.GenerateSuffix
    (String.mk (substituteGo author.data target.data depth.data revid.data template.data))

/-- The configuration `demoEnv` with an attribution suffix that is appended
only when the text does not end in it yet. -/
def suffixEnv : Env :=
  { demoEnv with GenerateSuffix := fun x => if QString_endsWith x "(HG)" then x else x ++ " (HG)" }

/-- The summaries of the edits submitted in a trace, in order. -/
def submittedSummaries (t : List Effect) : List String :=
  t.filterMap (fun e => match e with | .EditPage _ _ summary _ => some summary | _ => none)

/-- A run of the manual-revert path up to the submission of the edit: after
`manualRevertTo` the content query reports revision `revid` with the text
"old text", and a tick evaluates it. -/
def manualRevertSubmitted (env : Env) (request : RevertQuery) (nodes : List ApiQueryResultNode)
    (revid : String) : RevertQuery :=
  OnTick env (reportRetrieve [⟨"rev", [("revid", revid)], "old text"⟩]
    (manualRevertTo env request nodes))

/-- A request for software revert of `demoEdit` under `suffixEnv` with the
given summary. -/
def summaryRequest (summary : String) : RevertQuery :=
  { SetUsingSR (RevertQuery.new suffixEnv demoEdit true) true with Summary := summary }

/-- A newer revision that the conflict re-check of the history stage resolves
by itself (lines 598-601): auto-resolve and revert-new-edits-by-same-author
are on and the revision names the author of the reverted edit. -/
def autoResolvable (env : Env) (edit : WikiEdit) (e : ApiQueryResultNode) : Bool :=
  env.AutomaticallyResolveConflicts && env.RevertNewBySame && e.contains "user" &&
    (env.SanitizeUser (e.GetAttribute "user") == edit.User.Username)

/-- The conflict re-check of the history stage passes: every newer revision is
one it resolves by itself. -/
def recheckPasses (env : Env) (edit : WikiEdit) (revs : List ApiQueryResultNode) : Bool :=
  revs.all (fun e => !isNewer env edit e || autoResolvable env edit e)

/-- The object after the conflict re-check of the history stage (lines
587-620). -/
def afterRecheck (env : Env) (revs : List ApiQueryResultNode) (s : RevertQuery) : RevertQuery :=
  (revs.foldl (conflictStep env) (true, false, { s with SR_Depth := 0 })).2.2

/-- Target selection and issue of the content query in `evaluateRevert`
(lines 626-672), the part of the history stage after the conflict re-check. -/
def selectTarget (env : Env) (revs : List ApiQueryResultNode) (s : RevertQuery) :
    Bool × RevertQuery :=
  let (returned, s) := findTarget env revs s
  if returned then
    (true, s)
  else if s.SR_Depth = 0 then
    let s := displayError s (env.l "revert-fail"
      [s.editToBeReverted.Page.PageName, "because it was edited meanwhile"]) ""
    (true, emit (.DebugLog "revert failed because of 0 depth") s)
  else if s.SR_RevID = env.WIKI_UNKNOWN_REVID then
    (true, displayError s (env.l "revert-fail" [s.editToBeReverted.Page.PageName,
      "because no previous version could be retrieved"]) "")
  else
    let s := { s with CustomStatus := "Retrieving content of previous version" }
    let q := { ApiQuery.new .ActionQuery with
      Parameters := ("prop=revisions&revids=" ++ toString s.SR_RevID ++ "&rvprop=" ++
        env.toPercentEncoding "ids|content") }
    let s := { s with qRetrieve := some q }
    (false, emit (.QueryProcess .qRetrieve q) s)

/-- The configuration `demoEnv` (auto-resolve off) with a user who answers yes
to every question. -/
def yesEnv : Env := { demoEnv with ShowYesNoQuestion := fun _ _ _ => true }

/-- A history in which revision 6 by B is newer than the reverted edit. -/
def newerByOther : List ApiQueryResultNode :=
  [revNode "6" "B", revNode "5" "A", revNode "3" "B"]

/-- The completed history query of `historyDone`. -/
def historyAnswer (nodes : List ApiQueryResultNode) : ApiQuery :=
  { ApiQuery.new .ActionQuery with Processed := true, Nodes := nodes }

/-- A history in which revision 6 by A, the author of the reverted edit, is
newer than the reverted edit. -/
def newerBySame : List ApiQueryResultNode :=
  [revNode "6" "A", revNode "5" "A", revNode "3" "B"]

/-- A workflow that has ended: the status is Done, or it is InError with the
flags either as a failed rollback leaves them (preflight finished, committed)
or as a failed edit submission leaves them (`Kill` has reset them and emptied
the preflight slot). -/
def settled (s : RevertQuery) : Prop :=
  s.status = .StatusDone ∨
  (s.status = .StatusInError ∧
    ((s.preflightFinished = true ∧ s.rollingBack = true) ∨
     (s.preflightFinished = false ∧ s.qPreflight = none)))

/-- A settled workflow on which later ticks have nothing to do: in the case of
a failed edit submission neither last-edit-only nor `IgnorePreflightCheck` is
set. -/
def final (s : RevertQuery) : Prop :=
  settled s ∧
  (s.status = .StatusInError → s.preflightFinished = false →
    s.oneEditOnly = false ∧ s.IgnorePreflightCheck = false)

/-- Nothing that finalisation produces was produced between two states: no
history record, no failure notification, no query, no edit, and the reverted
edit with the badness score of its author is the same. -/
def quiet (s s' : RevertQuery) : Prop :=
  historyItems s'.trace = historyItems s.trace ∧
  failureCalls s'.trace = failureCalls s.trace ∧
  queryCalls s'.trace = queryCalls s.trace ∧
  editCalls s'.trace = editCalls s.trace ∧
  s'.editToBeReverted = s.editToBeReverted

/-- A step that sent the failure notification: exactly one, and the workflow
has ended with a result marked as failed. -/
def notified (s s' : RevertQuery) : Prop :=
  failureCalls s'.trace = failureCalls s.trace + 1 ∧ settled s' ∧
  s'.Result.map (fun r => r.Failed) = some true

/-- A step that sent no failure notification: status and result are as
before, or the new result is not a failure, or the workflow was suspended. -/
def unnotified (s s' : RevertQuery) : Prop :=
  failureCalls s'.trace = failureCalls s.trace ∧
  ((s'.status = s.status ∧ s'.Result = s.Result) ∨
    s'.Result.map (fun r => r.Failed) = some false ∨ s'.status = .StatusIsSuspended)

/-- What a step does about failure: it notifies once and ends the workflow as
failed, or it does neither. -/
def tickOutcome (s s' : RevertQuery) : Prop :=
  notified s s' ∨ unnotified s s'

/-- A last-edit-only run of the manual-revert path whose edit submission
fails: target revision 4 is selected, its content is fetched, the edit is
submitted, the edit query reports failure, and a tick evaluates it. -/
def lastEditFailed : RevertQuery :=
  OnTick demoEnv (reportEdit true "edit conflict"
    (manualRevertSubmitted demoEnv (SetLast (RevertQuery.new demoEnv demoEdit true))
      demoHistory "4"))

/-! ## Trace counting -/

@[simp] theorem emit_trace (e : Effect) (s : RevertQuery) : (emit e s).trace = s.trace ++ [e] := rfl

@[simp] theorem failureCalls_nil : failureCalls [] = 0 := rfl

@[simp] theorem failureCalls_append (t u : List Effect) :
    failureCalls (t ++ u) = failureCalls t + failureCalls u := by
  simp [failureCalls, List.countP_append]

@[simp] theorem failureCalls_cons (e : Effect) (t : List Effect) :
    failureCalls (e :: t) = (if e = .processFailure then 1 else 0) + failureCalls t := by
  simp [failureCalls, List.countP_cons, Nat.add_comm]

@[simp] theorem hookCalls_nil : hookCalls [] = 0 := rfl

@[simp] theorem hookCalls_append (t u : List Effect) :
    hookCalls (t ++ u) = hookCalls t + hookCalls u := by
  simp [hookCalls, List.countP_append]

@[simp] theorem hookCalls_cons (e : Effect) (t : List Effect) :
    hookCalls (e :: t) =
      (match e with | .ShowYesNoQuestion _ _ => 1 | _ => 0) + hookCalls t := by
  cases e <;> simp [hookCalls, List.countP_cons, Nat.add_comm]

@[simp] theorem queryCalls_nil : queryCalls [] = 0 := rfl

@[simp] theorem queryCalls_append (t u : List Effect) :
    queryCalls (t ++ u) = queryCalls t + queryCalls u := by
  simp [queryCalls, List.countP_append]

@[simp] theorem queryCalls_cons (e : Effect) (t : List Effect) :
    queryCalls (e :: t) =
      (match e with | .QueryProcess _ _ => 1 | _ => 0) + queryCalls t := by
  cases e <;> simp [queryCalls, List.countP_cons, Nat.add_comm]

@[simp] theorem editCalls_nil : editCalls [] = 0 := rfl

@[simp] theorem editCalls_append (t u : List Effect) :
    editCalls (t ++ u) = editCalls t + editCalls u := by
  simp [editCalls, List.countP_append]

@[simp] theorem editCalls_cons (e : Effect) (t : List Effect) :
    editCalls (e :: t) =
      (match e with | .EditPage _ _ _ _ => 1 | _ => 0) + editCalls t := by
  cases e <;> simp [editCalls, List.countP_cons, Nat.add_comm]

/-! ## Closed forms of the teardown routines -/

theorem freeResources_eq (s : RevertQuery) :
    freeResources s = { s with
      timer := false, eqSoftwareRollback := none, qHistoryInfo := none, qRevert := none,
      qPreflight := none, qRetrieve := none, trace := s.trace ++ [Effect.UnregisterConsumerTmr] } := by
  cases s with
  | mk _ _ _ _ _ _ _ _ _ _ _ _ _ _ _ _ _ _ _ _ _ timer _ _ =>
    cases timer <;> simp [freeResources, emit]

theorem Kill_eq (s : RevertQuery) :
    Kill s = { s with
      status := .StatusKilled, timer := false, eqSoftwareRollback := none, qHistoryInfo := none,
      qRevert := none, qPreflight := none, qRetrieve := none, CustomStatus := "",
      preflightFinished := false, rollingBack := false, trace := s.trace ++ killTrace s } := by
  cases s with
  | mk _ _ _ _ _ _ _ _ _ _ _ _ _ _ _ qP qR qH qT _ _ timer _ _ =>
    cases qP <;> cases qR <;> cases qH <;> cases qT <;> cases timer <;>
      simp [Kill, freeResources, emit, killTrace]

@[simp] theorem failureCalls_killTrace (s : RevertQuery) : failureCalls (killTrace s) = 0 := by
  unfold killTrace
  split_ifs <;> simp

@[simp] theorem hookCalls_killTrace (s : RevertQuery) : hookCalls (killTrace s) = 0 := by
  unfold killTrace
  split_ifs <;> simp

@[simp] theorem queryCalls_killTrace (s : RevertQuery) : queryCalls (killTrace s) = 0 := by
  unfold killTrace
  split_ifs <;> simp

@[simp] theorem editCalls_killTrace (s : RevertQuery) : editCalls (killTrace s) = 0 := by
  unfold killTrace
  split_ifs <;> simp

theorem displayError_eq (s : RevertQuery) (error reason : String) :
    displayError s error reason = { s with
      status := .StatusDone, Result := some ⟨"", "", true⟩,
      timer := false, eqSoftwareRollback := none, qHistoryInfo := none,
      qRevert := none, qPreflight := none, qRetrieve := none, CustomStatus := "",
      preflightFinished := false, rollingBack := false,
      trace := s.trace ++ [Effect.ErrorLog error] ++ killTrace s ++ [Effect.processFailure] } := by
  simp [displayError, Kill_eq, emit, killTrace, QueryResult.new, QueryResult.SetError]

theorem cancelRevert_eq (s : RevertQuery) :
    cancelRevert s = { s with
      status := .StatusDone, Result := some ⟨"", "User requested to abort this", true⟩,
      timer := false, eqSoftwareRollback := none, qHistoryInfo := none,
      qRevert := none, qPreflight := none, qRetrieve := none, CustomStatus := "Stopped",
      preflightFinished := true,
      trace := s.trace ++ [Effect.UnregisterConsumerTmr, Effect.processFailure] } := by
  simp [cancelRevert, freeResources_eq, emit, QueryResult.newFailed, QueryResult.SetErrorMsg]

/-! ## Rollback path: classification of the result -/

/-- C1 (as the code has it): on the rollback path a completed rollback query
whose result carries an error node with code `alreadyrolled` ends the workflow
in the failed outcome: `evaluateRevertQueryResults` returns true, the status
is `StatusInError`, the result is marked as error with the text "Edit was
reverted by someone else - skipping" and one failure notification is sent. -/
theorem C1_alreadyrolled_is_failure (env : Env) (s : RevertQuery) (q : ApiQuery)
    (ms : ApiQueryResultNode)
    (hSR : s.usingSR = false) (hst : s.status ≠ .StatusIsSuspended)
    (hq : s.qRevert = some q) (hproc : q.Processed = true)
    (hnode : GetNode q.Nodes "error" = some ms) (hcode : ms.contains "code" = true)
    (herr : ms.GetAttribute "code" = "alreadyrolled") :
    (evaluateRevertQueryResults env s).1 = true ∧
    (evaluateRevertQueryResults env s).2.status = .StatusInError ∧
    (evaluateRevertQueryResults env s).2.CustomStatus =
      "Edit was reverted by someone else - skipping" ∧
    (evaluateRevertQueryResults env s).2.Result =
      some ⟨"", "Edit was reverted by someone else - skipping", true⟩ ∧
    failureCalls (evaluateRevertQueryResults env s).2.trace = failureCalls s.trace + 1 ∧
    (evaluateRevertQueryResults env s).2.qRevert = none := by
  simp [evaluateRevertQueryResults, getCustomRevertStatus, hSR, hst, hq, hproc, hnode, hcode,
    herr, QueryResult.newFailed, QueryResult.SetErrorMsg, emit]

/-- C1, concrete input: a rollback answered with `alreadyrolled` does not end
in the success outcome; the status is `StatusInError`, not `StatusDone`, the
result is marked as error and a failure notification is sent. -/
theorem C1_alreadyrolled_counterexample :
    (evaluateRevertQueryResults demoEnv (rollbackDone [errorNode "alreadyrolled"])).2.status
      = .StatusInError ∧
    (evaluateRevertQueryResults demoEnv (rollbackDone [errorNode "alreadyrolled"])).2.status
      ≠ .StatusDone ∧
    ((evaluateRevertQueryResults demoEnv (rollbackDone [errorNode "alreadyrolled"])).2.Result.map
      (fun r => r.Failed)) = some true ∧
    failureCalls (evaluateRevertQueryResults demoEnv
      (rollbackDone [errorNode "alreadyrolled"])).2.trace = 1 := by
  decide

/-- C1, the theorem applied to the concrete input. -/
theorem C1_alreadyrolled_is_failure_witness :
    (evaluateRevertQueryResults demoEnv (rollbackDone [errorNode "alreadyrolled"])).1 = true ∧
    (evaluateRevertQueryResults demoEnv (rollbackDone [errorNode "alreadyrolled"])).2.status
      = .StatusInError :=
  have h := C1_alreadyrolled_is_failure demoEnv (rollbackDone [errorNode "alreadyrolled"])
    { ApiQuery.new .ActionRollback with
      Target := "P", UsingPOST := true, Processed := true, Nodes := [errorNode "alreadyrolled"] }
    (errorNode "alreadyrolled") rfl (by decide) rfl rfl (by decide) (by decide) (by decide)
  ⟨h.1, h.2.1⟩

/-! ## Manual revert: the history stage -/

/-- Without a revision newer than the reverted edit the conflict re-check
leaves its accumulator as it was. -/
theorem conflictStep_no_newer (env : Env) (passed resv : Bool) (s : RevertQuery)
    (e : ApiQueryResultNode)
    (hle : env.toInt (e.GetAttribute "revid") ≤ s.editToBeReverted.RevID) :
    conflictStep env (passed, resv, s) e = (passed, resv, s) := by
  unfold conflictStep
  have hnot : ¬ env.toInt (e.GetAttribute "revid") > s.editToBeReverted.RevID := by omega
  simp [hnot]

theorem conflictScan_no_newer (env : Env) (revs : List ApiQueryResultNode) (passed resv : Bool)
    (s : RevertQuery)
    (hle : ∀ n ∈ revs, env.toInt (n.GetAttribute "revid") ≤ s.editToBeReverted.RevID) :
    revs.foldl (conflictStep env) (passed, resv, s) = (passed, resv, s) := by
  induction revs with
  | nil => rfl
  | cons e rest ih =>
    rw [List.foldl_cons, conflictStep_no_newer env passed resv s e (hle e (by simp))]
    exact ih (fun n hn => hle n (by simp [hn]))

/-- The target search stops at the first node that satisfies `isTarget`,
counted from the depth the search starts with. -/
theorem findTarget_first (env : Env) (revs : List ApiQueryResultNode) :
    ∀ (s : RevertQuery) (i : Nat) (node : ApiQueryResultNode),
      (∀ n ∈ revs, n.contains "revid" = true ∧ n.contains "user" = true) →
      revs[i]? = some node →
      isTarget env s.editToBeReverted.User.Username s.oneEditOnly (s.SR_Depth + i) node = true →
      (∀ j n, j < i → revs[j]? = some n →
        isTarget env s.editToBeReverted.User.Username s.oneEditOnly (s.SR_Depth + j) n = false) →
      (findTarget env revs s).1 = false ∧
      (findTarget env revs s).2.SR_Depth = s.SR_Depth + i ∧
      (findTarget env revs s).2.SR_RevID = env.toInt (node.GetAttribute "revid") ∧
      (findTarget env revs s).2.SR_Target = env.SanitizeUser (node.GetAttribute "user") ∧
      (findTarget env revs s).2.editToBeReverted = s.editToBeReverted ∧
      queryCalls (findTarget env revs s).2.trace = queryCalls s.trace ∧
      failureCalls (findTarget env revs s).2.trace = failureCalls s.trace := by
  induction revs with
  | nil => intro s i node _ hi; simp at hi
  | cons a rest ih =>
    intro s i node hall hi hq hfirst
    have ha := hall a (by simp)
    cases i with
    | zero =>
      simp at hi
      subst hi
      have hq2 : (decide (s.SR_Depth ≥ 1) && s.oneEditOnly ||
          env.SanitizeUser (a.GetAttribute "user") != s.editToBeReverted.User.Username) = true := by
        simp [isTarget] at hq
        simp only [Bool.or_eq_true, Bool.and_eq_true, decide_eq_true_eq, bne_iff_ne, ne_eq]
        tauto
      rw [findTarget]
      simp only [ha.1, ha.2, Bool.not_true, Bool.or_self, Bool.false_eq_true, if_false, hq2, if_true]
      split_ifs <;> simp [emit]
    | succ k =>
      have h0 := hfirst 0 a (by omega) (by simp)
      have hq0 : (decide (s.SR_Depth ≥ 1) && s.oneEditOnly ||
          env.SanitizeUser (a.GetAttribute "user") != s.editToBeReverted.User.Username) = false := by
        simp [isTarget] at h0
        simp only [Bool.or_eq_false_iff, Bool.and_eq_false_imp, decide_eq_true_eq, bne_eq_false_iff_eq,
          ge_iff_le]
        refine ⟨fun h => ?_, h0.1⟩
        cases hO : s.oneEditOnly
        · rfl
        · have := h0.2 hO; omega
      rw [findTarget]
      simp only [ha.1, ha.2, Bool.not_true, Bool.or_self, Bool.false_eq_true, if_false, hq0]
      have hi2 : rest[k]? = some node := by simpa using hi
      have := ih { s with SR_Depth := s.SR_Depth + 1 } k node
        (fun n hn => hall n (by simp [hn])) hi2
        (by simpa [Nat.add_assoc, Nat.add_comm 1 k] using hq)
        (fun j n hj hn => by
          have := hfirst (j + 1) n (by omega) (by simpa using hn)
          simpa [Nat.add_assoc, Nat.add_comm 1 j] using this)
      simpa [Nat.add_assoc, Nat.add_comm 1 k] using this

/-- C2: in the history stage of `evaluateRevert`, for a non-empty, successfully
fetched history list in which each node has a revid and a user and no revid is
greater than the reverted edit's, the node at the first index `i` (in server
order) whose sanitized author differs from the reverted edit's author (or,
with last-edit-only, with `i ≥ 1`) is the selected target: `SR_RevID` is its
revid, `SR_Target` its sanitized author and `SR_Depth = i`. -/
theorem C2_manual_revert_target (env : Env) (s : RevertQuery) (qh : ApiQuery) (i : Nat)
    (node : ApiQueryResultNode)
    (hedit : s.eqSoftwareRollback = none) (hretr : s.qRetrieve = none)
    (hhist : s.qHistoryInfo = some qh) (hproc : qh.Processed = true) (hok : qh.Failed = false)
    (hall : ∀ n ∈ GetNodes qh.Nodes "rev", n.contains "revid" = true ∧ n.contains "user" = true)
    (hle : ∀ n ∈ GetNodes qh.Nodes "rev",
      env.toInt (n.GetAttribute "revid") ≤ s.editToBeReverted.RevID)
    (hi : (GetNodes qh.Nodes "rev")[i]? = some node)
    (htarget : isTarget env s.editToBeReverted.User.Username s.oneEditOnly i node = true)
    (hfirst : ∀ j n, j < i → (GetNodes qh.Nodes "rev")[j]? = some n →
      isTarget env s.editToBeReverted.User.Username s.oneEditOnly j n = false) :
    (evaluateRevert env s).2.SR_RevID = env.toInt (node.GetAttribute "revid") ∧
    (evaluateRevert env s).2.SR_Target = env.SanitizeUser (node.GetAttribute "user") ∧
    (evaluateRevert env s).2.SR_Depth = i := by
  have hne : (GetNodes qh.Nodes "rev").length ≠ 0 := by
    intro h0
    have : (GetNodes qh.Nodes "rev") = [] := List.length_eq_zero.mp h0
    rw [this] at hi
    simp at hi
  obtain ⟨f1, f2, f3, f4, -, -, -⟩ := findTarget_first env (GetNodes qh.Nodes "rev")
    { s with SR_Depth := 0 } i node hall hi (by simpa using htarget) (by simpa using hfirst)
  simp only [Nat.zero_add] at f2
  unfold evaluateRevert
  simp only [hedit, hretr, hhist]
  unfold evaluateRevert_history
  simp only [hproc, hok, Bool.not_true, Bool.false_eq_true, if_false, hne]
  rw [conflictScan_no_newer env _ true false { s with SR_Depth := 0 } hle]
  simp only [Bool.not_true, Bool.false_eq_true, if_false]
  cases hft : findTarget env (GetNodes qh.Nodes "rev") { s with SR_Depth := 0 } with
  | mk r s1 =>
    rw [hft] at f1 f2 f3 f4
    simp only at f1 f2 f3 f4
    subst f1
    simp only [Bool.false_eq_true, if_false]
    split_ifs <;> simp [displayError_eq, emit, f2, f3, f4]

/-- C2, the spec's example: for the history
`[id=5 user=A (reverted), id=4 user=A, id=3 user=B, id=2 user=A]` the target
is id=3 by B at depth 2, and the content of revision 3 is fetched. -/
theorem C2_manual_revert_target_witness :
    (evaluateRevert demoEnv (historyDone demoEnv demoEdit demoHistory)).2.SR_RevID = 3 ∧
    (evaluateRevert demoEnv (historyDone demoEnv demoEdit demoHistory)).2.SR_Target = "B" ∧
    (evaluateRevert demoEnv (historyDone demoEnv demoEdit demoHistory)).2.SR_Depth = 2 :=
  have h := C2_manual_revert_target demoEnv (historyDone demoEnv demoEdit demoHistory)
    { ApiQuery.new .ActionQuery with Processed := true, Nodes := demoHistory } 2 (revNode "3" "B")
    rfl rfl rfl rfl rfl (by decide) (by decide) (by decide) (by decide)
    (by
      intro j n hj hn
      interval_cases j
      · have : n = revNode "5" "A" := by simpa [GetNodes, demoHistory, revNode] using hn.symm
        subst this; decide
      · have : n = revNode "4" "A" := by simpa [GetNodes, demoHistory, revNode] using hn.symm
        subst this; decide)
  ⟨h.1.trans (by decide), h.2.1.trans (by decide), h.2.2⟩

/-! ## Manual revert: the content-fetch stage -/

/-- Once the status is `StatusDone`, ticks neither submit an edit nor start a
query nor send a failure notification, and the status stays `StatusDone`. -/
theorem ticks_of_done (envs : List Env) :
    ∀ s : RevertQuery, s.status = .StatusDone →
      (ticks envs s).status = .StatusDone ∧
      editCalls (ticks envs s).trace = editCalls s.trace ∧
      queryCalls (ticks envs s).trace = queryCalls s.trace ∧
      failureCalls (ticks envs s).trace = failureCalls s.trace := by
  induction envs with
  | nil => intro s h; exact ⟨h, rfl, rfl, rfl⟩
  | cons env rest ih =>
    intro s h
    have hstep : (OnTick env s).status = .StatusDone ∧
        editCalls (OnTick env s).trace = editCalls s.trace ∧
        queryCalls (OnTick env s).trace = queryCalls s.trace ∧
        failureCalls (OnTick env s).trace = failureCalls s.trace := by
      unfold OnTick OnTick_finish IsProcessed
      cases ht : s.timer <;> simp [emit, h, ht]
    obtain ⟨h1, h2, h3, h4⟩ := hstep
    obtain ⟨i1, i2, i3, i4⟩ := ih (OnTick env s) h1
    exact ⟨i1, i2.trans h2, i3.trans h3, i4.trans h4⟩

/-- What `displayError` leaves behind: the error outcome, one more failure
notification, and no edit or query, now or at any later tick. -/
theorem displayError_outcome (s : RevertQuery) (error reason : String) :
    errorOutcome (displayError s error reason) ∧
    failureCalls (displayError s error reason).trace = failureCalls s.trace + 1 ∧
    editCalls (displayError s error reason).trace = editCalls s.trace ∧
    queryCalls (displayError s error reason).trace = queryCalls s.trace ∧
    hookCalls (displayError s error reason).trace = hookCalls s.trace ∧
    (∀ envs, editCalls (ticks envs (displayError s error reason)).trace = editCalls s.trace) ∧
    (∀ envs, queryCalls (ticks envs (displayError s error reason)).trace = queryCalls s.trace) := by
  have hst : (displayError s error reason).status = .StatusDone := by simp [displayError_eq]
  refine ⟨by simp [displayError_eq, errorOutcome], by simp [displayError_eq],
    by simp [displayError_eq], by simp [displayError_eq], by simp [displayError_eq], ?_, ?_⟩
  · intro envs
    rw [(ticks_of_done envs _ hst).2.1]
    simp [displayError_eq]
  · intro envs
    rw [(ticks_of_done envs _ hst).2.2.1]
    simp [displayError_eq]

/-- The two ways the content-fetch stage ends once the content query has
completed: the edit is submitted, or `displayError` is called. -/
theorem evaluateRevert_retrieve_cases (env : Env) (s : RevertQuery) (qr : ApiQuery)
    (hproc : qr.Processed = true) :
    (contentUsable env s qr = true ∧ ∃ info summary, GetNode qr.Nodes "rev" = some info ∧
      evaluateRevert_retrieve env qr s = (false, { s with
        trace := s.trace ++
          [Effect.EditPage s.editToBeReverted.Page.PageName info.Value summary s.MinorEdit],
        eqSoftwareRollback := some
          ⟨s.editToBeReverted.Page.PageName, info.Value, summary, s.MinorEdit, false, false, ""⟩,
        CustomStatus := env.l "editing-page" [] })) ∨
    (contentUsable env s qr = false ∧ ∃ error reason,
      evaluateRevert_retrieve env qr s = (true, displayError s error reason)) := by
  unfold evaluateRevert_retrieve contentUsable
  simp only [hproc, Bool.not_true, Bool.false_eq_true, if_false]
  cases hF : qr.Failed
  · cases hnode : GetNode qr.Nodes "rev" with
    | none => exact Or.inr ⟨by simp, _, _, rfl⟩
    | some info =>
      cases hrev : info.contains "revid"
      · exact Or.inr ⟨by simp [hrev], _, _, by simp [hrev]; rfl⟩
      · by_cases hid : env.toInt (info.GetAttribute "revid") = s.SR_RevID
        · by_cases hval : info.Value = ""
          · exact Or.inr ⟨by simp [hrev, hid, hval], _, _, by simp [hrev, hid, hval]; rfl⟩
          · exact Or.inl ⟨by simp [hrev, hid, hval], info, _, rfl, by simp [hrev, hid, hval, emit]; rfl⟩
        · exact Or.inr ⟨by simp [hrev, hid], _, _, by simp [hrev, hid]; rfl⟩
  · exact Or.inr ⟨by simp, _, _, by simp; rfl⟩

/-- C3: in the content-fetch stage of `evaluateRevert` (the content query has
completed) an edit is submitted if and only if the query did not fail, a `rev`
node exists, its `revid` attribute equals `SR_RevID` and its content is not
empty; the submitted content is then exactly the node's content. In every
other case the stage ends in the error outcome with one failure notification,
and no edit is submitted, neither by this call nor by any later tick. -/
theorem C3_content_fetch (env : Env) (s : RevertQuery) (qr : ApiQuery)
    (hedit : s.eqSoftwareRollback = none) (hretr : s.qRetrieve = some qr)
    (hproc : qr.Processed = true) :
    (editCalls (evaluateRevert env s).2.trace = editCalls s.trace + 1 ↔
      contentUsable env s qr = true) ∧
    (contentUsable env s qr = true →
      ∃ info summary, GetNode qr.Nodes "rev" = some info ∧
        (evaluateRevert env s).1 = false ∧
        (evaluateRevert env s).2.trace = s.trace ++
          [Effect.EditPage s.editToBeReverted.Page.PageName info.Value summary s.MinorEdit] ∧
        (evaluateRevert env s).2.eqSoftwareRollback = some
          ⟨s.editToBeReverted.Page.PageName, info.Value, summary, s.MinorEdit, false, false, ""⟩) ∧
    (contentUsable env s qr = false →
      (evaluateRevert env s).1 = true ∧
      errorOutcome (evaluateRevert env s).2 ∧
      failureCalls (evaluateRevert env s).2.trace = failureCalls s.trace + 1 ∧
      editCalls (evaluateRevert env s).2.trace = editCalls s.trace ∧
      ∀ envs, editCalls (ticks envs (evaluateRevert env s).2).trace = editCalls s.trace) := by
  have hev : evaluateRevert env s = evaluateRevert_retrieve env qr s := by
    unfold evaluateRevert
    simp only [hedit, hretr]
  rw [hev]
  rcases evaluateRevert_retrieve_cases env s qr hproc with
    ⟨hu, info, summary, hnode, heq⟩ | ⟨hu, error, reason, heq⟩
  · rw [heq, hu]
    refine ⟨by simp, fun _ => ⟨info, summary, hnode, rfl, rfl, rfl⟩, fun h => by simp at h⟩
  · rw [heq, hu]
    obtain ⟨d1, d2, d3, -, -, d6, -⟩ := displayError_outcome s error reason
    refine ⟨?_, fun h => by simp at h, fun _ => ⟨rfl, d1, d2, d3, d6⟩⟩
    simp only [d3]
    constructor
    · intro h; omega
    · intro h; simp at h

/-- C3, concrete inputs: with target revision 3, a fetched node `revid=3` with
content "old text" is submitted with exactly that content, and a fetched node
with empty content ends in the error outcome without any edit. -/
theorem C3_content_fetch_witness :
    editCalls (evaluateRevert demoEnv
        (retrieveDone 3 [⟨"rev", [("revid", "3")], "old text"⟩])).2.trace = 1 ∧
    (evaluateRevert demoEnv (retrieveDone 3 [⟨"rev", [("revid", "3")], "old text"⟩])).2.trace =
      [Effect.EditPage "P" "old text" "Reverted edits by A to B (HG)" false] ∧
    errorOutcome (evaluateRevert demoEnv (retrieveDone 3 [⟨"rev", [("revid", "3")], ""⟩])).2 ∧
    editCalls (evaluateRevert demoEnv (retrieveDone 3 [⟨"rev", [("revid", "3")], ""⟩])).2.trace
      = 0 :=
  have h1 := C3_content_fetch demoEnv (retrieveDone 3 [⟨"rev", [("revid", "3")], "old text"⟩])
    { ApiQuery.new .ActionQuery with
      Processed := true, Nodes := [⟨"rev", [("revid", "3")], "old text"⟩] } rfl rfl rfl
  have h2 := C3_content_fetch demoEnv (retrieveDone 3 [⟨"rev", [("revid", "3")], ""⟩])
    { ApiQuery.new .ActionQuery with
      Processed := true, Nodes := [⟨"rev", [("revid", "3")], ""⟩] } rfl rfl rfl
  ⟨h1.1.mpr (by decide), by decide, (h2.2.2 (by decide)).2.1, (h2.2.2 (by decide)).2.2.2.1⟩

/-! ## Manual revert: what the two loops of the history stage can do -/

theorem sameCounts_refl (t : List Effect) : sameCounts t t := ⟨rfl, rfl, rfl, rfl⟩

theorem sameCounts_trans {t u v : List Effect} (h1 : sameCounts t u) (h2 : sameCounts u v) :
    sameCounts t v :=
  ⟨h2.1.trans h1.1, h2.2.1.trans h1.2.1, h2.2.2.1.trans h1.2.2.1, h2.2.2.2.trans h1.2.2.2⟩

/-- One step of the conflict re-check changes nothing but the log. -/
theorem conflictStep_frame (env : Env) (passed resv : Bool) (s : RevertQuery)
    (e : ApiQueryResultNode) :
    (conflictStep env (passed, resv, s) e).2.2 =
      { s with trace := (conflictStep env (passed, resv, s) e).2.2.trace } ∧
    sameCounts s.trace (conflictStep env (passed, resv, s) e).2.2.trace := by
  unfold conflictStep
  simp only
  split_ifs <;> simp [emit, sameCounts]

/-- The conflict re-check changes nothing but the log. -/
theorem conflictScan_frame (env : Env) (revs : List ApiQueryResultNode) :
    ∀ (passed resv : Bool) (s : RevertQuery),
      (revs.foldl (conflictStep env) (passed, resv, s)).2.2 =
        { s with trace := (revs.foldl (conflictStep env) (passed, resv, s)).2.2.trace } ∧
      sameCounts s.trace (revs.foldl (conflictStep env) (passed, resv, s)).2.2.trace := by
  induction revs with
  | nil => intro passed resv s; exact ⟨rfl, sameCounts_refl _⟩
  | cons e rest ih =>
    intro passed resv s
    rw [List.foldl_cons]
    obtain ⟨h1, h2⟩ := conflictStep_frame env passed resv s e
    cases hc : conflictStep env (passed, resv, s) e with
    | mk p1 r =>
      cases r with
      | mk r1 s1 =>
        rw [hc] at h1 h2
        simp only at h1 h2
        obtain ⟨i1, i2⟩ := ih p1 r1 s1
        refine ⟨?_, sameCounts_trans h2 i2⟩
        rw [i1, h1]

/-- Outcomes of the target search. Either it returned from the function
through `displayError` (a node without `revid` or `user`), or it changed only
`SR_Depth`, `SR_RevID`, `SR_Target` and the log, and then either it stopped at
the first node satisfying `isTarget` or it passed every node. -/
theorem findTarget_cases (env : Env) (revs : List ApiQueryResultNode) :
    ∀ s : RevertQuery,
      ((findTarget env revs s).1 = true ∧
        errorOutcome (findTarget env revs s).2 ∧
        failureCalls (findTarget env revs s).2.trace = failureCalls s.trace + 1 ∧
        queryCalls (findTarget env revs s).2.trace = queryCalls s.trace ∧
        editCalls (findTarget env revs s).2.trace = editCalls s.trace ∧
        hookCalls (findTarget env revs s).2.trace = hookCalls s.trace) ∨
      ((findTarget env revs s).1 = false ∧
        (findTarget env revs s).2 = { s with
          SR_Depth := (findTarget env revs s).2.SR_Depth,
          SR_RevID := (findTarget env revs s).2.SR_RevID,
          SR_Target := (findTarget env revs s).2.SR_Target,
          trace := (findTarget env revs s).2.trace } ∧
        sameCounts s.trace (findTarget env revs s).2.trace ∧
        ((∃ k node, revs[k]? = some node ∧
            (findTarget env revs s).2.SR_Depth = s.SR_Depth + k ∧
            (findTarget env revs s).2.SR_RevID = env.toInt (node.GetAttribute "revid") ∧
            (findTarget env revs s).2.SR_Target = env.SanitizeUser (node.GetAttribute "user") ∧
            isTarget env s.editToBeReverted.User.Username s.oneEditOnly (s.SR_Depth + k) node
              = true) ∨
          ((findTarget env revs s).2.SR_Depth = s.SR_Depth + revs.length ∧
            (findTarget env revs s).2.SR_RevID = s.SR_RevID ∧
            ∀ k node, revs[k]? = some node →
              isTarget env s.editToBeReverted.User.Username s.oneEditOnly (s.SR_Depth + k) node
                = false))) := by
  induction revs with
  | nil =>
    intro s
    exact Or.inr ⟨rfl, rfl, sameCounts_refl _, Or.inr ⟨rfl, rfl, by simp⟩⟩
  | cons a rest ih =>
    intro s
    by_cases hbad : (!a.contains "revid" || !a.contains "user") = true
    · left
      rw [findTarget]
      simp only [hbad, if_true]
      obtain ⟨d1, d2, d3, d4, d5, -, -⟩ := displayError_outcome s
        ("Unable to revert the page " ++ s.editToBeReverted.Page.PageName ++
          " because mediawiki returned some non-sense") ""
      split <;> simp [emit, d2, d3, d4, d5] <;> simpa [errorOutcome] using d1
    · by_cases hsel : (decide (s.SR_Depth ≥ 1) && s.oneEditOnly ||
          env.SanitizeUser (a.GetAttribute "user") != s.editToBeReverted.User.Username) = true
      · right
        have htar : isTarget env s.editToBeReverted.User.Username s.oneEditOnly (s.SR_Depth + 0) a
            = true := by
          simp only [Bool.or_eq_true, Bool.and_eq_true, decide_eq_true_eq, bne_iff_ne, ne_eq] at hsel
          simp [isTarget]
          tauto
        rw [findTarget]
        simp only [hbad, if_false, hsel, if_true, Bool.false_eq_true]
        split_ifs <;>
          exact ⟨by trivial, by trivial, by simp [emit, sameCounts],
            Or.inl ⟨0, a, by simp, by simp [emit], by trivial, by trivial, htar⟩⟩
      · have hnt : isTarget env s.editToBeReverted.User.Username s.oneEditOnly (s.SR_Depth + 0) a
            = false := by
          simp only [Bool.or_eq_true, Bool.and_eq_true, decide_eq_true_eq, bne_iff_ne, ne_eq,
            not_or, not_and, not_not] at hsel
          simp [isTarget]
          refine ⟨hsel.2, fun h => ?_⟩
          by_contra hpos
          exact absurd h (by simpa using hsel.1 (by omega))
        have hstep : findTarget env (a :: rest) s =
            findTarget env rest { s with SR_Depth := s.SR_Depth + 1 } := by
          rw [findTarget]
          simp only [hbad, if_false, hsel, Bool.false_eq_true]
        rw [hstep]
        rcases ih { s with SR_Depth := s.SR_Depth + 1 } with h | ⟨h1, h2, h3, h4⟩
        · exact Or.inl h
        · right
          refine ⟨h1, ?_, h3, ?_⟩
          · rw [h2]
          · rcases h4 with ⟨k, node, g1, g2, g3, g4, g5⟩ | ⟨g1, g2, g3⟩
            · left
              refine ⟨k + 1, node, by simpa using g1, ?_, g3, g4, ?_⟩
              · simp only at g2; rw [g2]; omega
              · simpa [Nat.add_assoc, Nat.add_comm 1 k] using g5
            · right
              refine ⟨?_, g2, ?_⟩
              · simp only at g1; rw [g1]; simp; omega
              · intro k node hk
                cases k with
                | zero =>
                  simp at hk
                  subst hk
                  exact hnt
                | succ j =>
                  have := g3 j node (by simpa using hk)
                  simpa [Nat.add_assoc, Nat.add_comm 1 j] using this

/-- The two ways the history stage ends once the history query has completed:
(A) the error outcome, with one failure notification and no query; or (B) the
content query for `SR_RevID` is issued, and then `SR_Depth ≥ 1`, `SR_RevID` is
not the unknown sentinel, and either the walk stopped at the node of index
`SR_Depth`, which satisfies `isTarget`, or it passed every node and `SR_RevID`
is the value it had on entry. -/
theorem evaluateRevert_history_cases (env : Env) (s : RevertQuery) (qh : ApiQuery)
    (hproc : qh.Processed = true) :
    ((evaluateRevert_history env qh s).1 = true ∧
      errorOutcome (evaluateRevert_history env qh s).2 ∧
      failureCalls (evaluateRevert_history env qh s).2.trace = failureCalls s.trace + 1 ∧
      queryCalls (evaluateRevert_history env qh s).2.trace = queryCalls s.trace) ∨
    ((evaluateRevert_history env qh s).1 = false ∧
      (evaluateRevert_history env qh s).2.qRetrieve =
        some (retrieveQuery env (evaluateRevert_history env qh s).2.SR_RevID) ∧
      queryCalls (evaluateRevert_history env qh s).2.trace = queryCalls s.trace + 1 ∧
      failureCalls (evaluateRevert_history env qh s).2.trace = failureCalls s.trace ∧
      (evaluateRevert_history env qh s).2.SR_Depth ≥ 1 ∧
      (evaluateRevert_history env qh s).2.SR_RevID ≠ env.WIKI_UNKNOWN_REVID ∧
      (evaluateRevert_history env qh s).2.editToBeReverted = s.editToBeReverted ∧
      ((∃ node, (GetNodes qh.Nodes "rev")[(evaluateRevert_history env qh s).2.SR_Depth]? = some node ∧
          (evaluateRevert_history env qh s).2.SR_RevID = env.toInt (node.GetAttribute "revid") ∧
          (evaluateRevert_history env qh s).2.SR_Target =
            env.SanitizeUser (node.GetAttribute "user") ∧
          isTarget env s.editToBeReverted.User.Username s.oneEditOnly
            (evaluateRevert_history env qh s).2.SR_Depth node = true) ∨
        ((evaluateRevert_history env qh s).2.SR_Depth = (GetNodes qh.Nodes "rev").length ∧
          (evaluateRevert_history env qh s).2.SR_RevID = s.SR_RevID ∧
          ∀ k node, (GetNodes qh.Nodes "rev")[k]? = some node →
            isTarget env s.editToBeReverted.User.Username s.oneEditOnly k node = false))) := by
  have herr : ∀ (s1 : RevertQuery) (error reason : String),
      failureCalls s1.trace = failureCalls s.trace → queryCalls s1.trace = queryCalls s.trace →
      errorOutcome (displayError s1 error reason) ∧
      failureCalls (displayError s1 error reason).trace = failureCalls s.trace + 1 ∧
      queryCalls (displayError s1 error reason).trace = queryCalls s.trace := by
    intro s1 error reason hf hq
    obtain ⟨d1, d2, -, d4, -, -, -⟩ := displayError_outcome s1 error reason
    exact ⟨d1, by rw [d2, hf], by rw [d4, hq]⟩
  unfold evaluateRevert_history
  simp only [hproc, Bool.not_true, Bool.false_eq_true, if_false]
  by_cases hF : qh.Failed = true
  · rw [if_pos hF]
    refine Or.inl ⟨by trivial, ?_⟩
    dsimp only
    exact herr s _ _ rfl rfl
  · rw [if_neg hF]
    by_cases hlen : (GetNodes qh.Nodes "rev").length = 0
    · rw [if_pos hlen]
      refine Or.inl ⟨by trivial, ?_⟩
      dsimp only
      exact herr s _ _ rfl rfl
    · rw [if_neg hlen]
      obtain ⟨c1, c2⟩ := conflictScan_frame env (GetNodes qh.Nodes "rev") true false
        { s with SR_Depth := 0 }
      cases hc : (GetNodes qh.Nodes "rev").foldl (conflictStep env) (true, false,
        { s with SR_Depth := 0 }) with
      | mk passed r =>
        cases r with
        | mk resv s1 =>
          rw [hc] at c1 c2
          simp only at c1 c2
          have e1 : s1.editToBeReverted = s.editToBeReverted := by rw [c1]
          have e2 : s1.oneEditOnly = s.oneEditOnly := by rw [c1]
          have e3 : s1.SR_Depth = 0 := by rw [c1]
          have e4 : s1.SR_RevID = s.SR_RevID := by rw [c1]
          simp only
          cases passed with
          | false =>
            simp only [Bool.not_false, if_true]
            refine Or.inl ⟨by trivial, ?_⟩
            dsimp only
            exact herr s1 _ _ c2.2.2.2 c2.2.1
          | true =>
            simp only [Bool.not_true, Bool.false_eq_true, if_false]
            rcases findTarget_cases env (GetNodes qh.Nodes "rev") s1 with
              ⟨w1, w2, w3, w4, -, -⟩ | ⟨w1, w2, w3, w4⟩
            · cases hw : findTarget env (GetNodes qh.Nodes "rev") s1 with
              | mk ret s2 =>
                rw [hw] at w1 w2 w3 w4
                simp only at w1 w2 w3 w4
                subst w1
                simp only [if_true]
                exact Or.inl ⟨by trivial, w2, by rw [w3, c2.2.2.2], by rw [w4, c2.2.1]⟩
            · cases hw : findTarget env (GetNodes qh.Nodes "rev") s1 with
              | mk ret s2 =>
                rw [hw] at w1 w2 w3 w4
                simp only at w1 w2 w3 w4
                subst w1
                have f1 : failureCalls s2.trace = failureCalls s.trace := by
                  rw [w3.2.2.2, c2.2.2.2]
                have f2 : queryCalls s2.trace = queryCalls s.trace := by
                  rw [w3.2.1, c2.2.1]
                have f3 : s2.editToBeReverted = s.editToBeReverted := by rw [w2, e1]
                simp only [Bool.false_eq_true, if_false]
                by_cases hd : s2.SR_Depth = 0
                · rw [if_pos hd]
                  obtain ⟨g1, g2, g3⟩ := herr s2 (env.l "revert-fail"
                    [s2.editToBeReverted.Page.PageName, "because it was edited meanwhile"]) "" f1 f2
                  exact Or.inl ⟨by trivial, by simpa [errorOutcome, emit] using g1,
                    by simpa [emit] using g2, by simpa [emit] using g3⟩
                · rw [if_neg hd]
                  by_cases hu : s2.SR_RevID = env.WIKI_UNKNOWN_REVID
                  · rw [if_pos hu]
                    refine Or.inl ⟨by trivial, ?_⟩
                    dsimp only
                    exact herr s2 _ _ f1 f2
                  · rw [if_neg hu]
                    refine Or.inr ⟨by trivial, by trivial, by simp [emit, f2], by simp [emit, f1],
                      by simp [emit]; omega, by simpa [emit] using hu, by simpa [emit] using f3, ?_⟩
                    simp only [emit]
                    rw [e1, e2, e3] at w4
                    rcases w4 with ⟨k, node, g1, g2, g3, g4, g5⟩ | ⟨g1, g2, g3⟩
                    · left
                      simp only [Nat.zero_add] at g2 g5
                      exact ⟨node, by rw [g2]; exact g1, g3, g4, by rw [g2]; exact g5⟩
                    · right
                      simp only [Nat.zero_add] at g1 g3
                      exact ⟨g1, by rw [g2, e4], g3⟩

/-- In the history stage `evaluateRevert` is `evaluateRevert_history`. -/
theorem evaluateRevert_eq_history (env : Env) (s : RevertQuery) (qh : ApiQuery)
    (hedit : s.eqSoftwareRollback = none) (hretr : s.qRetrieve = none)
    (hhist : s.qHistoryInfo = some qh) :
    evaluateRevert env s = evaluateRevert_history env qh s := by
  unfold evaluateRevert
  simp only [hedit, hretr, hhist]

/-- C4 (as the code has it): for a fresh workflow (`SR_RevID` unknown on
entry), whenever the history stage of `evaluateRevert` goes on to fetch target
content, `SR_Depth ≥ 1` and `SR_RevID` is the revid of the revision at index
`SR_Depth` of that history result; if moreover the history lists its revisions
in strictly descending revid order and none of them is newer than the reverted
edit, `SR_RevID` is strictly smaller than the reverted edit's revision id. -/
theorem C4_target_is_observed_and_older (env : Env) (s : RevertQuery) (qh : ApiQuery)
    (hedit : s.eqSoftwareRollback = none) (hretr : s.qRetrieve = none)
    (hhist : s.qHistoryInfo = some qh) (hproc : qh.Processed = true)
    (hfresh : s.SR_RevID = env.WIKI_UNKNOWN_REVID)
    (hfetch : (evaluateRevert env s).2.qRetrieve ≠ none) :
    (evaluateRevert env s).2.SR_Depth ≥ 1 ∧
    ∃ node, (GetNodes qh.Nodes "rev")[(evaluateRevert env s).2.SR_Depth]? = some node ∧
      (evaluateRevert env s).2.SR_RevID = env.toInt (node.GetAttribute "revid") ∧
      ((GetNodes qh.Nodes "rev").Pairwise
          (fun a b => env.toInt (a.GetAttribute "revid") > env.toInt (b.GetAttribute "revid")) →
        (∀ n ∈ GetNodes qh.Nodes "rev",
          env.toInt (n.GetAttribute "revid") ≤ s.editToBeReverted.RevID) →
        (evaluateRevert env s).2.SR_RevID < s.editToBeReverted.RevID) := by
  rw [evaluateRevert_eq_history env s qh hedit hretr hhist] at hfetch ⊢
  rcases evaluateRevert_history_cases env s qh hproc with
    ⟨-, a2, -, -⟩ | ⟨-, -, -, -, b5, b6, -, b8⟩
  · exact absurd a2.2.2.2.2.2.1 hfetch
  · rcases b8 with ⟨node, g1, g2, -, -⟩ | ⟨-, g2, -⟩
    · refine ⟨b5, node, g1, g2, fun hsorted hle => ?_⟩
      rw [g2]
      generalize (evaluateRevert_history env qh s).2.SR_Depth = d at b5 g1
      cases hrevs : GetNodes qh.Nodes "rev" with
      | nil => rw [hrevs] at g1; simp at g1
      | cons h t =>
        rw [hrevs] at g1 hsorted hle
        cases d with
        | zero => omega
        | succ k =>
          have hmem : node ∈ t := List.getElem?_mem (by simpa using g1)
          have h1 := (List.pairwise_cons.mp hsorted).1 node hmem
          have h2 := hle h (by simp)
          omega
    · exact absurd (g2.trans hfresh) b6

/-- C4, concrete inputs on which the claim as stated fails. (a) Last-edit-only,
auto-resolve on: with the history `[id=7 user=A, id=5 user=A (reverted),
id=4 user=B]` the content of revision 5, the reverted edit itself, is fetched.
(b) Reverted edit with unknown revision id: with the history
`[id=10 user=A, id=9 user=B]` the content of revision 9 is fetched, which is
not smaller than the reverted edit's id. -/
theorem C4_target_counterexample :
    ((evaluateRevert autoEnv lastEditNewerSame).2.qRetrieve = some (retrieveQuery autoEnv 5) ∧
      (evaluateRevert autoEnv lastEditNewerSame).2.SR_RevID = lastEditNewerSame.editToBeReverted.RevID ∧
      ¬ (evaluateRevert autoEnv lastEditNewerSame).2.SR_RevID
          < lastEditNewerSame.editToBeReverted.RevID) ∧
    ((evaluateRevert demoEnv unknownRevID).2.qRetrieve = some (retrieveQuery demoEnv 9) ∧
      unknownRevID.editToBeReverted.RevID = demoEnv.WIKI_UNKNOWN_REVID ∧
      ¬ (evaluateRevert demoEnv unknownRevID).2.SR_RevID < unknownRevID.editToBeReverted.RevID) := by
  decide

/-- C4, the theorem applied to the spec's example history: the content of
revision 3 is fetched, it is the revision at index 2 and it is older than the
reverted revision 5. -/
theorem C4_target_is_observed_and_older_witness :
    (evaluateRevert demoEnv (historyDone demoEnv demoEdit demoHistory)).2.SR_Depth ≥ 1 ∧
    ∃ node, demoHistory[(evaluateRevert demoEnv
        (historyDone demoEnv demoEdit demoHistory)).2.SR_Depth]? = some node ∧
      (evaluateRevert demoEnv (historyDone demoEnv demoEdit demoHistory)).2.SR_RevID
        = demoEnv.toInt (node.GetAttribute "revid") ∧
      (evaluateRevert demoEnv (historyDone demoEnv demoEdit demoHistory)).2.SR_RevID < 5 :=
  have h := C4_target_is_observed_and_older demoEnv (historyDone demoEnv demoEdit demoHistory)
    { ApiQuery.new .ActionQuery with Processed := true, Nodes := demoHistory }
    rfl rfl rfl rfl rfl (by decide)
  ⟨h.1, h.2.elim fun node hn => ⟨node, hn.1, hn.2.1, hn.2.2 (by decide) (by decide)⟩⟩

/-- C6 (as the code has it): every completed rollback result with error code
`badtoken`, the first as well as any later one, suspends the workflow: the
session is invalidated (`Logout`), the status becomes `StatusIsSuspended`,
`evaluateRevertQueryResults` returns false, no failure notification is sent
and no result is set; while suspended, ticks do nothing. The workflow keeps no
record of an earlier `badtoken`. -/
theorem C6_badtoken_always_suspends (env : Env) (s : RevertQuery) (q : ApiQuery)
    (ms : ApiQueryResultNode)
    (hSR : s.usingSR = false) (hst : s.status ≠ .StatusIsSuspended)
    (hq : s.qRevert = some q) (hproc : q.Processed = true)
    (hnode : GetNode q.Nodes "error" = some ms) (hcode : ms.contains "code" = true)
    (herr : ms.GetAttribute "code" = "badtoken") :
    (evaluateRevertQueryResults env s).1 = false ∧
    (evaluateRevertQueryResults env s).2.status = .StatusIsSuspended ∧
    (evaluateRevertQueryResults env s).2.IsLoggedIn = false ∧
    (evaluateRevertQueryResults env s).2.trace = s.trace ++ [Effect.Logout] ∧
    (evaluateRevertQueryResults env s).2.Result = s.Result ∧
    (∀ env2, OnTick env2 (evaluateRevertQueryResults env s).2
      = (evaluateRevertQueryResults env s).2) := by
  have hev : evaluateRevertQueryResults env s = (false, { s with
      status := .StatusIsSuspended, IsLoggedIn := false, trace := s.trace ++ [Effect.Logout],
      CustomStatus := "ERROR: Cannot rollback, token " ++ env.Token_Rollback ++
          " is not valid for some reason (mediawiki bug), trying once more" }) := by
    simp [evaluateRevertQueryResults, getCustomRevertStatus, hSR, hst, hq, hproc, hnode, hcode,
      herr, Suspend, Logout, emit]
  rw [hev]
  refine ⟨rfl, rfl, rfl, rfl, rfl, fun env2 => ?_⟩
  simp [OnTick]

/-- C6, concrete run: the first rollback attempt is answered with `badtoken`
and the workflow is suspended; after re-authentication the workflow is
restarted, issues a second rollback, is answered with `badtoken` again, and is
suspended again: its status is not `StatusInError` and no failure notification
was sent. -/
theorem C6_second_badtoken_counterexample :
    firstBadtoken.status = .StatusIsSuspended ∧
    rollbackCalls firstBadtoken.trace = 1 ∧
    rollbackCalls secondBadtoken.trace = 2 ∧
    secondBadtoken.status = .StatusIsSuspended ∧
    secondBadtoken.status ≠ .StatusInError ∧
    secondBadtoken.Result = none ∧
    failureCalls secondBadtoken.trace = 0 := by
  decide

/-- C6, the theorem applied to a rollback answered with `badtoken`. -/
theorem C6_badtoken_always_suspends_witness :
    (evaluateRevertQueryResults demoEnv (rollbackDone [errorNode "badtoken"])).1 = false ∧
    (evaluateRevertQueryResults demoEnv (rollbackDone [errorNode "badtoken"])).2.status
      = .StatusIsSuspended ∧
    (evaluateRevertQueryResults demoEnv (rollbackDone [errorNode "badtoken"])).2.trace
      = [Effect.Logout] :=
  have h := C6_badtoken_always_suspends demoEnv (rollbackDone [errorNode "badtoken"])
    { ApiQuery.new .ActionRollback with
      Target := "P", UsingPOST := true, Processed := true, Nodes := [errorNode "badtoken"] }
    (errorNode "badtoken") rfl (by decide) rfl rfl (by decide) (by decide) (by decide)
  ⟨h.1, h.2.1, h.2.2.2.1⟩

/-! ## Preflight: the authoritative pass -/

/-- One step of the scan of the server history, in closed form. -/
theorem preflightStep_eq (env : Env) (edit : WikiEdit) (m p ps : Bool) (n : ApiQueryResultNode) :
    preflightStep env edit (m, p, ps) n =
      (if p && isNewerWithUser env edit n then bySameAuthor env edit n else m,
       p && (!isNewerWithUser env edit n || bySameAuthor env edit n),
       ps && !isNewer env edit n) := by
  unfold preflightStep isNewerWithUser isNewer bySameAuthor
  cases hrev : n.contains "revid"
  · simp
  · by_cases heq : edit.RevID = env.toInt (n.GetAttribute "revid")
    · simp [heq]
    · by_cases hk : edit.RevID = env.WIKI_UNKNOWN_REVID
      · have heq2 : ¬ env.WIKI_UNKNOWN_REVID = env.toInt (n.GetAttribute "revid") := by
          rw [← hk]; exact heq
        simp [hk, heq2]
      · by_cases hgt : env.toInt (n.GetAttribute "revid") > edit.RevID
        · by_cases hs : env.SanitizeUser (n.GetAttribute "user") = edit.User.Username <;>
            cases hu : n.contains "user" <;> cases p <;> simp [heq, hk, hgt, hs]
        · cases hu : n.contains "user" <;> cases p <;> simp [heq, hk, hgt]

/-- Without a newer revision that names its author, every node passes the
same-author test. -/
theorem all_same_of_no_newer (env : Env) (edit : WikiEdit) (revs : List ApiQueryResultNode)
    (h : revs.any (isNewerWithUser env edit) = false) :
    revs.all (fun n => !isNewerWithUser env edit n || bySameAuthor env edit n) = true := by
  rw [List.all_eq_true]
  intro n hn
  have : isNewerWithUser env edit n = false := by
    by_contra hc
    have hc2 : isNewerWithUser env edit n = true := by simpa using hc
    have : revs.any (isNewerWithUser env edit) = true := List.any_eq_true.mpr ⟨n, hn, hc2⟩
    rw [h] at this
    exact absurd this (by simp)
  simp [this]

/-- The flags after the scan of the server history, in closed form, from any
starting values. -/
theorem preflightScan_eq (env : Env) (edit : WikiEdit) (revs : List ApiQueryResultNode) :
    ∀ m p ps : Bool, revs.foldl (preflightStep env edit) (m, p, ps) =
      (if p && revs.any (isNewerWithUser env edit)
        then revs.all (fun n => !isNewerWithUser env edit n || bySameAuthor env edit n) else m,
       p && revs.all (fun n => !isNewerWithUser env edit n || bySameAuthor env edit n),
       ps && !revs.any (isNewer env edit)) := by
  induction revs with
  | nil => intro m p ps; simp
  | cons a rest ih =>
    intro m p ps
    rw [List.foldl_cons, preflightStep_eq, ih]
    have hrel := all_same_of_no_newer env edit rest
    simp only [List.any_cons, List.all_cons]
    revert hrel
    generalize rest.any (isNewerWithUser env edit) = x1
    generalize rest.all (fun n => !isNewerWithUser env edit n || bySameAuthor env edit n) = x2
    generalize rest.any (isNewer env edit) = x3
    generalize isNewerWithUser env edit a = y1
    generalize isNewer env edit a = y2
    generalize bySameAuthor env edit a = y3
    intro hrel
    cases p <;> cases ps <;> cases x1 <;> cases x2 <;> cases x3 <;> cases y1 <;> cases y2 <;>
      cases y3 <;> simp at hrel ⊢

/-- When the scan of the server history sets `multiple_edits`. -/
theorem multiple_edits_iff (env : Env) (edit : WikiEdit) (revs : List ApiQueryResultNode) :
    (evaluatePreflightCheck_scan env edit revs).1 = true ↔
      (∃ n ∈ revs, isNewerWithUser env edit n = true) ∧
      (∀ n ∈ revs, isNewerWithUser env edit n = true → bySameAuthor env edit n = true) := by
  unfold evaluatePreflightCheck_scan
  rw [preflightScan_eq]
  simp only [Bool.true_and]
  cases hany : revs.any (isNewerWithUser env edit)
  · simp only [Bool.false_eq_true, if_false, false_iff, not_and]
    intro ⟨n, hn, h⟩
    have : revs.any (isNewerWithUser env edit) = true := List.any_eq_true.mpr ⟨n, hn, h⟩
    rw [hany] at this
    exact absurd this (by simp)
  · simp only [if_true, List.all_eq_true, Bool.or_eq_true, Bool.not_eq_true']
    constructor
    · intro h
      refine ⟨List.any_eq_true.mp hany, fun n hn hnew => ?_⟩
      rcases h n hn with h1 | h1
      · rw [hnew] at h1; exact absurd h1 (by simp)
      · exact h1
    · intro ⟨_, h⟩ n hn
      cases hnew : isNewerWithUser env edit n
      · exact Or.inl rfl
      · exact Or.inr (h n hn hnew)

/-- C10 (as the code has it): in `evaluatePreflightCheck` the flag
`multiple_edits` is true after the scan iff at least one revision newer than
the reverted edit (with a `revid` greater than the reverted edit's known id)
that names its author exists, and every such revision is by the reverted
edit's author. One newer revision is enough. -/
theorem C10_multiple_edits_flag (env : Env) (edit : WikiEdit) (revs : List ApiQueryResultNode) :
    (evaluatePreflightCheck_scan env edit revs).1 = true ↔
      (∃ n ∈ revs, isNewerWithUser env edit n = true) ∧
      (∀ n ∈ revs, isNewerWithUser env edit n = true → bySameAuthor env edit n = true) :=
  multiple_edits_iff env edit revs

/-- C10, concrete input: with the server history `[id=6 user=A, id=5 user=A
(reverted)]` exactly one revision is newer than the reverted edit, and
`multiple_edits` is true. -/
theorem C10_single_newer_counterexample :
    ([revNode "6" "A", revNode "5" "A"].filter (isNewer demoEnv demoEdit)).length = 1 ∧
    (evaluatePreflightCheck_scan demoEnv demoEdit [revNode "6" "A", revNode "5" "A"]).1 = true := by
  decide

/-- With auto-resolve on and `multiple_edits` set, the authoritative pass
cancels without asking when `RevertOnMultipleEdits` is off, and asks the user
once when it is on. -/
theorem evaluatePreflightCheck_multiple_auto (env : Env) (s : RevertQuery) (q : ApiQuery)
    (hone : s.oneEditOnly = false) (hign : s.IgnorePreflightCheck = false)
    (hq : s.qPreflight = some q) (hproc : q.Processed = true) (hok : q.Failed = false)
    (hauto : env.AutomaticallyResolveConflicts = true)
    (hmulti : (evaluatePreflightCheck_scan env s.editToBeReverted (GetNodes q.Nodes "rev")).1
      = true) :
    (env.RevertOnMultipleEdits = false →
      evaluatePreflightCheck env s = cancelRevert (emit (.Log (env.l "cr-stop-multiple-same"
        [s.editToBeReverted.Page.PageName])) s)) ∧
    (env.RevertOnMultipleEdits = true →
      hookCalls (evaluatePreflightCheck env s).trace = hookCalls s.trace + 1) := by
  have hnewer : (evaluatePreflightCheck_scan env s.editToBeReverted
      (GetNodes q.Nodes "rev")).2.2 = false := by
    obtain ⟨⟨n, hn, hnew⟩, -⟩ := (multiple_edits_iff env s.editToBeReverted _).mp hmulti
    unfold evaluatePreflightCheck_scan
    rw [preflightScan_eq]
    have : (GetNodes q.Nodes "rev").any (isNewer env s.editToBeReverted) = true := by
      refine List.any_eq_true.mpr ⟨n, hn, ?_⟩
      unfold isNewerWithUser at hnew
      simp only [Bool.and_eq_true] at hnew
      exact hnew.1
    simp [this]
  unfold evaluatePreflightCheck
  simp only [hone, hign, hq, hproc, hok, Bool.or_self, Bool.false_eq_true, if_false,
    Bool.not_true]
  cases hscan : evaluatePreflightCheck_scan env s.editToBeReverted (GetNodes q.Nodes "rev") with
  | mk m r =>
    cases r with
    | mk p ps =>
      rw [hscan] at hmulti hnewer
      simp only at hmulti hnewer
      subst hmulti hnewer
      constructor
      · intro hoff
        simp [hauto, hoff]
      · intro hon
        simp only [hauto, hon, Bool.true_and, if_true, Bool.not_true, Bool.and_false,
          Bool.false_eq_true, if_false, Bool.and_self, Bool.not_false]
        split_ifs <;> simp_all [emit, freeResources_eq]

/-- C7, failing input: auto-resolve on, `RevertOnMultipleEdits` on, server
history `[id=7 user=A, id=6 user=A, id=5 user=A (reverted)]`. The pass logs
that the conflict is resolved and then still invokes the user-interaction
hook; with the answer no, the workflow is aborted. -/
theorem C7_hook_invoked_after_auto_resolve :
    hookCalls (evaluatePreflightCheck multiEnv (preflightDone demoEdit twoNewerBySame)).trace = 1 ∧
    (evaluatePreflightCheck multiEnv (preflightDone demoEdit twoNewerBySame)).trace =
      [Effect.Log "cr-revert-same-user P",
       Effect.ShowYesNoQuestion "revert-preflightcheck" "cr-message-same P",
       Effect.UnregisterConsumerTmr, Effect.processFailure] ∧
    (evaluatePreflightCheck multiEnv (preflightDone demoEdit twoNewerBySame)).CustomStatus
      = "Stopped" ∧
    (evaluatePreflightCheck { multiEnv with ShowYesNoQuestion := fun _ _ _ => true }
      (preflightDone demoEdit twoNewerBySame)).trace =
      [Effect.Log "cr-revert-same-user P",
       Effect.ShowYesNoQuestion "revert-preflightcheck" "cr-message-same P"] := by
  decide

/-! ## Preflight: the registry-based pass -/

/-- One step of the registry scan, in closed form. -/
theorem registryStep_eq (env : Env) (edit : WikiEdit) (failed same : Bool) (w : WikiEdit) :
    registryStep env edit (failed, same) w =
      (failed || qualifiesNewer env edit w,
       same && (!qualifiesNewer env edit w || env.UserEqualTo w.User edit.User)) := by
  unfold registryStep qualifiesNewer
  by_cases haddr : w.addr = edit.addr <;> by_cases ht : w.Time > edit.Time <;>
    cases w.PostProcessed <;> cases env.PageEqualTo w.Page edit.Page <;>
    cases env.UserEqualTo w.User edit.User <;> simp [haddr, ht]

/-- The flags after the registry scan, in closed form, from any starting
values. -/
theorem registryScan_eq (env : Env) (edit : WikiEdit) (ws : List WikiEdit) :
    ∀ failed same : Bool, ws.foldl (registryStep env edit) (failed, same) =
      (failed || ws.any (qualifiesNewer env edit),
       same && ws.all (fun w => !qualifiesNewer env edit w ||
         env.UserEqualTo w.User edit.User)) := by
  induction ws with
  | nil => intro failed same; simp
  | cons w rest ih =>
    intro failed same
    rw [List.foldl_cons, registryStep_eq, ih]
    simp [Bool.or_assoc, Bool.and_assoc]

/-- C9: the registry-based conflict detection of `preflightCheck` equals the
reference definition. With last-edit-only set no conflict is reported whatever
the registry holds; otherwise `failed` is `hasNewerEdits` (some entry is
post-processed, is not the edit under revert itself, is on the same page and
is strictly later) and `made_by_same_user` is `allNewerBySameAuthor` (every
such entry has the author of the edit under revert). -/
theorem C9_registry_detection (env : Env) (s : RevertQuery) :
    (preflightCheck_detect env s).1 = hasNewerEdits env s ∧
    (s.oneEditOnly = true → (preflightCheck_detect env s).1 = false) ∧
    (s.oneEditOnly = false →
      ((preflightCheck_detect env s).1 = true ↔
        ∃ w ∈ env.EditList, w.PostProcessed = true ∧ w.addr ≠ s.editToBeReverted.addr ∧
          env.PageEqualTo w.Page s.editToBeReverted.Page = true ∧
          w.Time > s.editToBeReverted.Time) ∧
      (preflightCheck_detect env s).2 = allNewerBySameAuthor env s ∧
      ((preflightCheck_detect env s).2 = true ↔
        ∀ w ∈ env.EditList, w.PostProcessed = true → w.addr ≠ s.editToBeReverted.addr →
          env.PageEqualTo w.Page s.editToBeReverted.Page = true →
          w.Time > s.editToBeReverted.Time →
          env.UserEqualTo w.User s.editToBeReverted.User = true)) := by
  unfold preflightCheck_detect hasNewerEdits allNewerBySameAuthor
  cases hone : s.oneEditOnly
  · rw [if_pos (by simp), registryScan_eq]
    simp only [Bool.false_or, Bool.true_and, Bool.not_false, Bool.false_eq_true, false_implies,
      true_implies, true_and]
    refine ⟨?_, ?_⟩
    · simp [List.any_eq_true, qualifiesNewer, and_assoc]
    · simp only [List.all_eq_true, Bool.or_eq_true, Bool.not_eq_true', true_and]
      constructor
      · intro h w hw h1 h2 h3 h4
        rcases h w hw with hq | hq
        · simp [qualifiesNewer, h1, h2, h3, h4] at hq
        · exact hq
      · intro h w hw
        cases hq : qualifiesNewer env s.editToBeReverted w
        · exact Or.inl rfl
        · right
          simp only [qualifiesNewer, Bool.and_eq_true, decide_eq_true_eq] at hq
          exact h w hw hq.1.1.1 hq.1.1.2 hq.1.2 hq.2
  · simp

/-- What `cancelRevert` leaves behind: the policy-abort outcome and one more
failure notification, without hook call or query. -/
theorem cancelRevert_outcome (s : RevertQuery) :
    abortOutcome (cancelRevert s) ∧
    failureCalls (cancelRevert s).trace = failureCalls s.trace + 1 ∧
    hookCalls (cancelRevert s).trace = hookCalls s.trace ∧
    queryCalls (cancelRevert s).trace = queryCalls s.trace := by
  simp [cancelRevert_eq, abortOutcome]

/-- What the start of the preflight query changes: the slot `qPreflight` and
one more query. -/
theorem preflightCheck_query_outcome (env : Env) (s : RevertQuery) :
    (preflightCheck_query env s).qPreflight ≠ none ∧
    queryCalls (preflightCheck_query env s).trace = queryCalls s.trace + 1 ∧
    hookCalls (preflightCheck_query env s).trace = hookCalls s.trace ∧
    failureCalls (preflightCheck_query env s).trace = failureCalls s.trace ∧
    (preflightCheck_query env s).IgnorePreflightCheck = s.IgnorePreflightCheck ∧
    (preflightCheck_query env s).status = s.status ∧
    (preflightCheck_query env s).CustomStatus = s.CustomStatus := by
  simp [preflightCheck_query, emit]

/-- C8: registry-based policy decision of `preflightCheck` when a conflict is
detected. With auto-resolve on, the workflow proceeds silently (no hook call,
`IgnorePreflightCheck` set, preflight query issued) if all newer edits are by
the same author and `RevertNewBySame` is set, and otherwise aborts through
`cancelRevert` (status text "Stopped", no query, no hook call). With
auto-resolve off the hook is invoked once; a negative answer aborts with the
same state as the auto-resolve abort (all fields but the trace agree), a
positive answer sets `IgnorePreflightCheck` and issues the preflight query. -/
theorem C8_registry_policy (env : Env) (s : RevertQuery)
    (hconf : (preflightCheck_detect env s).1 = true) :
    (env.AutomaticallyResolveConflicts = true →
      ((preflightCheck_detect env s).2 = true ∧ env.RevertNewBySame = true →
        hookCalls (preflightCheck env s).trace = hookCalls s.trace ∧
        (preflightCheck env s).IgnorePreflightCheck = true ∧
        (preflightCheck env s).qPreflight ≠ none ∧
        queryCalls (preflightCheck env s).trace = queryCalls s.trace + 1 ∧
        failureCalls (preflightCheck env s).trace = failureCalls s.trace ∧
        (preflightCheck env s).status = s.status) ∧
      (¬ ((preflightCheck_detect env s).2 = true ∧ env.RevertNewBySame = true) →
        abortOutcome (preflightCheck env s) ∧
        hookCalls (preflightCheck env s).trace = hookCalls s.trace ∧
        queryCalls (preflightCheck env s).trace = queryCalls s.trace ∧
        failureCalls (preflightCheck env s).trace = failureCalls s.trace + 1 ∧
        { preflightCheck env s with trace := [] } = { cancelRevert s with trace := [] })) ∧
    (env.AutomaticallyResolveConflicts = false →
      hookCalls (preflightCheck env s).trace = hookCalls s.trace + 1 ∧
      (env.ShowYesNoQuestion (env.l "revert-preflightcheck" [])
          (if (preflightCheck_detect env s).2 = true
            then env.l "cr-message-new" [s.editToBeReverted.Page.PageName]
            else env.l "cr-message-not-same" [s.editToBeReverted.Page.PageName]) false = false →
        abortOutcome (preflightCheck env s) ∧
        queryCalls (preflightCheck env s).trace = queryCalls s.trace ∧
        failureCalls (preflightCheck env s).trace = failureCalls s.trace + 1 ∧
        { preflightCheck env s with trace := [] } = { cancelRevert s with trace := [] }) ∧
      (env.ShowYesNoQuestion (env.l "revert-preflightcheck" [])
          (if (preflightCheck_detect env s).2 = true
            then env.l "cr-message-new" [s.editToBeReverted.Page.PageName]
            else env.l "cr-message-not-same" [s.editToBeReverted.Page.PageName]) false = true →
        (preflightCheck env s).IgnorePreflightCheck = true ∧
        (preflightCheck env s).qPreflight ≠ none ∧
        queryCalls (preflightCheck env s).trace = queryCalls s.trace + 1 ∧
        failureCalls (preflightCheck env s).trace = failureCalls s.trace ∧
        (preflightCheck env s).status = s.status)) := by
  unfold preflightCheck
  cases hdet : preflightCheck_detect env s with
  | mk failed same =>
    rw [hdet] at hconf
    simp only at hconf
    subst hconf
    simp only [if_true]
    constructor
    · intro hauto
      simp only [hauto, if_true]
      constructor
      · rintro ⟨hsame, hrnbs⟩
        simp only [hsame, hrnbs, Bool.and_self, if_true]
        obtain ⟨q1, q2, q3, q4, q5, q6, -⟩ := preflightCheck_query_outcome env
          (emit (Effect.Log (env.l "cr-newer-edits" [s.editToBeReverted.Page.PageName]))
            { s with IgnorePreflightCheck := true })
        exact ⟨by rw [q3]; simp [emit], by rw [q5]; rfl, q1, by rw [q2]; simp [emit],
          by rw [q4]; simp [emit], by rw [q6]; rfl⟩
      · intro hnot
        have hcond : (same && env.RevertNewBySame) = false := by
          cases same <;> cases hr : env.RevertNewBySame <;> simp_all
        simp only [hcond, Bool.false_eq_true, if_false]
        obtain ⟨c1, c2, c3, c4⟩ := cancelRevert_outcome
          (emit (Effect.Log (env.l "cr-stop-new-edit" [s.editToBeReverted.Page.PageName])) s)
        exact ⟨c1, by rw [c3]; simp [emit], by rw [c4]; simp [emit], by rw [c2]; simp [emit],
          by simp [cancelRevert_eq, emit]⟩
    · intro hauto
      simp only [hauto, Bool.false_eq_true, if_false]
      refine ⟨?_, ?_, ?_⟩
      · split_ifs <;> simp [cancelRevert_eq, preflightCheck_query, emit]
      · intro hno
        simp only [hno, Bool.not_false, if_true]
        obtain ⟨c1, c2, -, c4⟩ := cancelRevert_outcome
          (emit (Effect.ShowYesNoQuestion (env.l "revert-preflightcheck" [])
            (if same = true then env.l "cr-message-new" [s.editToBeReverted.Page.PageName]
              else env.l "cr-message-not-same" [s.editToBeReverted.Page.PageName])) s)
        exact ⟨c1, by rw [c4]; simp [emit], by rw [c2]; simp [emit],
          by simp [cancelRevert_eq, emit]⟩
      · intro hyes
        simp only [hyes, Bool.not_true, Bool.false_eq_true, if_false]
        simp [preflightCheck_query, emit]

/-- C8, concrete input: the registry holds a later edit to the same page by
another author and auto-resolve is off; the hook is invoked once and, the
answer being no, the workflow is aborted with the status text "Stopped" and
without a query. -/
theorem C8_registry_policy_witness :
    hookCalls (preflightCheck conflictEnv started).trace = 1 ∧
    abortOutcome (preflightCheck conflictEnv started) ∧
    queryCalls (preflightCheck conflictEnv started).trace = 0 :=
  have h := (C8_registry_policy conflictEnv started (by decide)).2 rfl
  ⟨h.1, (h.2.1 (by decide)).1, (h.2.1 (by decide)).2.1⟩

/-! ## Rollback path: closed form of the evaluation -/

@[simp] theorem historyItems_nil : historyItems [] = [] := rfl

@[simp] theorem historyItems_append (t u : List Effect) :
    historyItems (t ++ u) = historyItems t ++ historyItems u := by
  simp [historyItems, List.filterMap_append]

@[simp] theorem historyItems_cons (e : Effect) (t : List Effect) :
    historyItems (e :: t) =
      (match e with | .OnNewHistoryItem item => [item] | _ => []) ++ historyItems t := by
  cases e <;> simp [historyItems, List.filterMap_cons]

@[simp] theorem historyCalls_nil : historyCalls [] = 0 := rfl

@[simp] theorem historyCalls_append (t u : List Effect) :
    historyCalls (t ++ u) = historyCalls t + historyCalls u := by
  simp [historyCalls, List.countP_append]

@[simp] theorem historyCalls_cons (e : Effect) (t : List Effect) :
    historyCalls (e :: t) =
      (match e with | .QueryProcess .qHistoryInfo _ => 1 | _ => 0) + historyCalls t := by
  cases e with
  | QueryProcess slot q => cases slot <;> simp [historyCalls, List.countP_cons, Nat.add_comm]
  | _ => simp [historyCalls, List.countP_cons]

@[simp] theorem rollbackCalls_nil : rollbackCalls [] = 0 := rfl

@[simp] theorem rollbackCalls_append (t u : List Effect) :
    rollbackCalls (t ++ u) = rollbackCalls t + rollbackCalls u := by
  simp [rollbackCalls, List.countP_append]

@[simp] theorem rollbackCalls_cons (e : Effect) (t : List Effect) :
    rollbackCalls (e :: t) =
      (match e with | .QueryProcess .qRevert _ => 1 | _ => 0) + rollbackCalls t := by
  cases e with
  | QueryProcess slot q => cases slot <;> simp [rollbackCalls, List.countP_cons, Nat.add_comm]
  | _ => simp [rollbackCalls, List.countP_cons]

/-- The classification of `getCustomRevertStatus` for every code but
`badtoken`: the object is unchanged, `failed` tells whether the result carries
a code. -/
theorem getCustomRevertStatus_of_not_badtoken (env : Env) (q : ApiQuery) (s : RevertQuery)
    (hbad : errorCode q ≠ some "badtoken") :
    getCustomRevertStatus env q s =
      (match errorCode q with
        | some c =>
          if c = "alreadyrolled" then "Edit was reverted by someone else - skipping"
          else if c = "onlyauthor" then "ERROR: Cannot rollback - page only has one author"
          else "In error (" ++ c ++ ")"
        | none => "Reverted",
       (errorCode q).isSome, s) := by
  unfold getCustomRevertStatus
  unfold errorCode at hbad ⊢
  cases hnode : GetNode q.Nodes "error" with
  | none => simp
  | some ms =>
    rw [hnode] at hbad
    cases hcode : ms.contains "code"
    · simp [hcode]
    · simp only [hcode, if_true, Option.some.injEq, ne_eq] at hbad
      simp only [if_true, hbad, if_false, Option.isSome_some]
      split_ifs <;> simp_all

/-- Closed form of `evaluateRevertQueryResults` on the rollback path for a
completed rollback whose result does not carry `badtoken`: failure when the
result carries a code or the query reports failure, success otherwise. -/
theorem evaluateRevertQueryResults_eq (env : Env) (s : RevertQuery) (q : ApiQuery)
    (hSR : s.usingSR = false) (hst : s.status ≠ .StatusIsSuspended)
    (hq : s.qRevert = some q) (hproc : q.Processed = true)
    (hbad : errorCode q ≠ some "badtoken") :
    evaluateRevertQueryResults env s =
      (true,
        if (errorCode q).isSome || q.Failed then
          { s with
            status := .StatusInError, CustomStatus := rollbackFailureText q,
            Result := some ⟨"", rollbackFailureText q, true⟩, qRevert := none,
            trace := s.trace ++
              [Effect.Log (env.l "revert-fail" [q.Target, rollbackFailureText q]),
               Effect.QuerySetError .qRevert (rollbackFailureText q), Effect.processFailure,
               Effect.UnregisterConsumerRevert] }
        else
          { s with
            status := .StatusDone, CustomStatus := "Reverted",
            Result := some ⟨q.Data, "", false⟩,
            HI := some ⟨q.Target, .HistoryRollback, env.l "successful" []⟩, qRevert := none,
            trace := s.trace ++
              [Effect.OnNewHistoryItem ⟨q.Target, .HistoryRollback, env.l "successful" []⟩,
               Effect.UnregisterConsumerRevert] }) := by
  have h := getCustomRevertStatus_of_not_badtoken env q s hbad
  unfold rollbackFailureText
  cases hc : errorCode q with
  | none =>
    rw [hc] at h
    cases hF : q.Failed <;>
      simp [evaluateRevertQueryResults, hSR, hst, hq, hproc, h, hF, emit, QueryResult.new,
        QueryResult.newFailed, QueryResult.SetErrorMsg]
  | some c =>
    rw [hc] at h
    simp [evaluateRevertQueryResults, hSR, hst, hq, hproc, h, emit, QueryResult.new,
      QueryResult.newFailed, QueryResult.SetErrorMsg]

/-- C17: rollback-path failure classification. For a completed rollback whose
result carries an error code `c` other than `alreadyrolled` and `badtoken` the
workflow ends failed (`StatusInError`, result marked as error, one failure
notification) with the status text "ERROR: Cannot rollback - page only has one
author" when `c` is `onlyauthor` and "In error (c)" otherwise. When the result
carries no error code the workflow fails iff the query itself reports
failure, and then the query's failure reason is the status text. -/
theorem C17_rollback_failure_classification (env : Env) (s : RevertQuery) (q : ApiQuery)
    (hSR : s.usingSR = false) (hst : s.status ≠ .StatusIsSuspended)
    (hq : s.qRevert = some q) (hproc : q.Processed = true) :
    (∀ c, errorCode q = some c → c ≠ "alreadyrolled" → c ≠ "badtoken" →
      (evaluateRevertQueryResults env s).1 = true ∧
      (evaluateRevertQueryResults env s).2.status = .StatusInError ∧
      (evaluateRevertQueryResults env s).2.CustomStatus =
        (if c = "onlyauthor" then "ERROR: Cannot rollback - page only has one author"
          else "In error (" ++ c ++ ")") ∧
      (evaluateRevertQueryResults env s).2.Result =
        some ⟨"", if c = "onlyauthor" then "ERROR: Cannot rollback - page only has one author"
          else "In error (" ++ c ++ ")", true⟩ ∧
      failureCalls (evaluateRevertQueryResults env s).2.trace = failureCalls s.trace + 1) ∧
    (errorCode q = none →
      ((evaluateRevertQueryResults env s).2.status = .StatusInError ↔ q.Failed = true) ∧
      (q.Failed = true →
        (evaluateRevertQueryResults env s).1 = true ∧
        (evaluateRevertQueryResults env s).2.CustomStatus = q.FailureReason ∧
        (evaluateRevertQueryResults env s).2.Result = some ⟨"", q.FailureReason, true⟩ ∧
        failureCalls (evaluateRevertQueryResults env s).2.trace = failureCalls s.trace + 1) ∧
      (q.Failed = false →
        (evaluateRevertQueryResults env s).2.status = .StatusDone ∧
        failureCalls (evaluateRevertQueryResults env s).2.trace = failureCalls s.trace)) := by
  constructor
  · intro c hc h1 h2
    have hbad : errorCode q ≠ some "badtoken" := by
      rw [hc]; intro h; exact h2 (Option.some.inj h)
    rw [evaluateRevertQueryResults_eq env s q hSR hst hq hproc hbad]
    simp [hc, rollbackFailureText, h1]
  · intro hc
    have hbad : errorCode q ≠ some "badtoken" := by rw [hc]; simp
    rw [evaluateRevertQueryResults_eq env s q hSR hst hq hproc hbad]
    cases hF : q.Failed <;> simp [hc, rollbackFailureText]

/-- C17, concrete inputs: a rollback answered with `onlyauthor` ends in
`StatusInError` with the one-author text; a rollback without error code whose
query reports the failure reason "timeout" ends in `StatusInError` with that
reason as status text. -/
theorem C17_rollback_failure_classification_witness :
    ((evaluateRevertQueryResults demoEnv
        (rollbackReported [errorNode "onlyauthor"] false "")).2.status = .StatusInError ∧
      (evaluateRevertQueryResults demoEnv
        (rollbackReported [errorNode "onlyauthor"] false "")).2.CustomStatus
        = "ERROR: Cannot rollback - page only has one author") ∧
    ((evaluateRevertQueryResults demoEnv (rollbackReported [] true "timeout")).2.status
        = .StatusInError ∧
      (evaluateRevertQueryResults demoEnv (rollbackReported [] true "timeout")).2.CustomStatus
        = "timeout") :=
  have h1 := (C17_rollback_failure_classification demoEnv
    (rollbackReported [errorNode "onlyauthor"] false "")
    { ApiQuery.new .ActionRollback with
      Target := "P", UsingPOST := true, Processed := true, Nodes := [errorNode "onlyauthor"],
      Failed := false, FailureReason := "", Data := "<rollback/>" }
    rfl (by decide) rfl rfl).1 "onlyauthor" (by decide) (by decide) (by decide)
  have h2 := (C17_rollback_failure_classification demoEnv (rollbackReported [] true "timeout")
    { ApiQuery.new .ActionRollback with
      Target := "P", UsingPOST := true, Processed := true, Nodes := [],
      Failed := true, FailureReason := "timeout", Data := "<rollback/>" }
    rfl (by decide) rfl rfl).2 (by decide)
  ⟨⟨h1.2.1, h1.2.2.1⟩, h2.1.mpr rfl, (h2.2.1 rfl).2.1⟩

/-! ## Commit to a strategy -/

/-- Closed form of the first call of `executeRollback`: the commit part,
followed by one of four continuations. -/
theorem executeRollback_eq (env : Env) (s : RevertQuery) (hrb : s.rollingBack = false) :
    executeRollback env s =
      if s.usingSR = true then
        { committed env s with
          qHistoryInfo := some (historyQuery env s.editToBeReverted.Page.PageName),
          trace := (committed env s).trace ++
            [Effect.QueryProcess .qHistoryInfo (historyQuery env s.editToBeReverted.Page.PageName)] }
      else if env.Rights.contains "rollback" = false then
        { committed env s with
          usingSR := true,
          qHistoryInfo := some (historyQuery env s.editToBeReverted.Page.PageName),
          trace := (committed env s).trace ++
            [Effect.Log (env.l "software-rollback" []),
             Effect.QueryProcess .qHistoryInfo (historyQuery env s.editToBeReverted.Page.PageName)] }
      else if env.Token_Rollback = "" then
        { committed env s with
          status := .StatusDone,
          Result := some ⟨"", env.l "revert-fail"
            [s.editToBeReverted.Page.PageName, "rollback token was empty"], true⟩,
          timer := false, eqSoftwareRollback := none, qHistoryInfo := none, qRevert := none,
          qPreflight := none, qRetrieve := none,
          trace := (committed env s).trace ++
            [Effect.ErrorLog (env.l "revert-fail"
               [s.editToBeReverted.Page.PageName, "rollback token was empty"]),
             Effect.UnregisterConsumerTmr, Effect.processFailure] }
      else
        { committed env s with
          qRevert := some (rollbackQuery env (committed env s)),
          CustomStatus := env.l "rollback" [s.editToBeReverted.Page.PageName],
          trace := (committed env s).trace ++
            (if env.Verbosity > 0 then [Effect.QueryPoolAppend] else []) ++
            [Effect.DebugLog ("Rolling back " ++ s.editToBeReverted.Page.PageName),
             Effect.QueryProcess .qRevert (rollbackQuery env (committed env s))] } := by
  have hc : (let s1 : RevertQuery := { s with rollingBack := true }
      let s2 : RevertQuery :=
        if s1.Summary = "" then { s1 with Summary := env.RollbackSummaryUnknownTarget } else s1
      let s3 : RevertQuery := if QString_contains s2.Summary "$1"
        then { s2 with Summary := QString_replace s2.Summary "$1" s2.editToBeReverted.User.Username }
        else s2
      let s4 : RevertQuery := { s3 with Summary := env.GenerateSuffix s3.Summary }
      let user : WikiUser := { s4.editToBeReverted.User with
        BadnessScore := s4.editToBeReverted.User.BadnessScore + 200 }
      let s5 : RevertQuery := { s4 with editToBeReverted := { s4.editToBeReverted with User := user } }
      emit (.UpdateUser s5.editToBeReverted.User) s5) = committed env s := by
    unfold committed commitSummary penalised emit
    dsimp only
    split_ifs <;> rfl
  unfold executeRollback
  rw [if_neg (by simp [hrb])]
  dsimp only at hc ⊢
  rw [hc]
  clear hc
  by_cases hSR : s.usingSR = true
  · have : (committed env s).usingSR = true := hSR
    rw [if_pos this, if_pos hSR]
    rfl
  · have : ¬ (committed env s).usingSR = true := hSR
    rw [if_neg this, if_neg hSR]
    cases hR : env.Rights.contains "rollback"
    · simp only [Bool.not_false, if_true]
      simp [executeRevert, emit, historyQuery, committed, penalised]
    · simp only [Bool.not_true, Bool.false_eq_true, if_false]
      by_cases htok : env.Token_Rollback = ""
      · rw [if_pos htok, if_pos htok]
        simp [freeResources_eq, emit, QueryResult.new, QueryResult.SetErrorMsg, committed,
          penalised]
      · rw [if_neg htok, if_neg htok]
        unfold rollbackQuery
        split_ifs <;> simp_all [emit, committed, penalised]

/-- C19: strategy selection in `executeRollback` (first call, `rollingBack`
not yet set). The workflow commits to software revert, issuing the history
query for the page and no rollback query, with `usingSR` true afterwards, iff
the request forces software revert or the site's rights do not contain
`rollback`. Otherwise, with a non-empty rollback token it issues exactly one
rollback-action query, with POST, targeting the page, and no history query;
with an empty token it ends in failure (status Done, result marked as error,
one failure notification) and issues no query. -/
theorem C19_strategy_selection (env : Env) (s : RevertQuery) (hrb : s.rollingBack = false) :
    (historyCalls (executeRollback env s).trace = historyCalls s.trace + 1 ↔
      commitsToSoftwareRevert env s = true) ∧
    (commitsToSoftwareRevert env s = true →
      (executeRollback env s).usingSR = true ∧
      (executeRollback env s).qHistoryInfo =
        some (historyQuery env s.editToBeReverted.Page.PageName) ∧
      queryCalls (executeRollback env s).trace = queryCalls s.trace + 1 ∧
      rollbackCalls (executeRollback env s).trace = rollbackCalls s.trace ∧
      (executeRollback env s).qRevert = s.qRevert ∧
      failureCalls (executeRollback env s).trace = failureCalls s.trace) ∧
    (commitsToSoftwareRevert env s = false → env.Token_Rollback ≠ "" →
      (executeRollback env s).usingSR = false ∧
      rollbackCalls (executeRollback env s).trace = rollbackCalls s.trace + 1 ∧
      queryCalls (executeRollback env s).trace = queryCalls s.trace + 1 ∧
      (∃ q, (executeRollback env s).qRevert = some q ∧ q.action = .ActionRollback ∧
        q.UsingPOST = true ∧ q.Target = s.editToBeReverted.Page.PageName ∧
        q.Processed = false) ∧
      (executeRollback env s).qHistoryInfo = s.qHistoryInfo ∧
      failureCalls (executeRollback env s).trace = failureCalls s.trace) ∧
    (commitsToSoftwareRevert env s = false → env.Token_Rollback = "" →
      queryCalls (executeRollback env s).trace = queryCalls s.trace ∧
      failureCalls (executeRollback env s).trace = failureCalls s.trace + 1 ∧
      (executeRollback env s).status = .StatusDone ∧
      (executeRollback env s).Result = some ⟨"", env.l "revert-fail"
        [s.editToBeReverted.Page.PageName, "rollback token was empty"], true⟩ ∧
      (executeRollback env s).qRevert = none ∧ (executeRollback env s).qHistoryInfo = none) := by
  unfold commitsToSoftwareRevert
  rw [executeRollback_eq env s hrb]
  cases hSR : s.usingSR
  · cases hR : env.Rights.contains "rollback"
    · simp [committed, penalised, hSR]
    · by_cases htok : env.Token_Rollback = ""
      · simp [committed, penalised, htok, hSR]
      · simp only [Bool.false_eq_true, if_false, htok]
        split_ifs <;> simp_all [committed, penalised, rollbackQuery, ApiQuery.new]
  · simp [committed, penalised, hSR]

/-- C19, concrete inputs: with the right `rollback` and the token "tok" one
POST rollback query for page P is issued and no history query; without the
right the history query is issued and `usingSR` is set. -/
theorem C19_strategy_selection_witness :
    (rollbackCalls (executeRollback demoEnv preflightPassed).trace = 1 ∧
      historyCalls (executeRollback demoEnv preflightPassed).trace = 0 ∧
      (executeRollback demoEnv preflightPassed).usingSR = false) ∧
    ((executeRollback { demoEnv with Rights := [] } preflightPassed).usingSR = true ∧
      historyCalls (executeRollback { demoEnv with Rights := [] } preflightPassed).trace = 1 ∧
      rollbackCalls (executeRollback { demoEnv with Rights := [] } preflightPassed).trace = 0) :=
  have h1 := (C19_strategy_selection demoEnv preflightPassed rfl).2.2.1 (by decide) (by decide)
  have h2 := C19_strategy_selection { demoEnv with Rights := [] } preflightPassed rfl
  ⟨⟨h1.2.1, by decide, h1.1⟩, (h2.2.1 (by decide)).1, h2.1.mpr (by decide),
    (h2.2.1 (by decide)).2.2.2.1⟩

/-! ## Rollback path: terminal success -/

/-- C18: rollback-path terminal success. When the rollback query has
completed without failure and without an error code, the workflow sets status
Done, copies the query's result data into its own result and emits exactly one
history record, whose target is the query's target, whose kind is rollback and
whose result text is the success text; no failure notification is sent. The
target of the rollback query is the page name: `executeRollback` issues it so. -/
theorem C18_rollback_success (env : Env) (s : RevertQuery) (q : ApiQuery)
    (hSR : s.usingSR = false) (hst : s.status ≠ .StatusIsSuspended)
    (hq : s.qRevert = some q) (hproc : q.Processed = true)
    (hcode : errorCode q = none) (hok : q.Failed = false) :
    (evaluateRevertQueryResults env s).1 = true ∧
    (evaluateRevertQueryResults env s).2.status = .StatusDone ∧
    (evaluateRevertQueryResults env s).2.Result = some ⟨q.Data, "", false⟩ ∧
    historyItems (evaluateRevertQueryResults env s).2.trace =
      historyItems s.trace ++ [⟨q.Target, .HistoryRollback, env.l "successful" []⟩] ∧
    (evaluateRevertQueryResults env s).2.HI =
      some ⟨q.Target, .HistoryRollback, env.l "successful" []⟩ ∧
    failureCalls (evaluateRevertQueryResults env s).2.trace = failureCalls s.trace ∧
    (evaluateRevertQueryResults env s).2.qRevert = none ∧
    (∀ (env0 : Env) (s0 : RevertQuery), s0.rollingBack = false →
      commitsToSoftwareRevert env0 s0 = false → env0.Token_Rollback ≠ "" →
      (executeRollback env0 s0).qRevert.map (fun r => r.Target)
        = some s0.editToBeReverted.Page.PageName) := by
  have hbad : errorCode q ≠ some "badtoken" := by rw [hcode]; simp
  rw [evaluateRevertQueryResults_eq env s q hSR hst hq hproc hbad]
  refine ⟨rfl, by simp [hcode, hok], by simp [hcode, hok], by simp [hcode, hok],
    by simp [hcode, hok], by simp [hcode, hok], by simp [hcode, hok], ?_⟩
  intro env0 s0 hrb hc htok
  unfold commitsToSoftwareRevert at hc
  simp only [Bool.or_eq_false_iff, Bool.not_eq_false'] at hc
  rw [executeRollback_eq env0 s0 hrb, if_neg (by rw [hc.1]; simp),
    if_neg (by rw [hc.2]; simp), if_neg htok]
  rfl

/-- C18, concrete input: a rollback of page P that completes without error
code and without failure ends in status Done with the query's data in the
result and one rollback history record for P. -/
theorem C18_rollback_success_witness :
    (evaluateRevertQueryResults demoEnv (rollbackReported [] false "")).2.status = .StatusDone ∧
    (evaluateRevertQueryResults demoEnv (rollbackReported [] false "")).2.Result
      = some ⟨"<rollback/>", "", false⟩ ∧
    historyItems (evaluateRevertQueryResults demoEnv (rollbackReported [] false "")).2.trace
      = [⟨"P", .HistoryRollback, "successful"⟩] :=
  have h := C18_rollback_success demoEnv (rollbackReported [] false "")
    { ApiQuery.new .ActionRollback with
      Target := "P", UsingPOST := true, Processed := true, Nodes := [],
      Failed := false, FailureReason := "", Data := "<rollback/>" }
    rfl (by decide) rfl rfl (by decide) rfl
  ⟨h.2.1, h.2.2.1, h.2.2.2.1⟩

/-! ## Manual revert: the edit-submit stage -/

/-- Closed form of `evaluateRevert` in the edit-submit stage once the edit
query has completed. -/
theorem evaluateRevert_edit_eq (env : Env) (s : RevertQuery) (eq : EditQuery)
    (hedit : s.eqSoftwareRollback = some eq) (hproc : eq.Processed = true) :
    evaluateRevert env s =
      (true,
        if eq.Failed = true then
          { s with
            status := .StatusInError, Result := some ⟨"", eq.FailureReason, true⟩,
            timer := false, eqSoftwareRollback := none, qHistoryInfo := none, qRevert := none,
            qPreflight := none, qRetrieve := none, CustomStatus := "",
            preflightFinished := false, rollingBack := false,
            trace := s.trace ++ [Effect.ErrorLog (env.l "revert-fail"
              [s.editToBeReverted.Page.PageName, "edit failed"])] ++ killTrace s ++
              [Effect.processFailure] }
        else
          { s with
            Result := some ⟨"", "", false⟩,
            trace := s.trace ++
              [Effect.DebugLog ("Sucessful SR of page " ++ s.editToBeReverted.Page.PageName)] }) := by
  unfold evaluateRevert
  simp only [hedit, hproc, Bool.not_true, Bool.false_eq_true, if_false]
  cases hF : eq.Failed
  · simp [emit, QueryResult.new]
  · simp [emit, QueryResult.new, QueryResult.SetErrorMsg, Kill_eq, killTrace, hedit]

/-- C16, failing input: manual revert of page P whose edit-submit query has
completed without failure. `evaluateRevert` returns true and sets a result
that is not an error, but the status stays `StatusProcessing` (it is not set
to `StatusDone`) and no history record is emitted; the tick that finds the
edit completed only stops the timer. -/
theorem C16_manual_revert_success_not_done :
    (evaluateRevert demoEnv (editReported false "")).1 = true ∧
    (evaluateRevert demoEnv (editReported false "")).2.status = .StatusProcessing ∧
    (evaluateRevert demoEnv (editReported false "")).2.status ≠ .StatusDone ∧
    historyItems (evaluateRevert demoEnv (editReported false "")).2.trace = [] ∧
    (evaluateRevert demoEnv (editReported false "")).2.HI = none ∧
    (evaluateRevert demoEnv (editReported false "")).2.Result = some ⟨"", "", false⟩ ∧
    (OnTick demoEnv (editReported false "")).status = .StatusProcessing ∧
    (OnTick demoEnv (editReported false "")).trace =
      [Effect.DebugLog "Sucessful SR of page P", Effect.UnregisterConsumerTmr] := by
  decide

/-! ## Failure of an owned remote query -/

/-- C20 (as the code has it): the tick that finds an owned remote query
failed ends the workflow in a failed outcome, sends one failure notification,
issues no query and no edit, and leaves the timer stopped. For a failed
rollback query (whose result carries no error code) and for a failed
edit-submit query the status is `StatusInError` and the workflow's result
carries that query's failure reason; for a failed preflight, history or
content-fetch query the status is `StatusDone` and the result is marked as
error. -/
theorem C20_remote_failure (env : Env) (s : RevertQuery)
    (hst : s.status = .StatusProcessing) :
    (∀ q, s.preflightFinished = false → s.oneEditOnly = false →
      s.IgnorePreflightCheck = false → s.qPreflight = some q → q.Processed = true →
      q.Failed = true →
      failedOutcome .StatusDone (OnTick env s) ∧
      failureCalls (OnTick env s).trace = failureCalls s.trace + 1 ∧
      queryCalls (OnTick env s).trace = queryCalls s.trace ∧
      editCalls (OnTick env s).trace = editCalls s.trace) ∧
    (∀ q, s.preflightFinished = true → s.rollingBack = true → s.usingSR = false →
      s.qRevert = some q → q.Processed = true → errorCode q = none → q.Failed = true →
      failedOutcome .StatusInError (OnTick env s) ∧
      (OnTick env s).Result = some ⟨"", q.FailureReason, true⟩ ∧
      failureCalls (OnTick env s).trace = failureCalls s.trace + 1 ∧
      queryCalls (OnTick env s).trace = queryCalls s.trace ∧
      editCalls (OnTick env s).trace = editCalls s.trace) ∧
    (∀ qh, s.preflightFinished = true → s.rollingBack = true → s.usingSR = true →
      s.eqSoftwareRollback = none → s.qRetrieve = none → s.qHistoryInfo = some qh →
      qh.Processed = true → qh.Failed = true →
      failedOutcome .StatusDone (OnTick env s) ∧
      failureCalls (OnTick env s).trace = failureCalls s.trace + 1 ∧
      queryCalls (OnTick env s).trace = queryCalls s.trace ∧
      editCalls (OnTick env s).trace = editCalls s.trace) ∧
    (∀ qr, s.preflightFinished = true → s.rollingBack = true → s.usingSR = true →
      s.eqSoftwareRollback = none → s.qRetrieve = some qr →
      qr.Processed = true → qr.Failed = true →
      failedOutcome .StatusDone (OnTick env s) ∧
      failureCalls (OnTick env s).trace = failureCalls s.trace + 1 ∧
      queryCalls (OnTick env s).trace = queryCalls s.trace ∧
      editCalls (OnTick env s).trace = editCalls s.trace) ∧
    (∀ eq, s.preflightFinished = true → s.rollingBack = true → s.usingSR = true →
      s.eqSoftwareRollback = some eq → eq.Processed = true → eq.Failed = true →
      failedOutcome .StatusInError (OnTick env s) ∧
      (OnTick env s).Result = some ⟨"", eq.FailureReason, true⟩ ∧
      failureCalls (OnTick env s).trace = failureCalls s.trace + 1 ∧
      queryCalls (OnTick env s).trace = queryCalls s.trace ∧
      editCalls (OnTick env s).trace = editCalls s.trace) := by
  refine ⟨?_, ?_, ?_, ?_, ?_⟩
  · intro q hpf hone hign hq hproc hF
    simp [OnTick, hst, hpf, evaluatePreflightCheck, hone, hign, hq, hproc, hF, Kill_eq, emit,
      failedOutcome, QueryResult.new, QueryResult.SetError]
  · intro q hpf hrb hSR hq hproc hcode hF
    have hbad : errorCode q ≠ some "badtoken" := by rw [hcode]; simp
    have hev := evaluateRevertQueryResults_eq env s q hSR (by rw [hst]; decide) hq hproc hbad
    simp [OnTick, OnTick_finish, IsProcessed, hst, hpf, hrb, hev, hcode, hF, emit, failedOutcome,
      rollbackFailureText]
    split_ifs <;> simp_all
  · intro qh hpf hrb hSR hedit hretr hhist hproc hF
    have hev : evaluateRevertQueryResults env s = (true, displayError s
        ("Failed to retrieve a list of edits made to this page: " ++ qh.FailureReason) "") := by
      simp [evaluateRevertQueryResults, hSR, evaluateRevert, hedit, hretr, hhist,
        evaluateRevert_history, hproc, hF]
    simp [OnTick, OnTick_finish, IsProcessed, hst, hpf, hrb, hev, displayError_eq, emit,
      failedOutcome]
  · intro qr hpf hrb hSR hedit hretr hproc hF
    have hev : evaluateRevertQueryResults env s = (true, displayError s
        "Unable to rollback the edit because previous content couldn't be retrieved" "") := by
      simp [evaluateRevertQueryResults, hSR, evaluateRevert, hedit, hretr,
        evaluateRevert_retrieve, hproc, hF]
    simp [OnTick, OnTick_finish, IsProcessed, hst, hpf, hrb, hev, displayError_eq, emit,
      failedOutcome]
  · intro eq hpf hrb hSR hedit hproc hF
    have hev : evaluateRevertQueryResults env s = evaluateRevert env s := by
      simp [evaluateRevertQueryResults, hSR]
    rw [evaluateRevert_edit_eq env s eq hedit hproc] at hev
    simp [OnTick, OnTick_finish, IsProcessed, hst, hpf, hrb, hev, hF, emit, failedOutcome]

/-- C20, concrete input: the history query fails with the reason "timeout".
The workflow ends with its result marked as error, but the result's text is
empty; the reason appears only in the error log. -/
theorem C20_reason_not_carried_counterexample :
    (OnTick demoEnv (historyFailed "timeout")).status = .StatusDone ∧
    (OnTick demoEnv (historyFailed "timeout")).Result = some ⟨"", "", true⟩ ∧
    (OnTick demoEnv (historyFailed "timeout")).Result.map (fun r => r.ErrorMessage)
      ≠ some "timeout" ∧
    (OnTick demoEnv (historyFailed "timeout")).trace =
      [Effect.ErrorLog "Failed to retrieve a list of edits made to this page: timeout",
       Effect.QueryKill .qHistoryInfo, Effect.UnregisterConsumerTmr, Effect.processFailure,
       Effect.UnregisterConsumerTmr] := by
  decide

/-- C20, the theorem applied to a failed edit-submit query and to a failed
history query. -/
theorem C20_remote_failure_witness :
    ((OnTick demoEnv (editReported true "protected page")).status = .StatusInError ∧
      (OnTick demoEnv (editReported true "protected page")).Result
        = some ⟨"", "protected page", true⟩) ∧
    failedOutcome .StatusDone (OnTick demoEnv (historyFailed "timeout")) ∧
    queryCalls (OnTick demoEnv (historyFailed "timeout")).trace = 0 :=
  have h1 := (C20_remote_failure demoEnv (editReported true "protected page") rfl).2.2.2.2
    ⟨"P", "old text", "Reverted edits by A to B (HG)", false, true, true, "protected page"⟩
    rfl rfl rfl rfl rfl rfl
  have h2 := (C20_remote_failure demoEnv (historyFailed "timeout") rfl).2.2.1
    { ApiQuery.new .ActionQuery with Processed := true, Failed := true, FailureReason := "timeout" }
    rfl rfl rfl rfl rfl rfl rfl rfl
  ⟨⟨h1.1.1, h1.2.1⟩, h2.1, h2.2.2.1⟩

/-! ## Preflight without and with a conflict -/

/-- Without a revision newer than the reverted edit the scan of the server
history leaves its flags at their initial values. -/
theorem evaluatePreflightCheck_scan_no_newer (env : Env) (edit : WikiEdit)
    (revs : List ApiQueryResultNode)
    (hle : ∀ n ∈ revs, env.toInt (n.GetAttribute "revid") ≤ edit.RevID) :
    evaluatePreflightCheck_scan env edit revs = (false, true, true) := by
  have hnew : revs.any (isNewer env edit) = false := by
    rw [List.any_eq_false]
    intro n hn
    have := hle n hn
    simp [isNewer]
    intro _ _
    omega
  have hnwu : revs.any (isNewerWithUser env edit) = false := by
    rw [List.any_eq_false] at hnew ⊢
    intro n hn
    have := hnew n hn
    simp only [isNewerWithUser, Bool.and_eq_true, not_and, Bool.not_eq_true] 
    intro h
    exact absurd h this
  unfold evaluatePreflightCheck_scan
  rw [preflightScan_eq, hnew, hnwu, all_same_of_no_newer env edit revs hnwu]
  simp

/-- With a revision newer than the reverted edit the scan of the server
history clears `passed`. -/
theorem evaluatePreflightCheck_scan_newer (env : Env) (edit : WikiEdit)
    (revs : List ApiQueryResultNode) (hnew : ∃ n ∈ revs, isNewer env edit n = true) :
    (evaluatePreflightCheck_scan env edit revs).2.2 = false := by
  obtain ⟨n, hn, h⟩ := hnew
  have : revs.any (isNewer env edit) = true := List.any_eq_true.mpr ⟨n, hn, h⟩
  unfold evaluatePreflightCheck_scan
  rw [preflightScan_eq, this]
  simp

/-- C11: a request with no concurrent edits passes preflight without prompt.
When the registry holds no qualifying later edit, `preflightCheck` invokes no
hook, sends no failure notification, does not cancel (status and
`IgnorePreflightCheck` unchanged) and issues the preflight query. When the
completed preflight query reports no revision id greater than the reverted
edit's, `evaluatePreflightCheck` invokes no hook, sends no failure
notification, keeps the status and marks preflight as finished; a tick of a
processing workflow that has not yet committed then runs `executeRollback`. -/
theorem C11_no_conflict_no_prompt (env : Env) (s : RevertQuery) :
    ((∀ w ∈ env.EditList, qualifiesNewer env s.editToBeReverted w = false) →
      hookCalls (preflightCheck env s).trace = hookCalls s.trace ∧
      failureCalls (preflightCheck env s).trace = failureCalls s.trace ∧
      (preflightCheck env s).status = s.status ∧
      (preflightCheck env s).IgnorePreflightCheck = s.IgnorePreflightCheck ∧
      (preflightCheck env s).qPreflight ≠ none ∧
      queryCalls (preflightCheck env s).trace = queryCalls s.trace + 1) ∧
    (∀ q, s.qPreflight = some q → q.Processed = true → q.Failed = false →
      (∀ n ∈ GetNodes q.Nodes "rev",
        env.toInt (n.GetAttribute "revid") ≤ s.editToBeReverted.RevID) →
      evaluatePreflightCheck env s = { s with preflightFinished := true } ∧
      hookCalls (evaluatePreflightCheck env s).trace = hookCalls s.trace ∧
      failureCalls (evaluatePreflightCheck env s).trace = failureCalls s.trace ∧
      (evaluatePreflightCheck env s).status = s.status ∧
      (evaluatePreflightCheck env s).preflightFinished = true ∧
      (s.status = .StatusProcessing → s.rollingBack = false →
        ∀ env2, OnTick env2 (evaluatePreflightCheck env s)
          = executeRollback env2 (evaluatePreflightCheck env s))) := by
  constructor
  · intro hreg
    have hdet : preflightCheck_detect env s = (false, true) := by
      unfold preflightCheck_detect
      split_ifs
      · rw [registryScan_eq]
        have h1 : env.EditList.any (qualifiesNewer env s.editToBeReverted) = false := by
          rw [List.any_eq_false]
          intro w hw
          rw [hreg w hw]
          simp
        have h2 : env.EditList.all (fun w => !qualifiesNewer env s.editToBeReverted w ||
            env.UserEqualTo w.User s.editToBeReverted.User) = true := by
          rw [List.all_eq_true]
          intro w hw
          rw [hreg w hw]
          simp
        rw [h1, h2]
        rfl
      · rfl
    have hpc : preflightCheck env s = preflightCheck_query env s := by
      unfold preflightCheck
      rw [hdet]
      simp
    rw [hpc]
    obtain ⟨q1, q2, q3, q4, q5, q6, -⟩ := preflightCheck_query_outcome env s
    exact ⟨q3, q4, q6, q5, q1, q2⟩
  · intro q hq hproc hok hle
    have hev : evaluatePreflightCheck env s = { s with preflightFinished := true } := by
      unfold evaluatePreflightCheck
      by_cases hflag : (s.oneEditOnly || s.IgnorePreflightCheck) = true
      · rw [if_pos hflag]
      · rw [if_neg hflag]
        simp [hq, hproc, hok, evaluatePreflightCheck_scan_no_newer env s.editToBeReverted _ hle]
    rw [hev]
    refine ⟨rfl, rfl, rfl, rfl, rfl, ?_⟩
    intro hst hrb env2
    simp [OnTick, hst, hrb]

/-- C12 (as the code has it), auto-resolve off. When the registry-based pass
detects a conflict, `preflightCheck` invokes the hook exactly once; a positive
answer sets `IgnorePreflightCheck` and a negative answer cancels. With
`IgnorePreflightCheck` set, `evaluatePreflightCheck` finishes preflight
without looking at the server history and without invoking the hook. With
neither last-edit-only nor `IgnorePreflightCheck` set, when the completed
preflight query reports a revision newer than the reverted edit,
`evaluatePreflightCheck` invokes the hook exactly once. -/
theorem C12_prompt_once_per_reached_pass (env : Env) (s : RevertQuery)
    (hauto : env.AutomaticallyResolveConflicts = false) :
    ((preflightCheck_detect env s).1 = true →
      hookCalls (preflightCheck env s).trace = hookCalls s.trace + 1 ∧
      (env.ShowYesNoQuestion (env.l "revert-preflightcheck" [])
          (if (preflightCheck_detect env s).2 = true
            then env.l "cr-message-new" [s.editToBeReverted.Page.PageName]
            else env.l "cr-message-not-same" [s.editToBeReverted.Page.PageName]) false = true →
        (preflightCheck env s).IgnorePreflightCheck = true) ∧
      (env.ShowYesNoQuestion (env.l "revert-preflightcheck" [])
          (if (preflightCheck_detect env s).2 = true
            then env.l "cr-message-new" [s.editToBeReverted.Page.PageName]
            else env.l "cr-message-not-same" [s.editToBeReverted.Page.PageName]) false = false →
        (preflightCheck env s).status = .StatusDone ∧
        (preflightCheck env s).qPreflight = none)) ∧
    (s.IgnorePreflightCheck = true →
      evaluatePreflightCheck env s = { s with preflightFinished := true } ∧
      hookCalls (evaluatePreflightCheck env s).trace = hookCalls s.trace) ∧
    (∀ q, s.oneEditOnly = false → s.IgnorePreflightCheck = false → s.qPreflight = some q →
      q.Processed = true → q.Failed = false →
      (∃ n ∈ GetNodes q.Nodes "rev", isNewer env s.editToBeReverted n = true) →
      hookCalls (evaluatePreflightCheck env s).trace = hookCalls s.trace + 1) := by
  refine ⟨?_, ?_, ?_⟩
  · intro hdet
    unfold preflightCheck
    cases hd : preflightCheck_detect env s with
    | mk failed same =>
      rw [hd] at hdet
      simp only at hdet
      subst hdet
      simp only [if_true, hauto, Bool.false_eq_true, if_false]
      refine ⟨?_, ?_, ?_⟩
      · split_ifs <;> simp [cancelRevert_eq, preflightCheck_query, emit]
      · intro hyes
        simp [hyes, preflightCheck_query, emit]
      · intro hno
        simp [hno, cancelRevert_eq]
  · intro hign
    have : evaluatePreflightCheck env s = { s with preflightFinished := true } := by
      unfold evaluatePreflightCheck
      rw [if_pos (by simp [hign])]
    rw [this]
    exact ⟨rfl, rfl⟩
  · intro q hone hign hq hproc hok hnew
    have hpassed := evaluatePreflightCheck_scan_newer env s.editToBeReverted _ hnew
    unfold evaluatePreflightCheck
    simp only [hone, hign, hq, hproc, hok, Bool.or_self, Bool.false_eq_true, if_false,
      Bool.not_true]
    cases hscan : evaluatePreflightCheck_scan env s.editToBeReverted (GetNodes q.Nodes "rev") with
    | mk m r =>
      cases r with
      | mk p ps =>
        rw [hscan] at hpassed
        simp only at hpassed
        subst hpassed
        simp only [hauto, Bool.false_eq_true, if_false]
        split_ifs <;> simp_all [emit, freeResources_eq]

/-- C12, concrete run on which the claim as stated fails: the registry holds a
later edit by another author, auto-resolve is off and the user confirms in the
registry-based pass. The preflight query then reports the newer revision 6 by
B, and the tick that runs the authoritative pass finishes preflight without a
second prompt: the hook was invoked once in all. -/
theorem C12_confirmation_suppresses_counterexample :
    hookCalls confirmedInRegistryPass.trace = 1 ∧
    confirmedInRegistryPass.IgnorePreflightCheck = true ∧
    afterAuthoritativePass.preflightFinished = true ∧
    hookCalls afterAuthoritativePass.trace = 1 ∧
    hookCalls afterAuthoritativePass.trace ≠ 2 := by
  decide

/-- C12, the theorem applied to the registry with a later edit by another
author (the user answers no) and to a server history with a newer revision by
another author. -/
theorem C12_prompt_once_per_reached_pass_witness :
    hookCalls (preflightCheck conflictEnv started).trace = 1 ∧
    hookCalls (evaluatePreflightCheck demoEnv
      (preflightDone demoEdit [revNode "6" "B", revNode "5" "A"])).trace = 1 :=
  have h1 := (C12_prompt_once_per_reached_pass conflictEnv started rfl).1 (by decide)
  have h2 := (C12_prompt_once_per_reached_pass demoEnv
    (preflightDone demoEdit [revNode "6" "B", revNode "5" "A"]) rfl).2.2
    { ApiQuery.new .ActionQuery with
      Processed := true, Nodes := [revNode "6" "B", revNode "5" "A"] }
    rfl rfl rfl rfl rfl ⟨revNode "6" "B", by decide, by decide⟩
  ⟨h1.1, h2⟩

/-! ## Cancellation -/

/-- After `Kill`, with neither last-edit-only nor `IgnorePreflightCheck` set,
ticks change nothing. -/
theorem ticks_after_Kill (envs : List Env) (s : RevertQuery)
    (hone : s.oneEditOnly = false) (hign : s.IgnorePreflightCheck = false) :
    ticks envs (Kill s) = Kill s := by
  induction envs with
  | nil => rfl
  | cons env rest ih =>
    have hstep : OnTick env (Kill s) = Kill s := by
      simp [OnTick, evaluatePreflightCheck, Kill_eq, hone, hign]
    show ticks rest (OnTick env (Kill s)) = Kill s
    rw [hstep, ih]

/-- C13 (as the code has it): after `Kill()`, from every state, the status is
Killed, every owned query slot is empty, the timer is stopped (the tick driver
no longer ticks the workflow), no query or edit was issued by `Kill`, and
`IsProcessed` reports true without changing anything. When neither
last-edit-only nor `IgnorePreflightCheck` is set, any number of later
`OnTick` calls leave the killed workflow exactly as it is. -/
theorem C13_kill_is_terminal (env : Env) (s : RevertQuery) :
    (Kill s).status = .StatusKilled ∧
    (Kill s).qPreflight = none ∧ (Kill s).qRevert = none ∧ (Kill s).qHistoryInfo = none ∧
    (Kill s).qRetrieve = none ∧ (Kill s).eqSoftwareRollback = none ∧
    (Kill s).timer = false ∧
    queryCalls (Kill s).trace = queryCalls s.trace ∧
    editCalls (Kill s).trace = editCalls s.trace ∧
    IsProcessed env (Kill s) = (true, Kill s) ∧
    (s.oneEditOnly = false → s.IgnorePreflightCheck = false →
      ∀ envs, ticks envs (Kill s) = Kill s) := by
  refine ⟨by simp [Kill_eq], by simp [Kill_eq], by simp [Kill_eq], by simp [Kill_eq],
    by simp [Kill_eq], by simp [Kill_eq], by simp [Kill_eq], by simp [Kill_eq],
    by simp [Kill_eq], by simp [IsProcessed, Kill_eq], ?_⟩
  intro hone hign envs
  exact ticks_after_Kill envs s hone hign

/-- C13, concrete run on which the claim as stated fails: a last-edit-only
workflow is started and killed. A first `OnTick` after `Kill` marks preflight
as finished, a second one commits to a strategy: it raises the badness score
and issues the history query. -/
theorem C13_tick_after_kill_counterexample :
    killedLastEdit.status = .StatusKilled ∧
    killedLastEdit.preflightFinished = false ∧
    (OnTick demoEnv killedLastEdit).preflightFinished = true ∧
    OnTick demoEnv killedLastEdit ≠ killedLastEdit ∧
    queryCalls (ticks [demoEnv, demoEnv] killedLastEdit).trace
      = queryCalls killedLastEdit.trace + 1 ∧
    (ticks [demoEnv, demoEnv] killedLastEdit).qHistoryInfo ≠ none := by
  decide

/-! ## The control part of a workflow under each method -/

@[simp] theorem control_emit (e : Effect) (s : RevertQuery) : control (emit e s) = control s := rfl

theorem control_Kill (s : RevertQuery) : control (Kill s) = (control s).killed := by
  rw [Kill_eq]; rfl

theorem control_displayError (s : RevertQuery) (error reason : String) :
    control (displayError s error reason) = (control s).killed := by
  rw [displayError_eq]; rfl

theorem control_cancelRevert (s : RevertQuery) :
    control (cancelRevert s) = { (control s).freed with preflightFinished := true } := by
  rw [cancelRevert_eq]; rfl

theorem control_freeResources (s : RevertQuery) :
    control (freeResources s) = (control s).freed := by
  rw [freeResources_eq]; rfl

/-- The conflict re-check leaves the control part as it is. -/
theorem control_conflictScan (env : Env) (revs : List ApiQueryResultNode) (passed resv : Bool)
    (s : RevertQuery) :
    control (revs.foldl (conflictStep env) (passed, resv, s)).2.2 = control s := by
  rw [(conflictScan_frame env revs passed resv s).1]
  rfl

/-- The target search leaves the control part as it is, or, when it returns
from the function, leaves that of `Kill`. -/
theorem control_findTarget (env : Env) (revs : List ApiQueryResultNode) :
    ∀ s : RevertQuery,
      ((findTarget env revs s).1 = false ∧ control (findTarget env revs s).2 = control s) ∨
      ((findTarget env revs s).1 = true ∧
        control (findTarget env revs s).2 = (control s).killed) := by
  induction revs with
  | nil => intro s; exact Or.inl ⟨rfl, rfl⟩
  | cons a rest ih =>
    intro s
    rw [findTarget]
    by_cases hbad : (!a.contains "revid" || !a.contains "user") = true
    · rw [if_pos hbad]
      right
      dsimp only
      split <;> exact ⟨rfl, by rw [control_emit, control_displayError]⟩
    · rw [if_neg hbad]
      dsimp only
      split_ifs
      · exact Or.inl ⟨rfl, rfl⟩
      · exact Or.inl ⟨rfl, rfl⟩
      · exact ih { s with SR_Depth := s.SR_Depth + 1 }

/-- The history stage leaves the control part as it is, or leaves that of
`Kill`, or (only once the history query has completed) puts a fresh content
query into the slot `qRetrieve`. -/
theorem control_evaluateRevert_history (env : Env) (qh : ApiQuery) (s : RevertQuery) :
    control (evaluateRevert_history env qh s).2 = control s ∨
    control (evaluateRevert_history env qh s).2 = (control s).killed ∨
    (qh.Processed = true ∧ ∃ q : ApiQuery, q.Processed = false ∧
      control (evaluateRevert_history env qh s).2 = { control s with qRetrieve := some q }) := by
  unfold evaluateRevert_history
  by_cases hproc : qh.Processed = true
  · rw [if_neg (by simp [hproc])]
    by_cases hF : qh.Failed = true
    · rw [if_pos hF]
      right; left
      dsimp only
      rw [control_displayError]
    · rw [if_neg hF]
      dsimp only
      by_cases hlen : (GetNodes qh.Nodes "rev").length = 0
      · rw [if_pos hlen]
        right; left
        dsimp only
        rw [control_displayError]
      · rw [if_neg hlen]
        have hc := control_conflictScan env (GetNodes qh.Nodes "rev") true false
          { s with SR_Depth := 0 }
        cases hscan : (GetNodes qh.Nodes "rev").foldl (conflictStep env) (true, false,
          { s with SR_Depth := 0 }) with
        | mk passed r =>
          cases r with
          | mk resv s1 =>
            rw [hscan] at hc
            have hc1 : control s1 = control s := hc
            dsimp only
            cases passed with
            | false =>
              rw [if_pos (by simp)]
              right; left
              rw [control_displayError, hc1]
            | true =>
              rw [if_neg (by simp)]
              rcases control_findTarget env (GetNodes qh.Nodes "rev") s1 with ⟨w1, w2⟩ | ⟨w1, w2⟩
              · cases hw : findTarget env (GetNodes qh.Nodes "rev") s1 with
                | mk ret s2 =>
                  rw [hw] at w1 w2
                  dsimp only at w1 w2 ⊢
                  subst w1
                  rw [if_neg (by simp)]
                  by_cases hd : s2.SR_Depth = 0
                  · rw [if_pos hd]
                    right; left
                    dsimp only
                    rw [control_emit, control_displayError, w2, hc1]
                  · rw [if_neg hd]
                    by_cases hu : s2.SR_RevID = env.WIKI_UNKNOWN_REVID
                    · rw [if_pos hu]
                      right; left
                      dsimp only
                      rw [control_displayError, w2, hc1]
                    · rw [if_neg hu]
                      right; right
                      refine ⟨hproc, retrieveQuery env s2.SR_RevID, rfl, ?_⟩
                      dsimp only
                      rw [control_emit]
                      show ({ control s2 with
                        qRetrieve := some (retrieveQuery env s2.SR_RevID) } : Control) = _
                      rw [w2, hc1]
              · cases hw : findTarget env (GetNodes qh.Nodes "rev") s1 with
                | mk ret s2 =>
                  rw [hw] at w1 w2
                  dsimp only at w1 w2 ⊢
                  subst w1
                  rw [if_pos rfl]
                  right; left
                  dsimp only
                  rw [w2, hc1]
  · rw [if_pos (by simp [hproc])]
    exact Or.inl rfl

/-- The content-fetch stage leaves the control part as it is, or leaves that
of `Kill`, or submits the edit. -/
theorem control_evaluateRevert_retrieve (env : Env) (qr : ApiQuery) (s : RevertQuery)
    (hedit : s.eqSoftwareRollback = none) (hretr : s.qRetrieve = some qr) :
    evaluates (control s) (control (evaluateRevert_retrieve env qr s).2) := by
  by_cases hproc : qr.Processed = true
  · rcases evaluateRevert_retrieve_cases env s qr hproc with
      ⟨-, info, summary, -, heq⟩ | ⟨-, error, reason, heq⟩
    · rw [heq]
      right; right; right; left
      exact ⟨hedit, ⟨qr, hretr, hproc⟩, _, rfl, rfl⟩
    · rw [heq]
      right; left
      dsimp only
      rw [control_displayError]
  · left
    unfold evaluateRevert_retrieve
    rw [if_pos (by simp [hproc])]

/-- Control steps of `evaluateRevert`. -/
theorem control_evaluateRevert (env : Env) (s : RevertQuery) :
    evaluates (control s) (control (evaluateRevert env s).2) := by
  cases hedit : s.eqSoftwareRollback with
  | some eq =>
    by_cases hproc : eq.Processed = true
    · rw [evaluateRevert_edit_eq env s eq hedit hproc]
      by_cases hF : eq.Failed = true
      · rw [if_pos hF]
        exact Or.inr (Or.inl rfl)
      · rw [if_neg hF]
        exact Or.inl rfl
    · left
      unfold evaluateRevert
      simp only [hedit]
      rw [if_pos (by simp [hproc])]
  | none =>
    cases hretr : s.qRetrieve with
    | some qr =>
      have : evaluateRevert env s = evaluateRevert_retrieve env qr s := by
        unfold evaluateRevert
        simp only [hedit, hretr]
      rw [this]
      exact control_evaluateRevert_retrieve env qr s hedit hretr
    | none =>
      cases hhist : s.qHistoryInfo with
      | none =>
        left
        unfold evaluateRevert
        simp only [hedit, hretr, hhist]
      | some qh =>
        rw [evaluateRevert_eq_history env s qh hedit hretr hhist]
        rcases control_evaluateRevert_history env qh s with h | h | ⟨hproc, q, hq, h⟩
        · exact Or.inl h
        · exact Or.inr (Or.inl h)
        · right; right; right; right
          exact ⟨hedit, hretr, ⟨qh, hhist, hproc⟩, q, hq, h⟩

/-- Closed form of `evaluateRevertQueryResults` for a completed rollback whose
result carries `badtoken`. -/
theorem evaluateRevertQueryResults_badtoken (env : Env) (s : RevertQuery) (q : ApiQuery)
    (hSR : s.usingSR = false) (hst : s.status ≠ .StatusIsSuspended)
    (hq : s.qRevert = some q) (hproc : q.Processed = true)
    (hbad : errorCode q = some "badtoken") :
    evaluateRevertQueryResults env s = (false, { s with
      status := .StatusIsSuspended, IsLoggedIn := false, trace := s.trace ++ [Effect.Logout],
      CustomStatus := "ERROR: Cannot rollback, token " ++ env.Token_Rollback ++
        " is not valid for some reason (mediawiki bug), trying once more" }) := by
  unfold errorCode at hbad
  cases hnode : GetNode q.Nodes "error" with
  | none => rw [hnode] at hbad; simp at hbad
  | some ms =>
    rw [hnode] at hbad
    cases hcode : ms.contains "code"
    · simp [hcode] at hbad
    · simp only [hcode, if_true, Option.some.injEq] at hbad
      simp [evaluateRevertQueryResults, getCustomRevertStatus, hSR, hst, hq, hproc, hnode, hcode,
        hbad, Suspend, Logout, emit]

/-- Control steps of `evaluateRevertQueryResults`. -/
theorem control_evaluateRevertQueryResults (env : Env) (s : RevertQuery) :
    evaluates (control s) (control (evaluateRevertQueryResults env s).2) := by
  cases hSR : s.usingSR
  · by_cases hst : s.status = .StatusIsSuspended
    · left
      unfold evaluateRevertQueryResults
      simp only [hSR, Bool.false_eq_true, if_false, hst, if_true]
    · cases hq : s.qRevert with
      | none =>
        left
        unfold evaluateRevertQueryResults
        simp only [hSR, Bool.false_eq_true, if_false, hst, hq]
      | some q =>
        by_cases hproc : q.Processed = true
        · by_cases hbad : errorCode q = some "badtoken"
          · rw [evaluateRevertQueryResults_badtoken env s q hSR hst hq hproc hbad]
            exact Or.inl rfl
          · rw [evaluateRevertQueryResults_eq env s q hSR hst hq hproc hbad]
            right; right; left
            dsimp only
            split_ifs <;> rfl
        · left
          unfold evaluateRevertQueryResults
          simp only [hSR, Bool.false_eq_true, if_false, hst, hq]
          rw [if_pos (by simp [hproc])]
  · have : evaluateRevertQueryResults env s = evaluateRevert env s := by
      unfold evaluateRevertQueryResults
      simp only [hSR, if_true]
    rw [this]
    exact control_evaluateRevert env s

/-- Control steps of the end of `OnTick`. -/
theorem control_OnTick_finish (env : Env) (s : RevertQuery) :
    evaluates (control s) (control (OnTick_finish env s)) := by
  have hfin : ∀ (b : Bool) (x : RevertQuery),
      control (if b = true then emit Effect.UnregisterConsumerTmr
        (if x.timer = true then { x with timer := false } else x) else x) = control x := by
    intro b x
    cases b <;> cases hx : x.timer <;> simp [control, emit]
  unfold OnTick_finish IsProcessed
  by_cases h1 : s.status = .StatusIsSuspended
  · rw [if_pos h1]
    left
    exact hfin false s
  · rw [if_neg h1]
    by_cases h2 : s.status = .StatusDone ∨ s.status = .StatusInError ∨ s.status = .StatusKilled
    · rw [if_pos h2]
      left
      exact hfin true s
    · rw [if_neg h2]
      by_cases h3 : (!s.preflightFinished) = true
      · rw [if_pos h3]
        left
        exact hfin false s
      · rw [if_neg h3]
        have := control_evaluateRevertQueryResults env s
        cases hev : evaluateRevertQueryResults env s with
        | mk b x =>
          rw [hev] at this
          dsimp only at this ⊢
          rw [hfin b x]
          exact this

/-- Control steps of `evaluatePreflightCheck`. -/
theorem control_evaluatePreflightCheck (env : Env) (s : RevertQuery) :
    finishesPreflight (control s) (control (evaluatePreflightCheck env s)) := by
  unfold evaluatePreflightCheck
  by_cases hflag : (s.oneEditOnly || s.IgnorePreflightCheck) = true
  · rw [if_pos hflag]
    right; right; right
    refine ⟨?_, rfl⟩
    rcases Bool.or_eq_true _ _ |>.mp hflag with h | h
    · exact Or.inl h
    · exact Or.inr (Or.inl h)
  · rw [if_neg hflag]
    cases hq : s.qPreflight with
    | none => exact Or.inl rfl
    | some q =>
      dsimp only
      by_cases hproc : q.Processed = true
      · rw [if_neg (by simp [hproc])]
        by_cases hF : q.Failed = true
        · rw [if_pos hF]
          right; left
          simp only [control_emit]
          show control (Kill _) = _
          rw [control_Kill, control_emit]
        · rw [if_neg hF]
          have hdone : (∃ q, (control s).qPreflight = some q ∧ q.Processed = true) :=
            ⟨q, hq, hproc⟩
          have hfree : ∀ x : RevertQuery, control (cancelRevert x) =
              { (control x).freed with preflightFinished := true } := control_cancelRevert
          generalize evaluatePreflightCheck_scan env s.editToBeReverted (GetNodes q.Nodes "rev") = r
          obtain ⟨m, p, ps⟩ := r
          dsimp only
          generalize (if (m && env.ConfirmMultipleEdits) = true then false else ps) = passed
          cases passed
          rotate_left
          · rw [if_neg (by simp)]
            exact Or.inr (Or.inr (Or.inr ⟨Or.inr (Or.inr hdone), by simp [control, hq]⟩))
          · generalize hr : (ite (env.AutomaticallyResolveConflicts = true) _ (false, s)) = r
            have hprop : (r.1 = true ∧ control r.2 = { (control s).freed with preflightFinished := true }) ∨
                (r.1 = false ∧ control r.2 = control s) := by
              rw [← hr]
              split_ifs
              · exact Or.inl ⟨rfl, by dsimp only; rw [hfree]; rfl⟩
              · exact Or.inr ⟨rfl, rfl⟩
              · exact Or.inr ⟨rfl, rfl⟩
              · exact Or.inl ⟨rfl, by dsimp only; rw [hfree]; rfl⟩
              · exact Or.inr ⟨rfl, rfl⟩
            clear hr
            obtain ⟨b, x⟩ := r
            dsimp only at hprop
            rcases hprop with ⟨hb, hx⟩ | ⟨hb, hx⟩
            · subst hb
              rw [if_pos (by rfl), if_pos rfl]
              exact Or.inr (Or.inr (Or.inl hx))
            · subst hb
              rw [if_pos (by rfl), if_neg (by simp)]
              split_ifs <;>
                first
                | exact Or.inr (Or.inr (Or.inr ⟨Or.inr (Or.inr hdone), by rw [← hx]; rfl⟩))
                | (refine Or.inr (Or.inr (Or.inl ?_))
                   rw [← hx, control_emit, freeResources_eq]
                   rfl)
      · rw [if_pos (by simp [hproc])]
        exact Or.inl rfl

/-- Control steps of the first call of `executeRollback`. -/
theorem control_executeRollback (env : Env) (s : RevertQuery) (hrb : s.rollingBack = false) :
    commits (control s) (control (executeRollback env s)) := by
  rw [executeRollback_eq env s hrb]
  by_cases hSR : s.usingSR = true
  · rw [if_pos hSR]
    left
    refine ⟨historyQuery env s.editToBeReverted.Page.PageName, rfl, ?_⟩
    simp [control, committed, hSR]
  · rw [if_neg hSR]
    by_cases hR : env.Rights.contains "rollback" = false
    · rw [if_pos hR]
      left
      exact ⟨historyQuery env s.editToBeReverted.Page.PageName, rfl, rfl⟩
    · rw [if_neg hR]
      by_cases hT : env.Token_Rollback = ""
      · rw [if_pos hT]
        right; left
        rfl
      · rw [if_neg hT]
        right; right
        exact ⟨rollbackQuery env (committed env s), rfl, rfl⟩

/-- Control steps of `preflightCheck`. -/
theorem control_preflightCheck (env : Env) (s : RevertQuery) :
    startsPreflight (control s) (control (preflightCheck env s)) := by
  have hq : ∀ (b : Bool), (b = true ∨ b = s.IgnorePreflightCheck) → ∀ x : RevertQuery,
      control x = { control s with IgnorePreflightCheck := b } →
      startsPreflight (control s) (control (preflightCheck_query env x)) := by
    intro b hb x hx
    right
    refine ⟨b, preflightQuery env x.editToBeReverted.Page.PageName, rfl, hb, ?_⟩
    unfold preflightCheck_query
    dsimp only
    rw [control_emit]
    show ({ control x with
      qPreflight := some (preflightQuery env x.editToBeReverted.Page.PageName) } : Control) = _
    rw [hx]
  have hc : ∀ x : RevertQuery, control x = control s →
      startsPreflight (control s) (control (cancelRevert x)) := by
    intro x hx
    left
    rw [control_cancelRevert, hx]
  unfold preflightCheck
  generalize preflightCheck_detect env s = r
  obtain ⟨f, m⟩ := r
  dsimp only
  split_ifs <;>
    first
    | exact hq true (Or.inl rfl) _ rfl
    | exact hc _ rfl
    | exact hq s.IgnorePreflightCheck (Or.inr rfl) _ rfl

/-- Control steps of `Process`. -/
theorem control_Process (env : Env) (s : RevertQuery) :
    control (Process env s) = control s ∨
    startsPreflight (control s) (control (Process env s)) := by
  unfold Process
  split_ifs
  · exact Or.inl rfl
  · exact Or.inl rfl
  · right
    exact control_preflightCheck env _

/-- Control steps of `Restart`: the teardown of `Kill`, possibly followed by
the start of preflight. -/
theorem control_Restart (env : Env) (s : RevertQuery) :
    control (Restart env s) = (control s).killed ∨
    startsPreflight (control s).killed (control (Restart env s)) := by
  unfold Restart Query_Restart
  have h : control { Kill s with status := QueryStatus.StatusNull } = (control s).killed :=
    control_Kill s
  rcases control_Process env { Kill s with status := QueryStatus.StatusNull } with h1 | h1
  · left
    rw [h1, h]
  · right
    rw [h] at h1
    exact h1

/-- Control steps of `OnTick`. -/
theorem control_OnTick (env : Env) (s : RevertQuery) :
    ticksTo (control s) (control (OnTick env s)) := by
  unfold OnTick
  split_ifs with h1 h2 h3 h4
  · exact Or.inl rfl
  · right; left
    exact ⟨by simpa using h3, control_evaluatePreflightCheck env s⟩
  · right; right; left
    refine ⟨by simpa [control] using h3, by simpa [control] using h4, ?_⟩
    exact control_executeRollback env s (by simpa using h4)
  · right; right; right
    exact control_OnTick_finish env s
  · right; right; right
    exact control_OnTick_finish env s

/-! ## The reputation penalty -/

theorem evaluates_edit {c c' : Control} (h : evaluates c c') :
    c'.editToBeReverted = c.editToBeReverted := by
  rcases h with rfl | rfl | rfl | ⟨-, -, e, -, rfl⟩ | ⟨-, -, -, q, -, rfl⟩ <;> rfl

theorem finishesPreflight_edit {c c' : Control} (h : finishesPreflight c c') :
    c'.editToBeReverted = c.editToBeReverted := by
  rcases h with rfl | rfl | rfl | ⟨-, rfl⟩ <;> rfl

theorem commits_edit {c c' : Control} (h : commits c c') :
    c'.editToBeReverted = penalised c.editToBeReverted := by
  rcases h with ⟨q, -, rfl⟩ | rfl | ⟨q, -, rfl⟩ <;> rfl

theorem startsPreflight_edit {c c' : Control} (h : startsPreflight c c') :
    c'.editToBeReverted = c.editToBeReverted := by
  rcases h with rfl | ⟨b, q, -, -, rfl⟩ <;> rfl

/-- C15 (as amended): the penalty is tied to the commit to a strategy, not to
the outcome. A tick that calls `executeRollback` (workflow neither suspended
nor done, preflight finished, nothing committed yet) raises the badness score
of the author of the reverted edit by exactly 200, before any strategy query
exists; every other tick leaves the reverted edit as it is, and so do `Kill`
and `Process`. -/
theorem C15_penalty_at_commit (env : Env) (s : RevertQuery) :
    (OnTick env s).editToBeReverted.User.BadnessScore =
      s.editToBeReverted.User.BadnessScore + (if commitsNow s then 200 else 0) ∧
    (¬ commitsNow s → (OnTick env s).editToBeReverted = s.editToBeReverted) ∧
    (Kill s).editToBeReverted = s.editToBeReverted ∧
    (Process env s).editToBeReverted = s.editToBeReverted := by
  have hev : (OnTick_finish env s).editToBeReverted = s.editToBeReverted :=
    evaluates_edit (control_OnTick_finish env s)
  have hpre : (evaluatePreflightCheck env s).editToBeReverted = s.editToBeReverted :=
    finishesPreflight_edit (control_evaluatePreflightCheck env s)
  have htick : (commitsNow s → (OnTick env s).editToBeReverted = penalised s.editToBeReverted) ∧
      (¬ commitsNow s → (OnTick env s).editToBeReverted = s.editToBeReverted) := by
    unfold OnTick commitsNow
    split_ifs with h1 h2 h3 h4
    · exact ⟨fun h => absurd h1 h.1, fun _ => rfl⟩
    · refine ⟨fun h => ?_, fun _ => hpre⟩
      rw [h.2.2.1] at h3
      simp at h3
    · refine ⟨fun _ => ?_, fun h => ?_⟩
      · exact commits_edit (control_executeRollback env s (by simpa using h4))
      · exact absurd ⟨h1, h2, by simpa using h3, by simpa using h4⟩ h
    · refine ⟨fun h => ?_, fun _ => hev⟩
      rw [h.2.2.2] at h4
      simp at h4
    · refine ⟨fun h => ?_, fun _ => hev⟩
      exact absurd (not_not.mp h2) h.2.1
  refine ⟨?_, htick.2, ?_, ?_⟩
  · by_cases hc : commitsNow s
    · rw [if_pos hc, htick.1 hc]
      rfl
    · rw [if_neg hc, htick.2 hc]
      simp
  · rw [Kill_eq]
  · rcases control_Process env s with h | h
    · exact congrArg Control.editToBeReverted h
    · exact startsPreflight_edit h

theorem C15_penalty_at_commit_witness :
    commitsNow preflightPassed ∧
    (OnTick demoEnv preflightPassed).editToBeReverted.User.BadnessScore =
      preflightPassed.editToBeReverted.User.BadnessScore +
        (if commitsNow preflightPassed then 200 else 0) :=
  ⟨by decide, (C15_penalty_at_commit demoEnv preflightPassed).1⟩

/-- C15, concrete run on which the claim as stated fails: with an empty
rollback token the workflow ends as a failure without issuing any strategy
query, and the badness score of the author has been raised by 200. -/
theorem C15_penalty_on_failure_counterexample :
    emptyTokenRun.status = .StatusDone ∧
    emptyTokenRun.Result.map (fun r => r.Failed) = some true ∧
    failureCalls emptyTokenRun.trace = 1 ∧
    queryCalls emptyTokenRun.trace = 1 ∧
    rollbackCalls emptyTokenRun.trace = 0 ∧
    demoEdit.User.BadnessScore = 0 ∧
    emptyTokenRun.editToBeReverted.User.BadnessScore = 200 := by
  decide

/-! ## Sequencing of the owned queries -/

theorem sequential_evaluates {c c' : Control} (h : sequential c) (hs : evaluates c c') :
    sequential c' := by
  obtain ⟨e, o, i, u, pf, rb, qP, qR, qH, qT, eq⟩ := c
  rcases hs with rfl | rfl | rfl | ⟨he, ⟨qr, hqr, hp⟩, x, hx, rfl⟩ | ⟨he, hr, ⟨qh, hqh, hp⟩, x, hx, rfl⟩
  · exact h
  · simp [sequential, Control.killed, pending]
  · simp only [sequential] at h ⊢
    simp_all
  · simp only [sequential] at h ⊢
    simp_all [pending]
  · simp only [sequential] at h ⊢
    simp_all [pending]

theorem orderly_evaluates {c c' : Control} (h : orderly c) (hs : evaluates c c') :
    orderly c' := by
  refine ⟨sequential_evaluates h.1 hs, ?_⟩
  have h2 := h.2
  obtain ⟨e, o, i, u, pf, rb, qP, qR, qH, qT, eq⟩ := c
  rcases hs with rfl | rfl | rfl | ⟨he, ⟨qr, hqr, hp⟩, x, hx, rfl⟩ | ⟨he, hr, ⟨qh, hqh, hp⟩, x, hx, rfl⟩
  · exact h2
  · simp [preflightSettled, Control.killed]
  · exact h2
  · exact h2
  · exact h2

theorem orderly_finishesPreflight {c c' : Control} (h : orderly c)
    (hs : finishesPreflight c c') : orderly c' := by
  obtain ⟨h1, h2⟩ := h
  obtain ⟨e, o, i, u, pf, rb, qP, qR, qH, qT, eq⟩ := c
  rcases hs with rfl | rfl | rfl | ⟨hdone, rfl⟩
  · exact ⟨h1, h2⟩
  · simp [orderly, sequential, preflightSettled, Control.killed, pending]
  · simp only [orderly, sequential, preflightSettled, Control.freed] at h1 h2 ⊢
    simp_all [pending]
  · simp only [orderly, sequential, preflightSettled] at h1 h2 hdone ⊢
    refine ⟨?_, ?_⟩
    · simp_all
    · intro ho hi _
      rcases hdone with hd | hd | ⟨q, hq, hp⟩
      · simp [ho] at hd
      · simp [hi] at hd
      · simp [pending, hq, hp]

theorem orderly_commits {c c' : Control} (h : orderly c) (hpf : c.preflightFinished = true)
    (hrb : c.rollingBack = false) (hs : commits c c') : orderly c' := by
  obtain ⟨h1, h2⟩ := h
  obtain ⟨e, o, i, u, pf, rb, qP, qR, qH, qT, eq⟩ := c
  rcases hs with ⟨q, hq, rfl⟩ | rfl | ⟨q, hq, rfl⟩
  · simp only [orderly, sequential, preflightSettled] at h1 h2 hpf hrb ⊢
    simp_all [pending]
  · simp only [orderly, sequential, preflightSettled, Control.freed] at h1 h2 hpf hrb ⊢
    simp_all [pending]
  · simp only [orderly, sequential, preflightSettled] at h1 h2 hpf hrb ⊢
    simp_all [pending]

theorem orderly_ticksTo {c c' : Control} (h : orderly c) (hs : ticksTo c c') : orderly c' := by
  rcases hs with rfl | ⟨-, hs⟩ | ⟨hpf, hrb, hs⟩ | hs
  · exact h
  · exact orderly_finishesPreflight h hs
  · exact orderly_commits h hpf hrb hs
  · exact orderly_evaluates h hs

theorem orderly_killed (c : Control) : orderly c.killed := by
  simp [orderly, sequential, preflightSettled, Control.killed, pending]

theorem orderly_startsPreflight {c c' : Control} (hs : startsPreflight c.killed c') :
    orderly c' := by
  obtain ⟨e, o, i, u, pf, rb, qP, qR, qH, qT, eq⟩ := c
  rcases hs with rfl | ⟨b, q, hq, hb, rfl⟩
  · simp [orderly, sequential, preflightSettled, Control.killed, Control.freed, pending]
  · simp [orderly, sequential, preflightSettled, Control.killed, pending]

theorem killed_of_fresh (s : RevertQuery) (h : fresh s) : (control s).killed = control s := by
  obtain ⟨h1, h2, h3, h4, h5, h6, h7⟩ := h
  simp [control, Control.killed, h1, h2, h3, h4, h5, h6, h7]

theorem orderly_report {c : Control} (h : orderly c) :
    (∀ q r : ApiQuery, c.qPreflight = some q → r.Processed = true →
      orderly { c with qPreflight := some r }) ∧
    (∀ q r : ApiQuery, c.qRevert = some q → r.Processed = true →
      orderly { c with qRevert := some r }) ∧
    (∀ q r : ApiQuery, c.qHistoryInfo = some q → r.Processed = true →
      orderly { c with qHistoryInfo := some r }) ∧
    (∀ q r : ApiQuery, c.qRetrieve = some q → r.Processed = true →
      orderly { c with qRetrieve := some r }) ∧
    (∀ q r : EditQuery, c.eqSoftwareRollback = some q → r.Processed = true →
      orderly { c with eqSoftwareRollback := some r }) := by
  obtain ⟨h1, h2⟩ := h
  obtain ⟨e, o, i, u, pf, rb, qP, qR, qH, qT, eq⟩ := c
  simp only [orderly, sequential, preflightSettled] at h1 h2 ⊢
  refine ⟨?_, ?_, ?_, ?_, ?_⟩ <;> intro q r hq hr <;> simp_all [pending]

/-- Every reachable state is orderly. -/
theorem reachable_orderly (s : RevertQuery) (h : Reachable s) : orderly (control s) := by
  induction h with
  | start env s hf =>
    rcases control_Process env s with h | h
    · rw [h, ← killed_of_fresh s hf]
      exact orderly_killed _
    · rw [← killed_of_fresh s hf] at h
      exact orderly_startsPreflight h
  | tick env s _ ih => exact orderly_ticksTo ih (control_OnTick env s)
  | kill s _ _ =>
    rw [control_Kill]
    exact orderly_killed _
  | restart env s _ _ =>
    rcases control_Restart env s with h | h
    · rw [h]
      exact orderly_killed _
    · exact orderly_startsPreflight h
  | session b s _ ih => exact ih
  | preflightReport q r s _ hq hr ih => exact (orderly_report ih).1 q r hq hr
  | rollbackReport q r s _ hq hr ih => exact (orderly_report ih).2.1 q r hq hr
  | historyReport q r s _ hq hr ih => exact (orderly_report ih).2.2.1 q r hq hr
  | retrieveReport q r s _ hq hr ih => exact (orderly_report ih).2.2.2.1 q r hq hr
  | editReport q r s _ hq hr ih => exact (orderly_report ih).2.2.2.2 q r hq hr

/-- In a sequential control part at most one strategy query is outstanding,
and none is while preflight has not finished. -/
theorem sequential_bound {c : Control} (h : sequential c) :
    c.strategyOutstanding ≤ 1 ∧ (c.preflightFinished = false → c.strategyOutstanding = 0) := by
  have key : ∀ a b c d : Bool,
      (b = false ∧ c = false ∧ d = false) ∨ (a = false ∧ c = false ∧ d = false) ∨
      (a = false ∧ b = false ∧ d = false) ∨ (a = false ∧ b = false ∧ c = false) →
      (if a = true then 1 else 0) + (if b = true then 1 else 0) + (if c = true then 1 else 0) +
        (if d = true then 1 else 0) ≤ 1 := by
    intro a b c d
    cases a <;> cases b <;> cases c <;> cases d <;> simp
  obtain ⟨e, o, i, u, pf, rb, qP, qR, qH, qT, eq⟩ := c
  simp only [sequential] at h
  obtain ⟨j1, j3, j4, j5, j6⟩ := h
  simp only [Control.strategyOutstanding]
  cases rb
  · obtain ⟨rfl, rfl, rfl, rfl⟩ := j1 rfl
    simp [pending, pendingEdit]
  · have hpf : pf = true := j3 rfl
    refine ⟨?_, fun hf => ?_⟩
    · apply key
      cases qR with
      | some q =>
        obtain ⟨rfl, rfl, rfl⟩ := j4 (by simp)
        exact Or.inl ⟨rfl, rfl, rfl⟩
      | none =>
        cases eq with
        | some x =>
          obtain ⟨a, b⟩ := j6 (by simp)
          exact Or.inr (Or.inr (Or.inr ⟨rfl, b, a⟩))
        | none =>
          cases qT with
          | some y => exact Or.inr (Or.inr (Or.inl ⟨rfl, j5 (by simp), rfl⟩))
          | none => exact Or.inr (Or.inl ⟨rfl, rfl, rfl⟩)
    · rw [hpf] at hf
      cases hf

/-- C14 (as amended): in every reachable state of one workflow instance at
most one strategy query (rollback, history, content-fetch, edit-submit) is
outstanding, none is outstanding before preflight has finished, and when
neither last-edit-only nor `IgnorePreflightCheck` is set at most one owned
query, the preflight query included, is outstanding. -/
theorem C14_queries_sequential (s : RevertQuery) (h : Reachable s) :
    strategyOutstanding s ≤ 1 ∧
    (s.preflightFinished = false → strategyOutstanding s = 0) ∧
    (s.oneEditOnly = false → s.IgnorePreflightCheck = false → outstanding s ≤ 1) := by
  obtain ⟨hseq, hset⟩ := reachable_orderly s h
  obtain ⟨hb, h0⟩ := sequential_bound hseq
  refine ⟨hb, h0, fun ho hi => ?_⟩
  have hp := hset ho hi
  unfold outstanding
  cases hpf : s.preflightFinished
  · have := h0 hpf
    unfold strategyOutstanding
    rw [this]
    split_ifs <;> simp
  · have hq : pending s.qPreflight = false := hp hpf
    rw [hq]
    simpa using hb

/-- C14, concrete run on which the claim as stated fails: a last-edit-only
workflow is started and ticks twice while the preflight query has not
reported anything. The first tick marks preflight as finished, the second
issues the history query: two owned queries are outstanding. -/
theorem C14_two_outstanding_counterexample :
    Reachable lastEditTwoTicks ∧
    pending lastEditTwoTicks.qPreflight = true ∧
    pending lastEditTwoTicks.qHistoryInfo = true ∧
    outstanding lastEditTwoTicks = 2 := by
  refine ⟨?_, by decide, by decide, by decide⟩
  have h0 : Reachable (Process demoEnv (SetLast (RevertQuery.new demoEnv demoEdit true))) :=
    Reachable.start demoEnv (SetLast (RevertQuery.new demoEnv demoEdit true))
      ⟨rfl, rfl, rfl, rfl, rfl, rfl, rfl⟩
  have h1 := Reachable.tick demoEnv _ h0
  unfold lastEditTwoTicks
  simp only [ticks, List.foldl_cons, List.foldl_nil]
  exact Reachable.tick demoEnv _ h1

theorem C14_queries_sequential_witness :
    Reachable plainRun ∧ outstanding plainRun = 1 ∧
    (strategyOutstanding plainRun ≤ 1 ∧
      (plainRun.preflightFinished = false → strategyOutstanding plainRun = 0) ∧
      (plainRun.oneEditOnly = false → plainRun.IgnorePreflightCheck = false →
        outstanding plainRun ≤ 1)) ∧
    (Process demoEnv (RevertQuery.new demoEnv demoEdit true)).preflightFinished = false ∧
    strategyOutstanding (Process demoEnv (RevertQuery.new demoEnv demoEdit true)) = 0 := by
  have h0 : Reachable (Process demoEnv (RevertQuery.new demoEnv demoEdit true)) :=
    Reachable.start demoEnv (RevertQuery.new demoEnv demoEdit true)
      ⟨rfl, rfl, rfl, rfl, rfl, rfl, rfl⟩
  have h1 : Reachable { Process demoEnv (RevertQuery.new demoEnv demoEdit true) with
      qPreflight := some reportedPreflight } :=
    Reachable.preflightReport (preflightQuery demoEnv "P") reportedPreflight
      (Process demoEnv (RevertQuery.new demoEnv demoEdit true)) h0 (by decide) (by decide)
  have h2 := Reachable.tick demoEnv _ h1
  have hr : Reachable plainRun := by
    unfold plainRun
    simp only [ticks, List.foldl_cons, List.foldl_nil]
    exact Reachable.tick demoEnv _ h2
  exact ⟨hr, by decide, C14_queries_sequential plainRun hr, by decide,
    (C14_queries_sequential _ h0).2.1 (by decide)⟩

/-! ## The two classifications of a rollback result -/

/-- C26: the static `GetCustomRevertStatus` and the instance
`getCustomRevertStatus` classify every result tree alike. The `failed` flags
are equal; the texts are equal unless the code is `badtoken`; the static
function reports `suspend` exactly when the code is `badtoken`; the instance
function suspends the workflow and logs the session out exactly when the
static one reports `suspend` (and logs the session out itself), and leaves the
object untouched otherwise. -/
theorem C26_status_functions_agree (env : Env) (q : ApiQuery) (s : RevertQuery) :
    (getCustomRevertStatus env q s).2.1 = (GetCustomRevertStatus env q.Nodes).2.1 ∧
    (errorCode q ≠ some "badtoken" →
      (getCustomRevertStatus env q s).1 = (GetCustomRevertStatus env q.Nodes).1) ∧
    ((GetCustomRevertStatus env q.Nodes).2.2.1 = true ↔ errorCode q = some "badtoken") ∧
    (getCustomRevertStatus env q s).2.2 =
      (if (GetCustomRevertStatus env q.Nodes).2.2.1 = true then Logout (Suspend s) else s) ∧
    (GetCustomRevertStatus env q.Nodes).2.2.2 =
      (if (GetCustomRevertStatus env q.Nodes).2.2.1 = true then [Effect.Logout] else []) ∧
    Logout (Suspend s) ≠ s := by
  have hne : Logout (Suspend s) ≠ s := by
    intro h
    have := congrArg (fun x => x.trace.length) h
    simp [Logout, Suspend, emit] at this
  unfold getCustomRevertStatus GetCustomRevertStatus errorCode
  cases hnode : GetNode q.Nodes "error" with
  | none => simp [hne]
  | some ms =>
    cases hcode : ms.contains "code"
    · simp [hcode, hne]
    · by_cases h1 : ms.GetAttribute "code" = "alreadyrolled"
      · simp [hcode, h1, hne]
      · by_cases h2 : ms.GetAttribute "code" = "onlyauthor"
        · simp [hcode, h2, hne]
        · by_cases h3 : ms.GetAttribute "code" = "badtoken"
          · simp [hcode, h3, hne]
          · simp [hcode, h1, h2, h3, hne]

theorem C26_status_functions_agree_witness :
    errorCode (rollbackAnswer [errorNode "badtoken"]) = some "badtoken" ∧
    (GetCustomRevertStatus demoEnv [errorNode "badtoken"]).2.2.1 = true ∧
    (getCustomRevertStatus demoEnv (rollbackAnswer [errorNode "badtoken"]) started).2.2.status
      = .StatusIsSuspended ∧
    (getCustomRevertStatus demoEnv (rollbackAnswer [errorNode "onlyauthor"]) started).1
      = (GetCustomRevertStatus demoEnv [errorNode "onlyauthor"]).1 :=
  ⟨by decide,
   (C26_status_functions_agree demoEnv (rollbackAnswer [errorNode "badtoken"]) started).2.2.1.mpr
     (by decide),
   by decide,
   (C26_status_functions_agree demoEnv (rollbackAnswer [errorNode "onlyauthor"]) started).2.1
     (by decide)⟩

/-! ## Last-edit-only and the software-revert flag -/

theorem keepsStrategy_evaluates {c c' : Control} (h : evaluates c c') : keepsStrategy c c' := by
  rcases h with rfl | rfl | rfl | ⟨-, -, e, -, rfl⟩ | ⟨-, -, -, q, -, rfl⟩ <;>
    exact ⟨rfl, fun h => h⟩

theorem keepsStrategy_finishesPreflight {c c' : Control} (h : finishesPreflight c c') :
    keepsStrategy c c' := by
  rcases h with rfl | rfl | rfl | ⟨-, rfl⟩ <;> exact ⟨rfl, fun h => h⟩

theorem keepsStrategy_commits {c c' : Control} (h : commits c c') : keepsStrategy c c' := by
  rcases h with ⟨q, -, rfl⟩ | rfl | ⟨q, -, rfl⟩
  · exact ⟨rfl, fun _ => rfl⟩
  · exact ⟨rfl, fun h => h⟩
  · exact ⟨rfl, fun h => h⟩

theorem keepsStrategy_startsPreflight {c c' : Control} (h : startsPreflight c c') :
    keepsStrategy c c' := by
  rcases h with rfl | ⟨b, q, -, -, rfl⟩ <;> exact ⟨rfl, fun h => h⟩

theorem keepsStrategy_ticksTo {c c' : Control} (h : ticksTo c c') : keepsStrategy c c' := by
  rcases h with rfl | ⟨-, h⟩ | ⟨-, -, h⟩ | h
  · exact ⟨rfl, fun h => h⟩
  · exact keepsStrategy_finishesPreflight h
  · exact keepsStrategy_commits h
  · exact keepsStrategy_evaluates h

/-- Control steps of `IsProcessed`. -/
theorem control_IsProcessed (env : Env) (s : RevertQuery) :
    evaluates (control s) (control (IsProcessed env s).2) := by
  unfold IsProcessed
  split_ifs
  · exact Or.inl rfl
  · exact Or.inl rfl
  · exact Or.inl rfl
  · exact control_evaluateRevertQueryResults env s

/-- Every call of `executeRollback` keeps last-edit-only and does not clear
the software-revert flag. -/
theorem keepsStrategy_executeRollback (env : Env) (s : RevertQuery) :
    keepsStrategy (control s) (control (executeRollback env s)) := by
  cases hrb : s.rollingBack
  · exact keepsStrategy_commits (control_executeRollback env s hrb)
  · unfold executeRollback
    rw [if_pos hrb]
    exact ⟨rfl, fun h => h⟩

theorem lastImpliesSR_of_keeps {s s' : RevertQuery} (h : lastImpliesSR s)
    (hk : keepsStrategy (control s) (control s')) : lastImpliesSR s' := by
  intro ho
  have h1 : s'.oneEditOnly = s.oneEditOnly := hk.1
  exact hk.2 (h (h1 ▸ ho))

theorem keepsStrategy_Process (env : Env) (s : RevertQuery) :
    keepsStrategy (control s) (control (Process env s)) := by
  rcases control_Process env s with h | h
  · rw [h]
    exact ⟨rfl, fun h => h⟩
  · exact keepsStrategy_startsPreflight h

theorem keepsStrategy_Kill (s : RevertQuery) : keepsStrategy (control s) (control (Kill s)) := by
  rw [control_Kill]
  exact ⟨rfl, fun h => h⟩

theorem keepsStrategy_Restart (env : Env) (s : RevertQuery) :
    keepsStrategy (control s) (control (Restart env s)) := by
  rcases control_Restart env s with h | h
  · rw [h]
    exact ⟨rfl, fun h => h⟩
  · have := keepsStrategy_startsPreflight h
    exact ⟨this.1, fun hs => this.2 hs⟩

/-- C25: the workflow keeps the link between its two request flags. From a
state in which last-edit-only implies software revert, every operation
(`SetLast`, `SetUsingSR`, `Process`, `OnTick`, `IsProcessed`, `Kill`,
`Restart`, `executeRollback`, `evaluateRevert`, `evaluatePreflightCheck`,
`preflightCheck`, `evaluateRevertQueryResults`) leads to such a state;
`SetUsingSR` after `SetLast` leaves `IsUsingSR` true; no operation of the
workflow itself clears a set software-revert flag, and the capability
fallback of `executeRollback` sets it. -/
theorem C25_last_edit_implies_software_revert (env : Env) (s : RevertQuery)
    (h : lastImpliesSR s) :
    lastImpliesSR (SetLast s) ∧ (∀ b, lastImpliesSR (SetUsingSR s b)) ∧
    lastImpliesSR (Process env s) ∧ lastImpliesSR (OnTick env s) ∧
    lastImpliesSR (IsProcessed env s).2 ∧ lastImpliesSR (Kill s) ∧
    lastImpliesSR (Restart env s) ∧ lastImpliesSR (executeRollback env s) ∧
    lastImpliesSR (evaluateRevert env s).2 ∧ lastImpliesSR (evaluatePreflightCheck env s) ∧
    lastImpliesSR (preflightCheck env s) ∧ lastImpliesSR (evaluateRevertQueryResults env s).2 ∧
    (∀ b, IsUsingSR (SetUsingSR (SetLast s) b) = true) ∧
    (s.usingSR = true →
      (Process env s).usingSR = true ∧ (OnTick env s).usingSR = true ∧
      (IsProcessed env s).2.usingSR = true ∧ (Kill s).usingSR = true ∧
      (Restart env s).usingSR = true ∧ (executeRollback env s).usingSR = true) ∧
    (s.rollingBack = false → env.Rights.contains "rollback" = false →
      (executeRollback env s).usingSR = true) := by
  have kP := keepsStrategy_Process env s
  have kT := keepsStrategy_ticksTo (control_OnTick env s)
  have kI := keepsStrategy_evaluates (control_IsProcessed env s)
  have kK := keepsStrategy_Kill s
  have kR := keepsStrategy_Restart env s
  have kX := keepsStrategy_executeRollback env s
  refine ⟨fun _ => rfl, ?_, lastImpliesSR_of_keeps h kP, lastImpliesSR_of_keeps h kT,
    lastImpliesSR_of_keeps h kI, lastImpliesSR_of_keeps h kK, lastImpliesSR_of_keeps h kR,
    lastImpliesSR_of_keeps h kX,
    lastImpliesSR_of_keeps h (keepsStrategy_evaluates (control_evaluateRevert env s)),
    lastImpliesSR_of_keeps h (keepsStrategy_finishesPreflight (control_evaluatePreflightCheck env s)),
    lastImpliesSR_of_keeps h (keepsStrategy_startsPreflight (control_preflightCheck env s)),
    lastImpliesSR_of_keeps h (keepsStrategy_evaluates (control_evaluateRevertQueryResults env s)),
    ?_, fun hs => ⟨kP.2 hs, kT.2 hs, kI.2 hs, kK.2 hs, kR.2 hs, kX.2 hs⟩, ?_⟩
  · intro b
    unfold SetUsingSR lastImpliesSR
    cases ho : s.oneEditOnly
    · intro h'
      simp [ho] at h'
    · intro _
      simpa [ho] using h ho
  · intro b
    rfl
  · intro hrb hR
    rw [executeRollback_eq env s hrb]
    split_ifs with hSR <;> simp_all [committed]

theorem C25_last_edit_implies_software_revert_witness :
    lastImpliesSR (RevertQuery.new demoEnv demoEdit true) ∧
    (SetLast (RevertQuery.new demoEnv demoEdit true)).oneEditOnly = true ∧
    IsUsingSR (SetUsingSR (SetLast (RevertQuery.new demoEnv demoEdit true)) false) = true ∧
    (executeRollback noRightsEnv preflightPassed).usingSR = true :=
  have h0 : lastImpliesSR (RevertQuery.new demoEnv demoEdit true) := fun h => by cases h
  ⟨h0, rfl,
    (C25_last_edit_implies_software_revert demoEnv (RevertQuery.new demoEnv demoEdit true)
      h0).2.2.2.2.2.2.2.2.2.2.2.2.1 false,
    (C25_last_edit_implies_software_revert noRightsEnv preflightPassed
      (fun h => by cases h)).2.2.2.2.2.2.2.2.2.2.2.2.2.2 rfl (by decide)⟩

/-! ## What `Kill` and `Restart` reset -/

/-- C23 (as amended): after `Kill()`, from every state, `preflightFinished`
and `rollingBack` are false, all five query slots are empty, the status text
is empty, the status is Killed and the timer is stopped, while the request
(edit reference, summary, minor flag, last-edit-only and force-software-revert
flags) is unchanged. `Restart()` is `Kill()` followed by a fresh start, and it
too leaves the request unchanged. -/
theorem C23_kill_resets (env : Env) (s : RevertQuery) :
    (Kill s).preflightFinished = false ∧ (Kill s).rollingBack = false ∧
    (Kill s).qPreflight = none ∧ (Kill s).qRevert = none ∧ (Kill s).qHistoryInfo = none ∧
    (Kill s).qRetrieve = none ∧ (Kill s).eqSoftwareRollback = none ∧
    (Kill s).CustomStatus = "" ∧ (Kill s).status = .StatusKilled ∧ (Kill s).timer = false ∧
    (Kill s).editToBeReverted = s.editToBeReverted ∧ (Kill s).Summary = s.Summary ∧
    (Kill s).MinorEdit = s.MinorEdit ∧ (Kill s).oneEditOnly = s.oneEditOnly ∧
    (Kill s).usingSR = s.usingSR ∧
    Restart env s = Process env { Kill s with status := .StatusNull } ∧
    (Restart env s).editToBeReverted = s.editToBeReverted ∧
    (Restart env s).oneEditOnly = s.oneEditOnly ∧ (Restart env s).usingSR = s.usingSR := by
  have hK : ∀ x : RevertQuery, (Process env x).usingSR = x.usingSR ∧
      (Process env x).oneEditOnly = x.oneEditOnly ∧
      (Process env x).editToBeReverted = x.editToBeReverted := by
    intro x
    rcases control_Process env x with h | h
    · exact ⟨congrArg Control.usingSR h, congrArg Control.oneEditOnly h,
        congrArg Control.editToBeReverted h⟩
    · rcases h with h | ⟨b, q, -, -, h⟩
      · exact ⟨congrArg Control.usingSR h, congrArg Control.oneEditOnly h,
          congrArg Control.editToBeReverted h⟩
      · exact ⟨congrArg Control.usingSR h, congrArg Control.oneEditOnly h,
          congrArg Control.editToBeReverted h⟩
  have hR := hK { Kill s with status := .StatusNull }
  refine ⟨by simp [Kill_eq], by simp [Kill_eq], by simp [Kill_eq], by simp [Kill_eq],
    by simp [Kill_eq], by simp [Kill_eq], by simp [Kill_eq], by simp [Kill_eq],
    by simp [Kill_eq], by simp [Kill_eq], by simp [Kill_eq], by simp [Kill_eq],
    by simp [Kill_eq], by simp [Kill_eq], by simp [Kill_eq], rfl, ?_, ?_, ?_⟩
  · show (Process env { Kill s with status := .StatusNull }).editToBeReverted = _
    rw [hR.2.2]
    simp [Kill_eq]
  · show (Process env { Kill s with status := .StatusNull }).oneEditOnly = _
    rw [hR.2.1]
    simp [Kill_eq]
  · show (Process env { Kill s with status := .StatusNull }).usingSR = _
    rw [hR.1]
    simp [Kill_eq]

/-- C23, concrete runs on which the claim as stated fails. `Kill` leaves the
selected target (revision 3 at depth 2, author B) and a set
`IgnorePreflightCheck` in place, where a freshly constructed workflow has the
unknown revision and the flag unset. After `Restart` the preflight slot and
the status text are those of the fresh start, not empty. The kept target is
used: restarted with a history in which every revision is by the author of the
reverted edit, the workflow asks for the content of revision 3. -/
theorem C23_kill_keeps_substate_counterexample :
    targetSelected.SR_RevID = 3 ∧
    (Kill targetSelected).SR_RevID = 3 ∧
    (RevertQuery.new demoEnv demoEdit true).SR_RevID = -1 ∧
    (Kill targetSelected).SR_Depth = 2 ∧ (Kill targetSelected).SR_Target = "B" ∧
    confirmedInRegistryPass.IgnorePreflightCheck = true ∧
    (Kill confirmedInRegistryPass).IgnorePreflightCheck = true ∧
    (RevertQuery.new conflictYesEnv demoEdit true).IgnorePreflightCheck = false ∧
    (Restart demoEnv targetSelected).qPreflight ≠ none ∧
    (Restart demoEnv targetSelected).CustomStatus ≠ "" ∧
    restartedSameAuthor.SR_RevID = 3 ∧
    restartedSameAuthor.qRetrieve = some (retrieveQuery demoEnv 3) := by
  decide

/-! ## Manual revert: the summary of the submitted edit -/

/-- C22 (as amended): when the content-fetch stage submits the edit, its
summary is the template after four whole-text replacements made one after the
other (`$1` by the original author, then `$2` by the restored-to author, then
`$3` by the depth, then `$4` by the target revision id), followed by the
attribution suffix; the template is the summary the workflow holds at that
stage, or the site's software-revert default summary when that is empty. The
summary the workflow holds was stored by `executeRollback` at commit. -/
theorem C22_manual_revert_summary (env : Env) (s : RevertQuery) (qr : ApiQuery)
    (hedit : s.eqSoftwareRollback = none) (hretr : s.qRetrieve = some qr)
    (hproc : qr.Processed = true) (hu : contentUsable env s qr = true) :
    (∃ info, GetNode qr.Nodes "rev" = some info ∧
      evaluateRevert env s = (false, { s with
        trace := s.trace ++ [Effect.EditPage s.editToBeReverted.Page.PageName info.Value
          (manualRevertSummary env s) s.MinorEdit],
        eqSoftwareRollback := some ⟨s.editToBeReverted.Page.PageName, info.Value,
          manualRevertSummary env s, s.MinorEdit, false, false, ""⟩,
        CustomStatus := env.l "editing-page" [] })) ∧
    submittedSummaries (evaluateRevert env s).2.trace =
      submittedSummaries s.trace ++ [manualRevertSummary env s] ∧
    (∀ s0 : RevertQuery, s0.rollingBack = false →
      (executeRollback env s0).Summary = commitSummary env s0) := by
  have hev : evaluateRevert env s = evaluateRevert_retrieve env qr s := by
    unfold evaluateRevert
    simp only [hedit, hretr]
  have hcommit : ∀ s0 : RevertQuery, s0.rollingBack = false →
      (executeRollback env s0).Summary = commitSummary env s0 := by
    intro s0 h0
    rw [executeRollback_eq env s0 h0]
    split_ifs <;> rfl
  unfold contentUsable at hu
  cases hF : qr.Failed
  · cases hnode : GetNode qr.Nodes "rev" with
    | none => simp [hF, hnode] at hu
    | some info =>
      simp only [hF, hnode, Bool.not_false, Bool.true_and, Bool.and_eq_true,
        decide_eq_true_eq] at hu
      obtain ⟨⟨hrev, hid⟩, hval⟩ := hu
      have hres : evaluateRevert env s = (false, { s with
          trace := s.trace ++ [Effect.EditPage s.editToBeReverted.Page.PageName info.Value
            (manualRevertSummary env s) s.MinorEdit],
          eqSoftwareRollback := some ⟨s.editToBeReverted.Page.PageName, info.Value,
            manualRevertSummary env s, s.MinorEdit, false, false, ""⟩,
          CustomStatus := env.l "editing-page" [] }) := by
        rw [hev]
        unfold evaluateRevert_retrieve
        simp [hproc, hF, hnode, hrev, hid, hval, emit, manualRevertSummary, replacedInTurn,
          summaryTemplate]
      refine ⟨⟨info, rfl, hres⟩, ?_, hcommit⟩
      rw [hres]
      simp [submittedSummaries, List.filterMap_append]
  · simp [hF] at hu

/-- C22, concrete runs on which the claim as stated fails. First run: the
request's summary is "Undid $1, back to $2" and the restored-to author is
named `B$3`; the `$3` inserted for `$2` is rewritten by the next replacement,
so the submitted summary names `B2`. Second run: the request's summary is
empty; the template of the submitted summary is the rollback default stored at
commit, not the software-revert default. -/
theorem C22_summary_counterexample :
    submittedSummaries (manualRevertSubmitted suffixEnv (summaryRequest "Undid $1, back to $2")
      [revNode "5" "A", revNode "4" "A", revNode "3" "B$3"] "3").trace
      = ["Undid A, back to B2 (HG)"] ∧
    specSummary suffixEnv "Undid $1, back to $2" "A" "B$3" "2" "3"
      = "Undid A, back to B$3 (HG)" ∧
    (summaryRequest "").Summary = "" ∧
    submittedSummaries (manualRevertSubmitted suffixEnv (summaryRequest "") demoHistory "3").trace
      = ["Reverted edits by A (HG)"] ∧
    specSummary suffixEnv suffixEnv.SoftwareRevertDefaultSummary "A" "B" "2" "3"
      = "Reverted edits by A to B (HG)" := by
  decide

theorem C22_manual_revert_summary_witness :
    contentUsable demoEnv (retrieveDone 3 [⟨"rev", [("revid", "3")], "old text"⟩])
      { ApiQuery.new .ActionQuery with
        Processed := true, Nodes := [⟨"rev", [("revid", "3")], "old text"⟩] } = true ∧
    manualRevertSummary demoEnv (retrieveDone 3 [⟨"rev", [("revid", "3")], "old text"⟩])
      = "Reverted edits by A to B (HG)" ∧
    submittedSummaries
      (evaluateRevert demoEnv (retrieveDone 3 [⟨"rev", [("revid", "3")], "old text"⟩])).2.trace =
      submittedSummaries (retrieveDone 3 [⟨"rev", [("revid", "3")], "old text"⟩]).trace ++
        [manualRevertSummary demoEnv (retrieveDone 3 [⟨"rev", [("revid", "3")], "old text"⟩])] :=
  ⟨by decide, by decide,
    (C22_manual_revert_summary demoEnv (retrieveDone 3 [⟨"rev", [("revid", "3")], "old text"⟩])
      { ApiQuery.new .ActionQuery with
        Processed := true, Nodes := [⟨"rev", [("revid", "3")], "old text"⟩] }
      rfl rfl rfl (by decide)).2.1⟩

/-! ## Manual revert: the conflict re-check of the history stage -/

theorem conflictStep_passed (env : Env) (passed resv : Bool) (s : RevertQuery)
    (e : ApiQueryResultNode) :
    (conflictStep env (passed, resv, s) e).1 =
      (passed && (!isNewer env s.editToBeReverted e || autoResolvable env s.editToBeReverted e)) := by
  unfold conflictStep isNewer autoResolvable
  simp only
  split_ifs <;> simp_all [emit]
  intro hp
  by_cases hk : s.editToBeReverted.RevID = env.WIKI_UNKNOWN_REVID
  · exact Or.inl (Or.inl hk)
  · rename_i h
    exact Or.inl (Or.inr (h hk))

theorem conflictScan_passed (env : Env) (revs : List ApiQueryResultNode) :
    ∀ (passed resv : Bool) (s : RevertQuery),
      (revs.foldl (conflictStep env) (passed, resv, s)).1 =
        (passed && recheckPasses env s.editToBeReverted revs) := by
  induction revs with
  | nil => intro passed resv s; simp [recheckPasses]
  | cons e rest ih =>
    intro passed resv s
    rw [List.foldl_cons]
    have h1 := conflictStep_passed env passed resv s e
    have h2 := (conflictStep_frame env passed resv s e).1
    cases hc : conflictStep env (passed, resv, s) e with
    | mk p r =>
      cases r with
      | mk v s1 =>
        rw [hc] at h1 h2
        simp only at h1 h2
        have he : s1.editToBeReverted = s.editToBeReverted := by rw [h2]
        rw [ih p v s1, h1, he]
        simp [recheckPasses, Bool.and_assoc]

/-- The conflict re-check changes nothing but `SR_Depth` (reset to 0) and
the log. -/
theorem afterRecheck_frame (env : Env) (revs : List ApiQueryResultNode) (s : RevertQuery) :
    afterRecheck env revs s =
      { s with SR_Depth := 0, trace := (afterRecheck env revs s).trace } ∧
    sameCounts s.trace (afterRecheck env revs s).trace := by
  obtain ⟨c1, c2⟩ := conflictScan_frame env revs true false { s with SR_Depth := 0 }
  exact ⟨c1, c2⟩

/-- Closed form of the history stage once the history query has completed
without failure and returned revisions: target selection when the conflict
re-check passes, `displayError` otherwise. -/
theorem evaluateRevert_history_eq (env : Env) (s : RevertQuery) (qh : ApiQuery)
    (hproc : qh.Processed = true) (hF : qh.Failed = false)
    (hne : (GetNodes qh.Nodes "rev").length ≠ 0) :
    evaluateRevert_history env qh s =
      if recheckPasses env s.editToBeReverted (GetNodes qh.Nodes "rev") = true then
        selectTarget env (GetNodes qh.Nodes "rev") (afterRecheck env (GetNodes qh.Nodes "rev") s)
      else
        (true, displayError (afterRecheck env (GetNodes qh.Nodes "rev") s)
          (env.l "revert-cannotundo" [s.editToBeReverted.Page.PageName]) "") := by
  obtain ⟨c1, c2⟩ := conflictScan_frame env (GetNodes qh.Nodes "rev") true false
    { s with SR_Depth := 0 }
  have hp := conflictScan_passed env (GetNodes qh.Nodes "rev") true false { s with SR_Depth := 0 }
  unfold evaluateRevert_history afterRecheck
  simp only [hproc, Bool.not_true, Bool.false_eq_true, if_false]
  rw [if_neg (by simp [hF]), if_neg hne]
  cases hc : (GetNodes qh.Nodes "rev").foldl (conflictStep env) (true, false,
    { s with SR_Depth := 0 }) with
  | mk passed r =>
    cases r with
    | mk resv s1 =>
      rw [hc] at c1 hp
      simp only [Bool.true_and] at c1 hp
      have e1 : s1.editToBeReverted = s.editToBeReverted := by rw [c1]
      rw [← hp]
      cases passed
      · simp [e1]
      · simp only [Bool.not_true, Bool.false_eq_true, if_false, if_true]
        rfl

/-- Target selection never asks the user. -/
theorem selectTarget_hookCalls (env : Env) (revs : List ApiQueryResultNode) (s : RevertQuery) :
    hookCalls (selectTarget env revs s).2.trace = hookCalls s.trace := by
  unfold selectTarget
  rcases findTarget_cases env revs s with ⟨w1, -, -, -, -, w6⟩ | ⟨w1, -, w3, -⟩
  · cases hw : findTarget env revs s with
    | mk ret s2 =>
      rw [hw] at w1 w6
      simp only at w1 w6
      subst w1
      simpa using w6
  · cases hw : findTarget env revs s with
    | mk ret s2 =>
      rw [hw] at w1 w3
      simp only at w1 w3
      subst w1
      have h2 : hookCalls s2.trace = hookCalls s.trace := w3.1
      simp only [Bool.false_eq_true, if_false]
      split_ifs
      · simp [emit, (displayError_outcome s2 _ _).2.2.2.2.1, h2]
      · simp [(displayError_outcome s2 _ _).2.2.2.2.1, h2]
      · simp [emit, h2]

/-- C24 (as amended): in the history stage, once the history query has
completed without failure and returned revisions, the conflict re-check lets
the stage go on to target selection exactly when every revision newer than the
reverted edit is resolved by the stage itself (auto-resolve and
revert-new-edits-by-same-author are on and the revision names the author of
the reverted edit). Otherwise the stage ends the workflow through
`displayError` with the text `revert-cannotundo`: the error outcome, one
failure notification, no query. The user is never asked. -/
theorem C24_history_recheck (env : Env) (s : RevertQuery) (qh : ApiQuery)
    (hproc : qh.Processed = true) (hF : qh.Failed = false)
    (hne : (GetNodes qh.Nodes "rev").length ≠ 0) :
    (recheckPasses env s.editToBeReverted (GetNodes qh.Nodes "rev") = true →
      evaluateRevert_history env qh s =
        selectTarget env (GetNodes qh.Nodes "rev") (afterRecheck env (GetNodes qh.Nodes "rev") s)) ∧
    (recheckPasses env s.editToBeReverted (GetNodes qh.Nodes "rev") = false →
      evaluateRevert_history env qh s =
        (true, displayError (afterRecheck env (GetNodes qh.Nodes "rev") s)
          (env.l "revert-cannotundo" [s.editToBeReverted.Page.PageName]) "") ∧
      errorOutcome (evaluateRevert_history env qh s).2 ∧
      failureCalls (evaluateRevert_history env qh s).2.trace = failureCalls s.trace + 1 ∧
      queryCalls (evaluateRevert_history env qh s).2.trace = queryCalls s.trace) ∧
    hookCalls (evaluateRevert_history env qh s).2.trace = hookCalls s.trace := by
  have hev := evaluateRevert_history_eq env s qh hproc hF hne
  have hs : sameCounts s.trace (afterRecheck env (GetNodes qh.Nodes "rev") s).trace :=
    (afterRecheck_frame env (GetNodes qh.Nodes "rev") s).2
  refine ⟨fun h => by rw [hev, if_pos h], fun h => ?_, ?_⟩
  · have h' : ¬ recheckPasses env s.editToBeReverted (GetNodes qh.Nodes "rev") = true := by
      simp [h]
    rw [hev, if_neg h']
    obtain ⟨d1, d2, -, d4, -, -, -⟩ := displayError_outcome
      (afterRecheck env (GetNodes qh.Nodes "rev") s)
      (env.l "revert-cannotundo" [s.editToBeReverted.Page.PageName]) ""
    exact ⟨rfl, d1, by rw [d2, hs.2.2.2], by rw [d4, hs.2.1]⟩
  · rw [hev]
    split_ifs
    · rw [selectTarget_hookCalls, hs.1]
    · rw [(displayError_outcome _ _ _).2.2.2.2.1, hs.1]

/-- C24, concrete runs on which the claim as stated fails. With auto-resolve
off and a user who answers yes to every question, a history with the newer
revision 6 by B ends the workflow in the error outcome: the user is not asked,
no target is selected and no content query is issued. With auto-resolve on the
same history ends in the same error outcome, not in the neutral policy-abort
outcome (status text "Stopped", abort text in the result). -/
theorem C24_recheck_counterexample :
    yesEnv.AutomaticallyResolveConflicts = false ∧
    yesEnv.ShowYesNoQuestion "" "" false = true ∧
    (manualRevertTo yesEnv softwareRequest newerByOther).status = .StatusDone ∧
    (manualRevertTo yesEnv softwareRequest newerByOther).Result = some ⟨"", "", true⟩ ∧
    hookCalls (manualRevertTo yesEnv softwareRequest newerByOther).trace = 0 ∧
    failureCalls (manualRevertTo yesEnv softwareRequest newerByOther).trace = 1 ∧
    queryCalls (manualRevertTo yesEnv softwareRequest newerByOther).trace = 2 ∧
    (manualRevertTo yesEnv softwareRequest newerByOther).qRetrieve = none ∧
    (manualRevertTo yesEnv softwareRequest newerByOther).SR_RevID = -1 ∧
    autoEnv.AutomaticallyResolveConflicts = true ∧
    (manualRevertTo autoEnv softwareRequest newerByOther).status = .StatusDone ∧
    (manualRevertTo autoEnv softwareRequest newerByOther).Result = some ⟨"", "", true⟩ ∧
    (manualRevertTo autoEnv softwareRequest newerByOther).CustomStatus = "" := by
  decide

theorem C24_history_recheck_witness :
    recheckPasses demoEnv demoEdit (GetNodes newerByOther "rev") = false ∧
    errorOutcome (evaluateRevert_history demoEnv (historyAnswer newerByOther)
      (historyDone demoEnv demoEdit newerByOther)).2 ∧
    recheckPasses autoEnv demoEdit (GetNodes newerBySame "rev") = true ∧
    evaluateRevert_history autoEnv (historyAnswer newerBySame)
        (historyDone autoEnv demoEdit newerBySame) =
      selectTarget autoEnv (GetNodes newerBySame "rev")
        (afterRecheck autoEnv (GetNodes newerBySame "rev")
          (historyDone autoEnv demoEdit newerBySame)) ∧
    (evaluateRevert_history autoEnv (historyAnswer newerBySame)
      (historyDone autoEnv demoEdit newerBySame)).2.SR_RevID = 3 :=
  ⟨by decide,
    ((C24_history_recheck demoEnv (historyDone demoEnv demoEdit newerByOther)
      (historyAnswer newerByOther) rfl rfl (by decide)).2.1 (by decide)).2.1,
    by decide,
    (C24_history_recheck autoEnv (historyDone autoEnv demoEdit newerBySame)
      (historyAnswer newerBySame) rfl rfl (by decide)).1 (by decide),
    by decide⟩

/-! ## Finalisation -/

theorem quiet_refl (s : RevertQuery) : quiet s s := ⟨rfl, rfl, rfl, rfl, rfl⟩

theorem quiet_trans {s t u : RevertQuery} (h1 : quiet s t) (h2 : quiet t u) : quiet s u :=
  ⟨h2.1.trans h1.1, h2.2.1.trans h1.2.1, h2.2.2.1.trans h1.2.2.1, h2.2.2.2.1.trans h1.2.2.2.1,
    h2.2.2.2.2.trans h1.2.2.2.2⟩

/-- A tick on a final workflow produces nothing and leaves it final. -/
theorem OnTick_of_final (env : Env) (s : RevertQuery) (h : final s) :
    final (OnTick env s) ∧ quiet s (OnTick env s) ∧ (OnTick env s).status = s.status ∧
    (OnTick env s).Result = s.Result := by
  obtain ⟨hs, hf⟩ := h
  rcases hs with hd | ⟨he, ⟨hpf, hrb⟩ | ⟨hpf, hq⟩⟩
  · have : OnTick env s = emit Effect.UnregisterConsumerTmr
        (if s.timer = true then { s with timer := false } else s) := by
      unfold OnTick OnTick_finish IsProcessed
      simp [hd]
    rw [this]
    cases ht : s.timer <;>
      simp [final, settled, quiet, emit, hd]
  · have : OnTick env s = emit Effect.UnregisterConsumerTmr
        (if s.timer = true then { s with timer := false } else s) := by
      unfold OnTick OnTick_finish IsProcessed
      simp [he, hpf, hrb]
    rw [this]
    cases ht : s.timer <;>
      simp [final, settled, quiet, emit, he, hpf, hrb]
  · obtain ⟨ho, hi⟩ := hf he hpf
    have : OnTick env s = s := by
      unfold OnTick evaluatePreflightCheck
      simp [he, hpf, ho, hi, hq]
    rw [this]
    exact ⟨⟨Or.inr ⟨he, Or.inr ⟨hpf, hq⟩⟩, fun _ _ => ⟨ho, hi⟩⟩, quiet_refl s, rfl, rfl⟩

/-- Any number of ticks on a final workflow produces nothing. -/
theorem ticks_of_final (envs : List Env) :
    ∀ s : RevertQuery, final s →
      final (ticks envs s) ∧ quiet s (ticks envs s) ∧ (ticks envs s).status = s.status ∧
      (ticks envs s).Result = s.Result := by
  induction envs with
  | nil => intro s h; exact ⟨h, quiet_refl s, rfl, rfl⟩
  | cons env rest ih =>
    intro s h
    obtain ⟨h1, h2, h3, h4⟩ := OnTick_of_final env s h
    obtain ⟨i1, i2, i3, i4⟩ := ih (OnTick env s) h1
    exact ⟨i1, quiet_trans h2 i2, i3.trans h3, i4.trans h4⟩

/-- On a settled workflow `IsProcessed` reports true and does nothing. -/
theorem IsProcessed_of_settled (env : Env) (s : RevertQuery) (h : settled s) :
    IsProcessed env s = (true, s) := by
  unfold IsProcessed
  rcases h with hd | ⟨he, -⟩
  · simp [hd]
  · simp [he]

/-- The outcome of a step does not depend on what the start state holds
besides status, result and the number of notifications sent so far. -/
theorem tickOutcome_from {s0 s x : RevertQuery} (h : tickOutcome s0 x)
    (h1 : s0.status = s.status) (h2 : s0.Result = s.Result)
    (h3 : failureCalls s0.trace = failureCalls s.trace) : tickOutcome s x := by
  rcases h with ⟨a, b, c⟩ | ⟨a, b⟩
  · exact Or.inl ⟨by rw [a, h3], b, c⟩
  · exact Or.inr ⟨by rw [a, h3], by rw [← h1, ← h2]; exact b⟩

theorem tickOutcome_same (s : RevertQuery) : tickOutcome s s :=
  Or.inr ⟨rfl, Or.inl ⟨rfl, rfl⟩⟩

/-- A call of `displayError` notifies once and ends the workflow as failed. -/
theorem tickOutcome_displayError (s s1 : RevertQuery) (error reason : String)
    (h : failureCalls s1.trace = failureCalls s.trace) :
    tickOutcome s (displayError s1 error reason) := by
  left
  refine ⟨?_, Or.inl ?_, ?_⟩ <;> simp [displayError_eq, h]

/-- A call of `cancelRevert` notifies once and ends the workflow as failed. -/
theorem tickOutcome_cancelRevert (s s1 : RevertQuery)
    (h : failureCalls s1.trace = failureCalls s.trace) :
    tickOutcome s (cancelRevert s1) := by
  left
  refine ⟨?_, Or.inl ?_, ?_⟩ <;> simp [cancelRevert_eq, h]

/-- Outcome of target selection. -/
theorem tickOutcome_selectTarget (env : Env) (revs : List ApiQueryResultNode) (s : RevertQuery) :
    tickOutcome s (selectTarget env revs s).2 := by
  unfold selectTarget
  rcases findTarget_cases env revs s with ⟨w1, w2, w3, -, -, -⟩ | ⟨w1, w2, w3, -⟩
  · cases hw : findTarget env revs s with
    | mk ret s2 =>
      rw [hw] at w1 w2 w3
      simp only at w1 w2 w3
      subst w1
      simp only [if_true]
      exact Or.inl ⟨w3, Or.inl w2.1, by rw [w2.2.1]; rfl⟩
  · cases hw : findTarget env revs s with
    | mk ret s2 =>
      rw [hw] at w1 w2 w3
      simp only at w1 w2 w3
      subst w1
      have f1 : failureCalls s2.trace = failureCalls s.trace := w3.2.2.2
      have f2 : s2.status = s.status := by rw [w2]
      have f3 : s2.Result = s.Result := by rw [w2]
      simp only [Bool.false_eq_true, if_false]
      split_ifs
      · have := tickOutcome_displayError s s2 (env.l "revert-fail"
          [s2.editToBeReverted.Page.PageName, "because it was edited meanwhile"]) "" f1
        rcases this with ⟨a, b, c⟩ | ⟨a, b⟩
        · exact Or.inl ⟨by simpa [emit] using a, by simpa [emit, settled] using b,
            by simpa [emit] using c⟩
        · exact Or.inr ⟨by simpa [emit] using a, by simpa [emit] using b⟩
      · dsimp only
        exact tickOutcome_displayError s s2 _ _ f1
      · exact Or.inr ⟨by simp [emit, f1], Or.inl ⟨by simp [emit, f2], by simp [emit, f3]⟩⟩

/-- Outcome of the history stage. -/
theorem tickOutcome_evaluateRevert_history (env : Env) (qh : ApiQuery) (s : RevertQuery) :
    tickOutcome s (evaluateRevert_history env qh s).2 := by
  by_cases hproc : qh.Processed = true
  · by_cases hF : qh.Failed = true
    · have : evaluateRevert_history env qh s = (true, displayError s
          ("Failed to retrieve a list of edits made to this page: " ++ qh.FailureReason) "") := by
        unfold evaluateRevert_history
        simp [hproc, hF]
      rw [this]
      exact tickOutcome_displayError s s
        ("Failed to retrieve a list of edits made to this page: " ++ qh.FailureReason) "" rfl
    · by_cases hlen : (GetNodes qh.Nodes "rev").length = 0
      · have : evaluateRevert_history env qh s = (true, displayError s
            "Failed to retrieve a list of edits made to this page, query returned no data" "") := by
          unfold evaluateRevert_history
          simp only [hproc, Bool.not_true, Bool.false_eq_true, if_false]
          rw [if_neg hF, if_pos hlen]
        rw [this]
        exact tickOutcome_displayError s s
          "Failed to retrieve a list of edits made to this page, query returned no data" "" rfl
      · rw [evaluateRevert_history_eq env s qh hproc (by simpa using hF) hlen]
        obtain ⟨c1, c2⟩ := afterRecheck_frame env (GetNodes qh.Nodes "rev") s
        split_ifs
        · refine tickOutcome_from (tickOutcome_selectTarget env _ _) ?_ ?_ c2.2.2.2
          · rw [c1]
          · rw [c1]
        · dsimp only
          exact tickOutcome_displayError s _ _ _ c2.2.2.2
  · have : evaluateRevert_history env qh s = (false, s) := by
      unfold evaluateRevert_history
      simp [hproc]
    rw [this]
    exact tickOutcome_same s

/-- Outcome of `evaluateRevert`. -/
theorem tickOutcome_evaluateRevert (env : Env) (s : RevertQuery) :
    tickOutcome s (evaluateRevert env s).2 := by
  cases hedit : s.eqSoftwareRollback with
  | some eq =>
    by_cases hproc : eq.Processed = true
    · rw [evaluateRevert_edit_eq env s eq hedit hproc]
      by_cases hF : eq.Failed = true
      · rw [if_pos hF]
        left
        refine ⟨by simp, Or.inr ⟨rfl, Or.inr ⟨rfl, rfl⟩⟩, rfl⟩
      · rw [if_neg hF]
        right
        exact ⟨by simp, Or.inr (Or.inl rfl)⟩
    · have : evaluateRevert env s = (false, s) := by
        unfold evaluateRevert
        simp [hedit, hproc]
      rw [this]
      exact tickOutcome_same s
  | none =>
    cases hretr : s.qRetrieve with
    | some qr =>
      have hev : evaluateRevert env s = evaluateRevert_retrieve env qr s := by
        unfold evaluateRevert
        simp only [hedit, hretr]
      rw [hev]
      by_cases hproc : qr.Processed = true
      · rcases evaluateRevert_retrieve_cases env s qr hproc with
          ⟨-, info, summary, -, heq⟩ | ⟨-, error, reason, heq⟩
        · rw [heq]
          right
          exact ⟨by simp, Or.inl ⟨rfl, rfl⟩⟩
        · rw [heq]
          dsimp only
          exact tickOutcome_displayError s s error reason rfl
      · have : evaluateRevert_retrieve env qr s = (false, s) := by
          unfold evaluateRevert_retrieve
          simp [hproc]
        rw [this]
        exact tickOutcome_same s
    | none =>
      cases hhist : s.qHistoryInfo with
      | none =>
        have : evaluateRevert env s = (false, s) := by
          unfold evaluateRevert
          simp only [hedit, hretr, hhist]
        rw [this]
        exact tickOutcome_same s
      | some qh =>
        rw [evaluateRevert_eq_history env s qh hedit hretr hhist]
        exact tickOutcome_evaluateRevert_history env qh s

/-- Outcome of `evaluateRevertQueryResults` when preflight has finished and a
strategy has been committed to. -/
theorem tickOutcome_evaluateRevertQueryResults (env : Env) (s : RevertQuery)
    (hpf : s.preflightFinished = true) (hrb : s.rollingBack = true) :
    tickOutcome s (evaluateRevertQueryResults env s).2 := by
  cases hSR : s.usingSR
  · by_cases hst : s.status = .StatusIsSuspended
    · have : evaluateRevertQueryResults env s = (false, s) := by
        unfold evaluateRevertQueryResults
        simp [hSR, hst]
      rw [this]
      exact tickOutcome_same s
    · cases hq : s.qRevert with
      | none =>
        have : evaluateRevertQueryResults env s = (false, s) := by
          unfold evaluateRevertQueryResults
          simp [hSR, hst, hq]
        rw [this]
        exact tickOutcome_same s
      | some q =>
        by_cases hproc : q.Processed = true
        · by_cases hbad : errorCode q = some "badtoken"
          · rw [evaluateRevertQueryResults_badtoken env s q hSR hst hq hproc hbad]
            right
            exact ⟨by simp, Or.inr (Or.inr rfl)⟩
          · rw [evaluateRevertQueryResults_eq env s q hSR hst hq hproc hbad]
            dsimp only
            split_ifs
            · left
              exact ⟨by simp, Or.inr ⟨rfl, Or.inl ⟨hpf, hrb⟩⟩, rfl⟩
            · right
              exact ⟨by simp, Or.inr (Or.inl rfl)⟩
        · have : evaluateRevertQueryResults env s = (false, s) := by
            unfold evaluateRevertQueryResults
            simp [hSR, hst, hq, hproc]
          rw [this]
          exact tickOutcome_same s
  · have : evaluateRevertQueryResults env s = evaluateRevert env s := by
      unfold evaluateRevertQueryResults
      simp only [hSR, if_true]
    rw [this]
    exact tickOutcome_evaluateRevert env s

/-- Outcome of the end of `OnTick` when the status is Done, or preflight has
finished and a strategy has been committed to. -/
theorem tickOutcome_OnTick_finish (env : Env) (s : RevertQuery)
    (h : s.status = .StatusDone ∨ (s.preflightFinished = true ∧ s.rollingBack = true)) :
    tickOutcome s (OnTick_finish env s) := by
  have hfin : ∀ (b : Bool) (x : RevertQuery), tickOutcome s x →
      tickOutcome s (if b = true then emit Effect.UnregisterConsumerTmr
        (if x.timer = true then { x with timer := false } else x) else x) := by
    intro b x hx
    cases b
    · exact hx
    · have e : ∀ y : RevertQuery, y = emit Effect.UnregisterConsumerTmr
          (if x.timer = true then { x with timer := false } else x) →
          y.status = x.status ∧ y.Result = x.Result ∧
          failureCalls y.trace = failureCalls x.trace ∧
          y.preflightFinished = x.preflightFinished ∧ y.rollingBack = x.rollingBack ∧
          y.qPreflight = x.qPreflight := by
        intro y hy
        subst hy
        cases x.timer <;> simp [emit]
      obtain ⟨e1, e2, e3, e4, e5, e6⟩ := e _ rfl
      simp only [if_true]
      rcases hx with ⟨a, b, c⟩ | ⟨a, b⟩
      · refine Or.inl ⟨by rw [e3, a], ?_, by rw [e2]; exact c⟩
        unfold settled at b ⊢
        rw [e1, e4, e5, e6]
        exact b
      · refine Or.inr ⟨by rw [e3, a], ?_⟩
        rw [e1, e2]
        exact b
  unfold OnTick_finish IsProcessed
  by_cases h1 : s.status = .StatusIsSuspended
  · rw [if_pos h1]
    exact hfin false s (tickOutcome_same s)
  · rw [if_neg h1]
    by_cases h2 : s.status = .StatusDone ∨ s.status = .StatusInError ∨ s.status = .StatusKilled
    · rw [if_pos h2]
      exact hfin true s (tickOutcome_same s)
    · rw [if_neg h2]
      by_cases h3 : (!s.preflightFinished) = true
      · rw [if_pos h3]
        exact hfin false s (tickOutcome_same s)
      · rw [if_neg h3]
        rcases h with hd | ⟨hpf, hrb⟩
        · exact absurd (Or.inl hd) h2
        · have := tickOutcome_evaluateRevertQueryResults env s hpf hrb
          cases hev : evaluateRevertQueryResults env s with
          | mk b x =>
            rw [hev] at this
            dsimp only at this ⊢
            exact hfin b x this

/-- Outcome of `evaluatePreflightCheck`. -/
theorem tickOutcome_evaluatePreflightCheck (env : Env) (s : RevertQuery) :
    tickOutcome s (evaluatePreflightCheck env s) := by
  unfold evaluatePreflightCheck
  by_cases hflag : (s.oneEditOnly || s.IgnorePreflightCheck) = true
  · rw [if_pos hflag]
    exact Or.inr ⟨rfl, Or.inl ⟨rfl, rfl⟩⟩
  · rw [if_neg hflag]
    cases hq : s.qPreflight with
    | none => exact tickOutcome_same s
    | some q =>
      dsimp only
      by_cases hproc : q.Processed = true
      · rw [if_neg (by simp [hproc])]
        by_cases hF : q.Failed = true
        · rw [if_pos hF]
          left
          refine ⟨?_, Or.inl ?_, ?_⟩ <;>
            simp [emit, Kill_eq, QueryResult.new, QueryResult.SetError]
        · rw [if_neg hF]
          generalize evaluatePreflightCheck_scan env s.editToBeReverted (GetNodes q.Nodes "rev") = r
          obtain ⟨m, p, ps⟩ := r
          dsimp only
          generalize (if (m && env.ConfirmMultipleEdits) = true then false else ps) = passed
          cases passed
          rotate_left
          · rw [if_neg (by simp)]
            exact Or.inr ⟨rfl, Or.inl ⟨rfl, rfl⟩⟩
          · generalize hr : (ite (env.AutomaticallyResolveConflicts = true) _ (false, s)) = r
            have hprop : (r.1 = true ∧ tickOutcome s r.2) ∨
                (r.1 = false ∧ r.2.status = s.status ∧ r.2.Result = s.Result ∧
                  failureCalls r.2.trace = failureCalls s.trace) := by
              rw [← hr]
              split_ifs
              · exact Or.inl ⟨rfl, tickOutcome_cancelRevert s _ (by simp [emit])⟩
              · exact Or.inr ⟨rfl, rfl, rfl, by simp [emit]⟩
              · exact Or.inr ⟨rfl, rfl, rfl, by simp [emit]⟩
              · exact Or.inl ⟨rfl, tickOutcome_cancelRevert s _ (by simp [emit])⟩
              · exact Or.inr ⟨rfl, rfl, rfl, rfl⟩
            clear hr
            obtain ⟨b, x⟩ := r
            dsimp only at hprop
            rcases hprop with ⟨hb, hx⟩ | ⟨hb, hx1, hx2, hx3⟩
            · subst hb
              rw [if_pos (by rfl), if_pos rfl]
              exact hx
            · subst hb
              rw [if_pos (by rfl), if_neg (by simp)]
              split_ifs <;>
                first
                | (left
                   refine ⟨?_, Or.inl ?_, ?_⟩ <;>
                     simp [emit, freeResources_eq, QueryResult.new, QueryResult.SetErrorMsg, hx3] <;>
                     done)
                | (right
                   refine ⟨?_, Or.inl ⟨?_, ?_⟩⟩ <;> simp [emit, hx1, hx2, hx3])
      · rw [if_pos (by simp [hproc])]
        exact tickOutcome_same s

/-- Outcome of the first call of `executeRollback`. -/
theorem tickOutcome_executeRollback (env : Env) (s : RevertQuery) (hrb : s.rollingBack = false) :
    tickOutcome s (executeRollback env s) := by
  rw [executeRollback_eq env s hrb]
  by_cases hSR : s.usingSR = true
  · rw [if_pos hSR]
    exact Or.inr ⟨by simp [committed], Or.inl ⟨rfl, rfl⟩⟩
  · rw [if_neg hSR]
    by_cases hR : env.Rights.contains "rollback" = false
    · rw [if_pos hR]
      exact Or.inr ⟨by simp [committed], Or.inl ⟨rfl, rfl⟩⟩
    · rw [if_neg hR]
      by_cases hT : env.Token_Rollback = ""
      · rw [if_pos hT]
        exact Or.inl ⟨by simp [committed], Or.inl rfl, rfl⟩
      · rw [if_neg hT]
        right
        refine ⟨?_, Or.inl ⟨rfl, rfl⟩⟩
        dsimp only
        split_ifs <;> simp [committed]

/-- Outcome of `OnTick`. -/
theorem tickOutcome_OnTick (env : Env) (s : RevertQuery) : tickOutcome s (OnTick env s) := by
  unfold OnTick
  split_ifs with h1 h2 h3 h4
  · exact tickOutcome_same s
  · exact tickOutcome_evaluatePreflightCheck env s
  · exact tickOutcome_executeRollback env s (by simpa using h4)
  · exact tickOutcome_OnTick_finish env s (Or.inr ⟨by simpa using h3, by simpa using h4⟩)
  · exact tickOutcome_OnTick_finish env s (Or.inl (not_not.mp h2))

/-- C21 (as amended): finalisation is idempotent on a final workflow, that is
once the status is Done, or InError after a failed rollback, or InError after
a failed edit submission when neither last-edit-only nor
`IgnorePreflightCheck` is set: any number of further `OnTick` calls emits no
history record, sends no failure notification, applies no penalty and issues
no query or edit, and leaves status and result as they are; `IsProcessed`
reports true without doing anything. Every tick either sends the failure
notification exactly once and ends the workflow with a failed result, or sends
none and does not newly fail the workflow. -/
theorem C21_finalisation (env : Env) (s : RevertQuery) :
    (final s → ∀ envs, quiet s (ticks envs s) ∧ (ticks envs s).status = s.status ∧
      (ticks envs s).Result = s.Result) ∧
    (settled s → IsProcessed env s = (true, s)) ∧
    (s.status = .StatusDone → final s) ∧
    (settled s → s.oneEditOnly = false → s.IgnorePreflightCheck = false → final s) ∧
    tickOutcome s (OnTick env s) := by
  refine ⟨fun h envs => (ticks_of_final envs s h).2, IsProcessed_of_settled env s, ?_, ?_,
    tickOutcome_OnTick env s⟩
  · intro hd
    refine ⟨Or.inl hd, fun he => ?_⟩
    rw [hd] at he
    cases he
  · intro hs ho hi
    exact ⟨hs, fun _ _ => ⟨ho, hi⟩⟩

/-- C21, concrete run on which the claim as stated fails: a last-edit-only
manual revert whose edit submission fails ends in InError with one failure
notification, the penalty applied once and the timer stopped. Two further
`OnTick` calls finish preflight and commit again: the penalty is applied a second time and a new history
query is issued. -/
theorem C21_refinalised_counterexample :
    lastEditFailed.status = .StatusInError ∧
    lastEditFailed.Result.map (fun r => r.Failed) = some true ∧
    lastEditFailed.timer = false ∧
    failureCalls lastEditFailed.trace = 1 ∧
    queryCalls lastEditFailed.trace = 3 ∧
    lastEditFailed.editToBeReverted.User.BadnessScore = 200 ∧
    (ticks [demoEnv, demoEnv] lastEditFailed).editToBeReverted.User.BadnessScore = 400 ∧
    queryCalls (ticks [demoEnv, demoEnv] lastEditFailed).trace = 4 ∧
    (ticks [demoEnv, demoEnv] lastEditFailed).qHistoryInfo ≠ none := by
  decide

theorem C21_finalisation_witness :
    emptyTokenRun.status = .StatusDone ∧
    failureCalls emptyTokenRun.trace = 1 ∧
    (quiet emptyTokenRun (ticks [emptyTokenEnv, emptyTokenEnv, emptyTokenEnv] emptyTokenRun) ∧
      (ticks [emptyTokenEnv, emptyTokenEnv, emptyTokenEnv] emptyTokenRun).status =
        emptyTokenRun.status ∧
      (ticks [emptyTokenEnv, emptyTokenEnv, emptyTokenEnv] emptyTokenRun).Result =
        emptyTokenRun.Result) :=
  ⟨by decide, by decide,
    (C21_finalisation emptyTokenEnv emptyTokenRun).1
      ((C21_finalisation emptyTokenEnv emptyTokenRun).2.2.1 (by decide))
      [emptyTokenEnv, emptyTokenEnv, emptyTokenEnv]⟩

end Huggle
